import Mathlib

/-!
# renc-sys: the libRebol embedding boundary

A development over `src/renc/include/rebol.h` and `src/renc/shim/valist.c`:
the entry-point table `RL_LIB`, the exported shims of `valist.c`, the
`rebX_inline` functions of both branches of `rebol.h`, the sentinel `rebEND`,
and the accessor macros.

C values are embedded as follows.  Every pointer type is `Ptr`; `size_t`,
`uintptr_t`, `uint32_t`, `unsigned int` and `unsigned char` are `Nat`;
`intptr_t`, `int64_t` and `int` are `Int`; `bool` is `Bool`; a `double` is
carried as an uninterpreted bit pattern.  The stubs forward these values and
never compute with them.  A call into the runtime is a state transformer that
ends in an `Outcome`: it returns, or it leaves through the runtime's failure
propagation.

The `RL_` functions are declared in `rebol.h` and defined elsewhere, so they
are a parameter (`Host`).  Calls are observed on a recording host; claims about
what the runtime itself does are settled on a model of it after the spec.
-/

namespace Renc

/-! ## C values -/

/-- A C pointer value: the null pointer, the address of the array of a string
literal (its characters followed by a terminating zero byte), or the address
of any other object or function, told apart by an identifier. -/
inductive Ptr where
  | null
  | strLit (chars : List Nat)
  | obj (id : Nat)
  deriving DecidableEq, Repr

/-- The numeric value of a pointer compared against the constant 0: only the
null pointer compares equal to zero; the address of an object never does. -/
def Ptr.isZero : Ptr → Bool
  | .null => true
  | .strLit _ => false
  | .obj _ => false

/-- The bytes of every object that is not a string literal, from its first
byte on, by identifier; `none` for an object that cannot be read. -/
abbrev Memory := Nat → Option (List Nat)

/-- The bytes a pointer points at: nothing for the null pointer, the
characters and then a zero byte for a string literal, and what the memory
holds for any other object. -/
def Ptr.pointee (mem : Memory) : Ptr → Option (List Nat)
  | .null => none
  | .strLit chars => some (chars ++ [0])
  | .obj id => mem id

abbrev size_t := Nat
abbrev uintptr_t := Nat
abbrev intptr_t := Int
abbrev int64_t := Int
abbrev uint32_t := Nat
abbrev int := Int
abbrev unsigned_int := Nat
abbrev unsigned_char := Nat

/-- A `double`, carried as its bit pattern. -/
structure double where
  bits : Nat
  deriving DecidableEq, Repr

/-- The state of a `va_list`: the variable arguments not yet read, next one
first.  Every variable argument of this API is a pointer. -/
structure va_list where
  pending : List Ptr
  deriving DecidableEq, Repr

/-- The effect of `va_start(va, p)` in a function `f(..., const void *p, ...)`:
`va` stands at the first argument the caller passed after `p`. -/
def va_start (rest : List Ptr) : va_list := ⟨rest⟩

/-- The cast `(T*)n` of an integer constant to a pointer: the constant 0 gives
the null pointer, any other value the object at that address. -/
def Ptr.ofInteger (n : Nat) : Ptr := if n = 0 then Ptr.null else Ptr.obj n

/-- `rebNull` of rebol.h: `((REBVAL*)0)`. -/
def rebNull : Ptr := Ptr.ofInteger 0

/-- `rebEND` of rebol.h: `((const void*)"\x80")`. -/
def rebEND : Ptr := Ptr.strLit [0x80]

/-! ## Calls into the runtime -/

/-- How a call ends.  `ret` is an ordinary return.  `jump` is the runtime's
failure propagation leaving the call without returning to the caller.
`undefined` is control reaching `__builtin_unreachable()`, and `hang` is the
`while (1) { }` of `msvc_unreachable`. -/
inductive Outcome (α : Type) where
  | ret (a : α)
  | jump (e : Ptr)
  | undefined
  | hang
  deriving DecidableEq, Repr

/-- A C function body over the runtime state `σ`. -/
def Api (σ : Type) (α : Type) : Type := σ → Outcome α × σ

/-- Sequencing of C statements: the next statement runs only when the
previous one returned. -/
def Api.bind {σ α β : Type} (m : Api σ α) (f : α → Api σ β) : Api σ β := fun s =>
  match m s with
  | (Outcome.ret a, s1) => f a s1
  | (Outcome.jump e, s1) => (Outcome.jump e, s1)
  | (Outcome.undefined, s1) => (Outcome.undefined, s1)
  | (Outcome.hang, s1) => (Outcome.hang, s1)

instance (σ : Type) : Monad (Api σ) where
  pure a := fun s => (Outcome.ret a, s)
  bind := Api.bind

/-- The three definitions rebol.h gives `DEAD_END`, chosen by the compiler:
`__builtin_unreachable()`, `msvc_unreachable()`, or nothing. -/
inductive DeadEnd where
  | builtin_unreachable
  | msvc_unreachable
  | empty
  deriving DecidableEq, Repr

/-- The statement `DEAD_END;`. -/
def DEAD_END {σ : Type} (d : DeadEnd) : Api σ Unit := fun s =>
  match d with
  | .builtin_unreachable => (Outcome.undefined, s)
  | .msvc_unreachable => (Outcome.hang, s)
  | .empty => (Outcome.ret (), s)

/-- The functions `RL_rebX` that rebol.h declares (lines 781 to 841) and the
runtime defines.  Their bodies are not part of the boundary, so they are a
parameter of everything that calls them.  A `va_list *` argument is carried as
the list it points at. -/
structure Host (σ : Type) where
  RL_rebEnterApi_internal : Api σ Unit
  RL_rebMalloc : (size : size_t) → Api σ Ptr
  RL_rebRealloc : (ptr : Ptr) → (new_size : size_t) → Api σ Ptr
  RL_rebFree : (ptr : Ptr) → Api σ Unit
  RL_rebRepossess : (ptr : Ptr) → (size : size_t) → Api σ Ptr
  RL_rebStartup : Api σ Unit
  RL_rebShutdown : (clean : Bool) → Api σ Unit
  RL_rebTick : Api σ uintptr_t
  RL_rebVoid : Api σ Ptr
  RL_rebBlank : Api σ Ptr
  RL_rebLogic : (logic : Bool) → Api σ Ptr
  RL_rebChar : (codepoint : uint32_t) → Api σ Ptr
  RL_rebInteger : (i : int64_t) → Api σ Ptr
  RL_rebDecimal : (dec : double) → Api σ Ptr
  RL_rebSizedBinary : (bytes : Ptr) → (size : size_t) → Api σ Ptr
  RL_rebUninitializedBinary_internal : (size : size_t) → Api σ Ptr
  RL_rebBinaryHead_internal : (binary : Ptr) → Api σ Ptr
  RL_rebBinaryAt_internal : (binary : Ptr) → Api σ Ptr
  RL_rebBinarySizeAt_internal : (binary : Ptr) → Api σ unsigned_int
  RL_rebSizedText : (utf8 : Ptr) → (size : size_t) → Api σ Ptr
  RL_rebText : (utf8 : Ptr) → Api σ Ptr
  RL_rebLengthedTextWide : (wstr : Ptr) → (num_chars : unsigned_int) → Api σ Ptr
  RL_rebTextWide : (wstr : Ptr) → Api σ Ptr
  RL_rebHandle : (data : Ptr) → (length : size_t) → (cleaner : Ptr) → Api σ Ptr
  RL_rebArgR : (quotes : unsigned_char) → (p : Ptr) → (vaptr : va_list) → Api σ Ptr
  RL_rebArg : (quotes : unsigned_char) → (p : Ptr) → (vaptr : va_list) → Api σ Ptr
  RL_rebValue : (quotes : unsigned_char) → (p : Ptr) → (vaptr : va_list) → Api σ Ptr
  RL_rebQuote : (quotes : unsigned_char) → (p : Ptr) → (vaptr : va_list) → Api σ Ptr
  RL_rebElide : (quotes : unsigned_char) → (p : Ptr) → (vaptr : va_list) → Api σ Unit
  RL_rebJumps : (quotes : unsigned_char) → (p : Ptr) → (vaptr : va_list) → Api σ Unit
  RL_rebDid : (quotes : unsigned_char) → (p : Ptr) → (vaptr : va_list) → Api σ Bool
  RL_rebNot : (quotes : unsigned_char) → (p : Ptr) → (vaptr : va_list) → Api σ Bool
  RL_rebUnbox : (quotes : unsigned_char) → (p : Ptr) → (vaptr : va_list) → Api σ intptr_t
  RL_rebUnbox0 : (p : Ptr) → Api σ intptr_t
  RL_rebUnboxInteger : (quotes : unsigned_char) → (p : Ptr) → (vaptr : va_list) → Api σ intptr_t
  RL_rebUnboxInteger0 : (p : Ptr) → Api σ intptr_t
  RL_rebUnboxDecimal : (quotes : unsigned_char) → (p : Ptr) → (vaptr : va_list) → Api σ double
  RL_rebUnboxChar : (quotes : unsigned_char) → (p : Ptr) → (vaptr : va_list) → Api σ uint32_t
  RL_rebSpellInto : (quotes : unsigned_char) → (buf : Ptr) → (buf_size : size_t) → (p : Ptr) → (vaptr : va_list) → Api σ size_t
  RL_rebSpell : (quotes : unsigned_char) → (p : Ptr) → (vaptr : va_list) → Api σ Ptr
  RL_rebSpellIntoWide : (quotes : unsigned_char) → (buf : Ptr) → (buf_chars : unsigned_int) → (p : Ptr) → (vaptr : va_list) → Api σ unsigned_int
  RL_rebSpellWide : (quotes : unsigned_char) → (p : Ptr) → (vaptr : va_list) → Api σ Ptr
  RL_rebBytesInto : (quotes : unsigned_char) → (buf : Ptr) → (buf_size : size_t) → (p : Ptr) → (vaptr : va_list) → Api σ size_t
  RL_rebBytes : (quotes : unsigned_char) → (size_out : Ptr) → (p : Ptr) → (vaptr : va_list) → Api σ Ptr
  RL_rebRescue : (dangerous : Ptr) → (opaq : Ptr) → Api σ Ptr
  RL_rebRescueWith : (dangerous : Ptr) → (rescuer : Ptr) → (opaq : Ptr) → Api σ Ptr
  RL_rebHalt : Api σ Unit
  RL_rebQUOTING : (quotes : unsigned_char) → (p : Ptr) → (vaptr : va_list) → Api σ Ptr
  RL_rebUNQUOTING : (quotes : unsigned_char) → (p : Ptr) → (vaptr : va_list) → Api σ Ptr
  RL_rebRELEASING : (v : Ptr) → Api σ Ptr
  RL_rebManage : (v : Ptr) → Api σ Ptr
  RL_rebUnmanage : (p : Ptr) → Api σ Unit
  RL_rebRelease : (v : Ptr) → Api σ Unit
  RL_rebDeflateAlloc : (out_len : Ptr) → (input : Ptr) → (in_len : size_t) → Api σ Ptr
  RL_rebZdeflateAlloc : (out_len : Ptr) → (input : Ptr) → (in_len : size_t) → Api σ Ptr
  RL_rebGzipAlloc : (out_len : Ptr) → (input : Ptr) → (in_len : size_t) → Api σ Ptr
  RL_rebInflateAlloc : (len_out : Ptr) → (input : Ptr) → (len_in : size_t) → (max : int) → Api σ Ptr
  RL_rebZinflateAlloc : (len_out : Ptr) → (input : Ptr) → (len_in : size_t) → (max : int) → Api σ Ptr
  RL_rebGunzipAlloc : (len_out : Ptr) → (input : Ptr) → (len_in : size_t) → (max : int) → Api σ Ptr
  RL_rebDeflateDetectAlloc : (len_out : Ptr) → (input : Ptr) → (len_in : size_t) → (max : int) → Api σ Ptr
  RL_rebFail_OS : (errnum : int) → Api σ Unit

/-- The entry-point table `RL_LIB` (`struct rebol_ext_api`, rebol.h lines 242 to
304): one function pointer per operation, in the order of the header. -/
structure RL_LIB (σ : Type) where
  rebEnterApi_internal : Api σ Unit
  rebMalloc : (size : size_t) → Api σ Ptr
  rebRealloc : (ptr : Ptr) → (new_size : size_t) → Api σ Ptr
  rebFree : (ptr : Ptr) → Api σ Unit
  rebRepossess : (ptr : Ptr) → (size : size_t) → Api σ Ptr
  rebStartup : Api σ Unit
  rebShutdown : (clean : Bool) → Api σ Unit
  rebTick : Api σ uintptr_t
  rebVoid : Api σ Ptr
  rebBlank : Api σ Ptr
  rebLogic : (logic : Bool) → Api σ Ptr
  rebChar : (codepoint : uint32_t) → Api σ Ptr
  rebInteger : (i : int64_t) → Api σ Ptr
  rebDecimal : (dec : double) → Api σ Ptr
  rebSizedBinary : (bytes : Ptr) → (size : size_t) → Api σ Ptr
  rebUninitializedBinary_internal : (size : size_t) → Api σ Ptr
  rebBinaryHead_internal : (binary : Ptr) → Api σ Ptr
  rebBinaryAt_internal : (binary : Ptr) → Api σ Ptr
  rebBinarySizeAt_internal : (binary : Ptr) → Api σ unsigned_int
  rebSizedText : (utf8 : Ptr) → (size : size_t) → Api σ Ptr
  rebText : (utf8 : Ptr) → Api σ Ptr
  rebLengthedTextWide : (wstr : Ptr) → (num_chars : unsigned_int) → Api σ Ptr
  rebTextWide : (wstr : Ptr) → Api σ Ptr
  rebHandle : (data : Ptr) → (length : size_t) → (cleaner : Ptr) → Api σ Ptr
  rebArgR : (quotes : unsigned_char) → (p : Ptr) → (vaptr : va_list) → Api σ Ptr
  rebArg : (quotes : unsigned_char) → (p : Ptr) → (vaptr : va_list) → Api σ Ptr
  rebValue : (quotes : unsigned_char) → (p : Ptr) → (vaptr : va_list) → Api σ Ptr
  rebQuote : (quotes : unsigned_char) → (p : Ptr) → (vaptr : va_list) → Api σ Ptr
  rebElide : (quotes : unsigned_char) → (p : Ptr) → (vaptr : va_list) → Api σ Unit
  rebJumps : (quotes : unsigned_char) → (p : Ptr) → (vaptr : va_list) → Api σ Unit
  rebDid : (quotes : unsigned_char) → (p : Ptr) → (vaptr : va_list) → Api σ Bool
  rebNot : (quotes : unsigned_char) → (p : Ptr) → (vaptr : va_list) → Api σ Bool
  rebUnbox : (quotes : unsigned_char) → (p : Ptr) → (vaptr : va_list) → Api σ intptr_t
  rebUnbox0 : (p : Ptr) → Api σ intptr_t
  rebUnboxInteger : (quotes : unsigned_char) → (p : Ptr) → (vaptr : va_list) → Api σ intptr_t
  rebUnboxInteger0 : (p : Ptr) → Api σ intptr_t
  rebUnboxDecimal : (quotes : unsigned_char) → (p : Ptr) → (vaptr : va_list) → Api σ double
  rebUnboxChar : (quotes : unsigned_char) → (p : Ptr) → (vaptr : va_list) → Api σ uint32_t
  rebSpellInto : (quotes : unsigned_char) → (buf : Ptr) → (buf_size : size_t) → (p : Ptr) → (vaptr : va_list) → Api σ size_t
  rebSpell : (quotes : unsigned_char) → (p : Ptr) → (vaptr : va_list) → Api σ Ptr
  rebSpellIntoWide : (quotes : unsigned_char) → (buf : Ptr) → (buf_chars : unsigned_int) → (p : Ptr) → (vaptr : va_list) → Api σ unsigned_int
  rebSpellWide : (quotes : unsigned_char) → (p : Ptr) → (vaptr : va_list) → Api σ Ptr
  rebBytesInto : (quotes : unsigned_char) → (buf : Ptr) → (buf_size : size_t) → (p : Ptr) → (vaptr : va_list) → Api σ size_t
  rebBytes : (quotes : unsigned_char) → (size_out : Ptr) → (p : Ptr) → (vaptr : va_list) → Api σ Ptr
  rebRescue : (dangerous : Ptr) → (opaq : Ptr) → Api σ Ptr
  rebRescueWith : (dangerous : Ptr) → (rescuer : Ptr) → (opaq : Ptr) → Api σ Ptr
  rebHalt : Api σ Unit
  rebQUOTING : (quotes : unsigned_char) → (p : Ptr) → (vaptr : va_list) → Api σ Ptr
  rebUNQUOTING : (quotes : unsigned_char) → (p : Ptr) → (vaptr : va_list) → Api σ Ptr
  rebRELEASING : (v : Ptr) → Api σ Ptr
  rebManage : (v : Ptr) → Api σ Ptr
  rebUnmanage : (p : Ptr) → Api σ Unit
  rebRelease : (v : Ptr) → Api σ Unit
  rebDeflateAlloc : (out_len : Ptr) → (input : Ptr) → (in_len : size_t) → Api σ Ptr
  rebZdeflateAlloc : (out_len : Ptr) → (input : Ptr) → (in_len : size_t) → Api σ Ptr
  rebGzipAlloc : (out_len : Ptr) → (input : Ptr) → (in_len : size_t) → Api σ Ptr
  rebInflateAlloc : (len_out : Ptr) → (input : Ptr) → (len_in : size_t) → (max : int) → Api σ Ptr
  rebZinflateAlloc : (len_out : Ptr) → (input : Ptr) → (len_in : size_t) → (max : int) → Api σ Ptr
  rebGunzipAlloc : (len_out : Ptr) → (input : Ptr) → (len_in : size_t) → (max : int) → Api σ Ptr
  rebDeflateDetectAlloc : (len_out : Ptr) → (input : Ptr) → (len_in : size_t) → (max : int) → Api σ Ptr
  rebFail_OS : (errnum : int) → Api σ Unit

/-- The table a host hands to an extension: every field of `RL_LIB` holds the
`RL_` function of the same name. -/
def tableOf {σ : Type} (H : Host σ) : RL_LIB σ where
  rebEnterApi_internal := H.RL_rebEnterApi_internal
  rebMalloc := H.RL_rebMalloc
  rebRealloc := H.RL_rebRealloc
  rebFree := H.RL_rebFree
  rebRepossess := H.RL_rebRepossess
  rebStartup := H.RL_rebStartup
  rebShutdown := H.RL_rebShutdown
  rebTick := H.RL_rebTick
  rebVoid := H.RL_rebVoid
  rebBlank := H.RL_rebBlank
  rebLogic := H.RL_rebLogic
  rebChar := H.RL_rebChar
  rebInteger := H.RL_rebInteger
  rebDecimal := H.RL_rebDecimal
  rebSizedBinary := H.RL_rebSizedBinary
  rebUninitializedBinary_internal := H.RL_rebUninitializedBinary_internal
  rebBinaryHead_internal := H.RL_rebBinaryHead_internal
  rebBinaryAt_internal := H.RL_rebBinaryAt_internal
  rebBinarySizeAt_internal := H.RL_rebBinarySizeAt_internal
  rebSizedText := H.RL_rebSizedText
  rebText := H.RL_rebText
  rebLengthedTextWide := H.RL_rebLengthedTextWide
  rebTextWide := H.RL_rebTextWide
  rebHandle := H.RL_rebHandle
  rebArgR := H.RL_rebArgR
  rebArg := H.RL_rebArg
  rebValue := H.RL_rebValue
  rebQuote := H.RL_rebQuote
  rebElide := H.RL_rebElide
  rebJumps := H.RL_rebJumps
  rebDid := H.RL_rebDid
  rebNot := H.RL_rebNot
  rebUnbox := H.RL_rebUnbox
  rebUnbox0 := H.RL_rebUnbox0
  rebUnboxInteger := H.RL_rebUnboxInteger
  rebUnboxInteger0 := H.RL_rebUnboxInteger0
  rebUnboxDecimal := H.RL_rebUnboxDecimal
  rebUnboxChar := H.RL_rebUnboxChar
  rebSpellInto := H.RL_rebSpellInto
  rebSpell := H.RL_rebSpell
  rebSpellIntoWide := H.RL_rebSpellIntoWide
  rebSpellWide := H.RL_rebSpellWide
  rebBytesInto := H.RL_rebBytesInto
  rebBytes := H.RL_rebBytes
  rebRescue := H.RL_rebRescue
  rebRescueWith := H.RL_rebRescueWith
  rebHalt := H.RL_rebHalt
  rebQUOTING := H.RL_rebQUOTING
  rebUNQUOTING := H.RL_rebUNQUOTING
  rebRELEASING := H.RL_rebRELEASING
  rebManage := H.RL_rebManage
  rebUnmanage := H.RL_rebUnmanage
  rebRelease := H.RL_rebRelease
  rebDeflateAlloc := H.RL_rebDeflateAlloc
  rebZdeflateAlloc := H.RL_rebZdeflateAlloc
  rebGzipAlloc := H.RL_rebGzipAlloc
  rebInflateAlloc := H.RL_rebInflateAlloc
  rebZinflateAlloc := H.RL_rebZinflateAlloc
  rebGunzipAlloc := H.RL_rebGunzipAlloc
  rebDeflateDetectAlloc := H.RL_rebDeflateDetectAlloc
  rebFail_OS := H.RL_rebFail_OS

/-! ## The shims of valist.c -/

namespace Valist

/-- The function `rebMalloc` of valist.c, lines 13 to 16. -/
def rebMalloc {σ : Type} (H : Host σ) (size : size_t) : Api σ Ptr := do
  H.RL_rebEnterApi_internal
  H.RL_rebMalloc size

/-- The function `rebRealloc` of valist.c, lines 18 to 21. -/
def rebRealloc {σ : Type} (H : Host σ) (ptr : Ptr) (new_size : size_t) : Api σ Ptr := do
  H.RL_rebEnterApi_internal
  H.RL_rebRealloc ptr new_size

/-- The function `rebFree` of valist.c, lines 23 to 26. -/
def rebFree {σ : Type} (H : Host σ) (ptr : Ptr) : Api σ Unit := do
  H.RL_rebEnterApi_internal
  H.RL_rebFree ptr

/-- The function `rebRepossess` of valist.c, lines 28 to 31. -/
def rebRepossess {σ : Type} (H : Host σ) (ptr : Ptr) (size : size_t) : Api σ Ptr := do
  H.RL_rebEnterApi_internal
  H.RL_rebRepossess ptr size

/-- The function `rebStartup` of valist.c, lines 33 to 35. -/
def rebStartup {σ : Type} (H : Host σ) : Api σ Unit := do
  H.RL_rebStartup

/-- The function `rebShutdown` of valist.c, lines 37 to 40. -/
def rebShutdown {σ : Type} (H : Host σ) (clean : Bool) : Api σ Unit := do
  H.RL_rebEnterApi_internal
  H.RL_rebShutdown clean

/-- The function `rebTick` of valist.c, lines 42 to 45. -/
def rebTick {σ : Type} (H : Host σ) : Api σ uintptr_t := do
  H.RL_rebEnterApi_internal
  H.RL_rebTick

/-- The function `rebVoid` of valist.c, lines 47 to 50. -/
def rebVoid {σ : Type} (H : Host σ) : Api σ Ptr := do
  H.RL_rebEnterApi_internal
  H.RL_rebVoid

/-- The function `rebBlank` of valist.c, lines 52 to 55. -/
def rebBlank {σ : Type} (H : Host σ) : Api σ Ptr := do
  H.RL_rebEnterApi_internal
  H.RL_rebBlank

/-- The function `rebLogic` of valist.c, lines 57 to 60. -/
def rebLogic {σ : Type} (H : Host σ) (logic : Bool) : Api σ Ptr := do
  H.RL_rebEnterApi_internal
  H.RL_rebLogic logic

/-- The function `rebChar` of valist.c, lines 62 to 65. -/
def rebChar {σ : Type} (H : Host σ) (codepoint : uint32_t) : Api σ Ptr := do
  H.RL_rebEnterApi_internal
  H.RL_rebChar codepoint

/-- The function `rebInteger` of valist.c, lines 67 to 70. -/
def rebInteger {σ : Type} (H : Host σ) (i : int64_t) : Api σ Ptr := do
  H.RL_rebEnterApi_internal
  H.RL_rebInteger i

/-- The function `rebDecimal` of valist.c, lines 72 to 75. -/
def rebDecimal {σ : Type} (H : Host σ) (dec : double) : Api σ Ptr := do
  H.RL_rebEnterApi_internal
  H.RL_rebDecimal dec

/-- The function `rebSizedBinary` of valist.c, lines 77 to 80. -/
def rebSizedBinary {σ : Type} (H : Host σ) (bytes : Ptr) (size : size_t) : Api σ Ptr := do
  H.RL_rebEnterApi_internal
  H.RL_rebSizedBinary bytes size

/-- The function `rebUninitializedBinary_internal` of valist.c, lines 82 to 85. -/
def rebUninitializedBinary_internal {σ : Type} (H : Host σ) (size : size_t) : Api σ Ptr := do
  H.RL_rebEnterApi_internal
  H.RL_rebUninitializedBinary_internal size

/-- The function `rebBinaryHead_internal` of valist.c, lines 87 to 90. -/
def rebBinaryHead_internal {σ : Type} (H : Host σ) (binary : Ptr) : Api σ Ptr := do
  H.RL_rebEnterApi_internal
  H.RL_rebBinaryHead_internal binary

/-- The function `rebBinaryAt_internal` of valist.c, lines 92 to 95. -/
def rebBinaryAt_internal {σ : Type} (H : Host σ) (binary : Ptr) : Api σ Ptr := do
  H.RL_rebEnterApi_internal
  H.RL_rebBinaryAt_internal binary

/-- The function `rebBinarySizeAt_internal` of valist.c, lines 97 to 100. -/
def rebBinarySizeAt_internal {σ : Type} (H : Host σ) (binary : Ptr) : Api σ unsigned_int := do
  H.RL_rebEnterApi_internal
  H.RL_rebBinarySizeAt_internal binary

/-- The function `rebSizedText` of valist.c, lines 102 to 105. -/
def rebSizedText {σ : Type} (H : Host σ) (utf8 : Ptr) (size : size_t) : Api σ Ptr := do
  H.RL_rebEnterApi_internal
  H.RL_rebSizedText utf8 size

/-- The function `rebText` of valist.c, lines 107 to 110. -/
def rebText {σ : Type} (H : Host σ) (utf8 : Ptr) : Api σ Ptr := do
  H.RL_rebEnterApi_internal
  H.RL_rebText utf8

/-- The function `rebLengthedTextWide` of valist.c, lines 112 to 115. -/
def rebLengthedTextWide {σ : Type} (H : Host σ) (wstr : Ptr) (num_chars : unsigned_int) : Api σ Ptr := do
  H.RL_rebEnterApi_internal
  H.RL_rebLengthedTextWide wstr num_chars

/-- The function `rebTextWide` of valist.c, lines 117 to 120. -/
def rebTextWide {σ : Type} (H : Host σ) (wstr : Ptr) : Api σ Ptr := do
  H.RL_rebEnterApi_internal
  H.RL_rebTextWide wstr

/-- The function `rebHandle` of valist.c, lines 122 to 125. -/
def rebHandle {σ : Type} (H : Host σ) (data : Ptr) (length : size_t) (cleaner : Ptr) : Api σ Ptr := do
  H.RL_rebEnterApi_internal
  H.RL_rebHandle data length cleaner

/-- The function `rebArgR` of valist.c, lines 127 to 131. -/
def rebArgR {σ : Type} (H : Host σ) (p : Ptr) (rest : List Ptr) : Api σ Ptr := do
  H.RL_rebEnterApi_internal
  let va := va_start rest
  H.RL_rebArgR 0 p va

/-- The function `rebArgRQ` of valist.c, lines 133 to 137. -/
def rebArgRQ {σ : Type} (H : Host σ) (p : Ptr) (rest : List Ptr) : Api σ Ptr := do
  H.RL_rebEnterApi_internal
  let va := va_start rest
  H.RL_rebArgR 1 p va

/-- The function `rebArg` of valist.c, lines 139 to 143. -/
def rebArg {σ : Type} (H : Host σ) (p : Ptr) (rest : List Ptr) : Api σ Ptr := do
  H.RL_rebEnterApi_internal
  let va := va_start rest
  H.RL_rebArg 0 p va

/-- The function `rebArgQ` of valist.c, lines 145 to 149. -/
def rebArgQ {σ : Type} (H : Host σ) (p : Ptr) (rest : List Ptr) : Api σ Ptr := do
  H.RL_rebEnterApi_internal
  let va := va_start rest
  H.RL_rebArg 1 p va

/-- The function `rebValue` of valist.c, lines 151 to 155. -/
def rebValue {σ : Type} (H : Host σ) (p : Ptr) (rest : List Ptr) : Api σ Ptr := do
  H.RL_rebEnterApi_internal
  let va := va_start rest
  H.RL_rebValue 0 p va

/-- The function `rebValueQ` of valist.c, lines 157 to 161. -/
def rebValueQ {σ : Type} (H : Host σ) (p : Ptr) (rest : List Ptr) : Api σ Ptr := do
  H.RL_rebEnterApi_internal
  let va := va_start rest
  H.RL_rebValue 1 p va

/-- The function `rebQuote` of valist.c, lines 163 to 167. -/
def rebQuote {σ : Type} (H : Host σ) (p : Ptr) (rest : List Ptr) : Api σ Ptr := do
  H.RL_rebEnterApi_internal
  let va := va_start rest
  H.RL_rebQuote 0 p va

/-- The function `rebQuoteQ` of valist.c, lines 169 to 173. -/
def rebQuoteQ {σ : Type} (H : Host σ) (p : Ptr) (rest : List Ptr) : Api σ Ptr := do
  H.RL_rebEnterApi_internal
  let va := va_start rest
  H.RL_rebQuote 1 p va

/-- The function `rebElide` of valist.c, lines 175 to 179. -/
def rebElide {σ : Type} (H : Host σ) (p : Ptr) (rest : List Ptr) : Api σ Unit := do
  H.RL_rebEnterApi_internal
  let va := va_start rest
  H.RL_rebElide 0 p va

/-- The function `rebElideQ` of valist.c, lines 181 to 185. -/
def rebElideQ {σ : Type} (H : Host σ) (p : Ptr) (rest : List Ptr) : Api σ Unit := do
  H.RL_rebEnterApi_internal
  let va := va_start rest
  H.RL_rebElide 1 p va

/-- The function `rebJumps` of valist.c, lines 187 to 193, declared `ATTRIBUTE_NO_RETURN`. -/
def rebJumps {σ : Type} (d : DeadEnd) (H : Host σ) (p : Ptr) (rest : List Ptr) : Api σ Unit := do
  H.RL_rebEnterApi_internal
  let va := va_start rest
  H.RL_rebJumps 0 p va
  DEAD_END d

/-- The function `rebJumpsQ` of valist.c, lines 195 to 201, declared `ATTRIBUTE_NO_RETURN`. -/
def rebJumpsQ {σ : Type} (d : DeadEnd) (H : Host σ) (p : Ptr) (rest : List Ptr) : Api σ Unit := do
  H.RL_rebEnterApi_internal
  let va := va_start rest
  H.RL_rebJumps 1 p va
  DEAD_END d

/-- The function `rebDid` of valist.c, lines 203 to 207. -/
def rebDid {σ : Type} (H : Host σ) (p : Ptr) (rest : List Ptr) : Api σ Bool := do
  H.RL_rebEnterApi_internal
  let va := va_start rest
  H.RL_rebDid 0 p va

/-- The function `rebDidQ` of valist.c, lines 209 to 213. -/
def rebDidQ {σ : Type} (H : Host σ) (p : Ptr) (rest : List Ptr) : Api σ Bool := do
  H.RL_rebEnterApi_internal
  let va := va_start rest
  H.RL_rebDid 1 p va

/-- The function `rebNot` of valist.c, lines 215 to 219. -/
def rebNot {σ : Type} (H : Host σ) (p : Ptr) (rest : List Ptr) : Api σ Bool := do
  H.RL_rebEnterApi_internal
  let va := va_start rest
  H.RL_rebNot 0 p va

/-- The function `rebNotQ` of valist.c, lines 221 to 225. -/
def rebNotQ {σ : Type} (H : Host σ) (p : Ptr) (rest : List Ptr) : Api σ Bool := do
  H.RL_rebEnterApi_internal
  let va := va_start rest
  H.RL_rebNot 1 p va

/-- The function `rebUnbox` of valist.c, lines 227 to 231. -/
def rebUnbox {σ : Type} (H : Host σ) (p : Ptr) (rest : List Ptr) : Api σ intptr_t := do
  H.RL_rebEnterApi_internal
  let va := va_start rest
  H.RL_rebUnbox 0 p va

/-- The function `rebUnboxQ` of valist.c, lines 233 to 237. -/
def rebUnboxQ {σ : Type} (H : Host σ) (p : Ptr) (rest : List Ptr) : Api σ intptr_t := do
  H.RL_rebEnterApi_internal
  let va := va_start rest
  H.RL_rebUnbox 1 p va

/-- The function `rebUnbox0` of valist.c, lines 239 to 242. -/
def rebUnbox0 {σ : Type} (H : Host σ) (p : Ptr) : Api σ intptr_t := do
  H.RL_rebEnterApi_internal
  H.RL_rebUnbox0 p

/-- The function `rebUnboxInteger` of valist.c, lines 244 to 248. -/
def rebUnboxInteger {σ : Type} (H : Host σ) (p : Ptr) (rest : List Ptr) : Api σ intptr_t := do
  H.RL_rebEnterApi_internal
  let va := va_start rest
  H.RL_rebUnboxInteger 0 p va

/-- The function `rebUnboxIntegerQ` of valist.c, lines 250 to 254. -/
def rebUnboxIntegerQ {σ : Type} (H : Host σ) (p : Ptr) (rest : List Ptr) : Api σ intptr_t := do
  H.RL_rebEnterApi_internal
  let va := va_start rest
  H.RL_rebUnboxInteger 1 p va

/-- The function `rebUnboxInteger0` of valist.c, lines 256 to 259. -/
def rebUnboxInteger0 {σ : Type} (H : Host σ) (p : Ptr) : Api σ intptr_t := do
  H.RL_rebEnterApi_internal
  H.RL_rebUnboxInteger0 p

/-- The function `rebUnboxDecimal` of valist.c, lines 261 to 265. -/
def rebUnboxDecimal {σ : Type} (H : Host σ) (p : Ptr) (rest : List Ptr) : Api σ double := do
  H.RL_rebEnterApi_internal
  let va := va_start rest
  H.RL_rebUnboxDecimal 0 p va

/-- The function `rebUnboxDecimalQ` of valist.c, lines 267 to 271. -/
def rebUnboxDecimalQ {σ : Type} (H : Host σ) (p : Ptr) (rest : List Ptr) : Api σ double := do
  H.RL_rebEnterApi_internal
  let va := va_start rest
  H.RL_rebUnboxDecimal 1 p va

/-- The function `rebUnboxChar` of valist.c, lines 273 to 277. -/
def rebUnboxChar {σ : Type} (H : Host σ) (p : Ptr) (rest : List Ptr) : Api σ uint32_t := do
  H.RL_rebEnterApi_internal
  let va := va_start rest
  H.RL_rebUnboxChar 0 p va

/-- The function `rebUnboxCharQ` of valist.c, lines 279 to 283. -/
def rebUnboxCharQ {σ : Type} (H : Host σ) (p : Ptr) (rest : List Ptr) : Api σ uint32_t := do
  H.RL_rebEnterApi_internal
  let va := va_start rest
  H.RL_rebUnboxChar 1 p va

/-- The function `rebSpellInto` of valist.c, lines 285 to 289. -/
def rebSpellInto {σ : Type} (H : Host σ) (buf : Ptr) (buf_size : size_t) (p : Ptr) (rest : List Ptr) : Api σ size_t := do
  H.RL_rebEnterApi_internal
  let va := va_start rest
  H.RL_rebSpellInto 0 buf buf_size p va

/-- The function `rebSpellIntoQ` of valist.c, lines 291 to 295. -/
def rebSpellIntoQ {σ : Type} (H : Host σ) (buf : Ptr) (buf_size : size_t) (p : Ptr) (rest : List Ptr) : Api σ size_t := do
  H.RL_rebEnterApi_internal
  let va := va_start rest
  H.RL_rebSpellInto 1 buf buf_size p va

/-- The function `rebSpell` of valist.c, lines 297 to 301. -/
def rebSpell {σ : Type} (H : Host σ) (p : Ptr) (rest : List Ptr) : Api σ Ptr := do
  H.RL_rebEnterApi_internal
  let va := va_start rest
  H.RL_rebSpell 0 p va

/-- The function `rebSpellQ` of valist.c, lines 303 to 307. -/
def rebSpellQ {σ : Type} (H : Host σ) (p : Ptr) (rest : List Ptr) : Api σ Ptr := do
  H.RL_rebEnterApi_internal
  let va := va_start rest
  H.RL_rebSpell 1 p va

/-- The function `rebSpellIntoWide` of valist.c, lines 309 to 313. -/
def rebSpellIntoWide {σ : Type} (H : Host σ) (buf : Ptr) (buf_chars : unsigned_int) (p : Ptr) (rest : List Ptr) : Api σ unsigned_int := do
  H.RL_rebEnterApi_internal
  let va := va_start rest
  H.RL_rebSpellIntoWide 0 buf buf_chars p va

/-- The function `rebSpellIntoWideQ` of valist.c, lines 315 to 319. -/
def rebSpellIntoWideQ {σ : Type} (H : Host σ) (buf : Ptr) (buf_chars : unsigned_int) (p : Ptr) (rest : List Ptr) : Api σ unsigned_int := do
  H.RL_rebEnterApi_internal
  let va := va_start rest
  H.RL_rebSpellIntoWide 1 buf buf_chars p va

/-- The function `rebSpellWide` of valist.c, lines 321 to 325. -/
def rebSpellWide {σ : Type} (H : Host σ) (p : Ptr) (rest : List Ptr) : Api σ Ptr := do
  H.RL_rebEnterApi_internal
  let va := va_start rest
  H.RL_rebSpellWide 0 p va

/-- The function `rebSpellWideQ` of valist.c, lines 327 to 331. -/
def rebSpellWideQ {σ : Type} (H : Host σ) (p : Ptr) (rest : List Ptr) : Api σ Ptr := do
  H.RL_rebEnterApi_internal
  let va := va_start rest
  H.RL_rebSpellWide 1 p va

/-- The function `rebBytesInto` of valist.c, lines 333 to 337. -/
def rebBytesInto {σ : Type} (H : Host σ) (buf : Ptr) (buf_size : size_t) (p : Ptr) (rest : List Ptr) : Api σ size_t := do
  H.RL_rebEnterApi_internal
  let va := va_start rest
  H.RL_rebBytesInto 0 buf buf_size p va

/-- The function `rebBytesIntoQ` of valist.c, lines 339 to 343. -/
def rebBytesIntoQ {σ : Type} (H : Host σ) (buf : Ptr) (buf_size : size_t) (p : Ptr) (rest : List Ptr) : Api σ size_t := do
  H.RL_rebEnterApi_internal
  let va := va_start rest
  H.RL_rebBytesInto 1 buf buf_size p va

/-- The function `rebBytes` of valist.c, lines 345 to 349. -/
def rebBytes {σ : Type} (H : Host σ) (size_out : Ptr) (p : Ptr) (rest : List Ptr) : Api σ Ptr := do
  H.RL_rebEnterApi_internal
  let va := va_start rest
  H.RL_rebBytes 0 size_out p va

/-- The function `rebBytesQ` of valist.c, lines 351 to 355. -/
def rebBytesQ {σ : Type} (H : Host σ) (size_out : Ptr) (p : Ptr) (rest : List Ptr) : Api σ Ptr := do
  H.RL_rebEnterApi_internal
  let va := va_start rest
  H.RL_rebBytes 1 size_out p va

/-- The function `rebRescue` of valist.c, lines 357 to 360. -/
def rebRescue {σ : Type} (H : Host σ) (dangerous : Ptr) (opaq : Ptr) : Api σ Ptr := do
  H.RL_rebEnterApi_internal
  H.RL_rebRescue dangerous opaq

/-- The function `rebRescueWith` of valist.c, lines 362 to 365. -/
def rebRescueWith {σ : Type} (H : Host σ) (dangerous : Ptr) (rescuer : Ptr) (opaq : Ptr) : Api σ Ptr := do
  H.RL_rebEnterApi_internal
  H.RL_rebRescueWith dangerous rescuer opaq

/-- The function `rebHalt` of valist.c, lines 367 to 370. -/
def rebHalt {σ : Type} (H : Host σ) : Api σ Unit := do
  H.RL_rebEnterApi_internal
  H.RL_rebHalt

/-- The function `rebQUOTING` of valist.c, lines 372 to 376. -/
def rebQUOTING {σ : Type} (H : Host σ) (p : Ptr) (rest : List Ptr) : Api σ Ptr := do
  H.RL_rebEnterApi_internal
  let va := va_start rest
  H.RL_rebQUOTING 0 p va

/-- The function `rebQUOTINGQ` of valist.c, lines 378 to 382. -/
def rebQUOTINGQ {σ : Type} (H : Host σ) (p : Ptr) (rest : List Ptr) : Api σ Ptr := do
  H.RL_rebEnterApi_internal
  let va := va_start rest
  H.RL_rebQUOTING 1 p va

/-- The function `rebUNQUOTING` of valist.c, lines 384 to 388. -/
def rebUNQUOTING {σ : Type} (H : Host σ) (p : Ptr) (rest : List Ptr) : Api σ Ptr := do
  H.RL_rebEnterApi_internal
  let va := va_start rest
  H.RL_rebUNQUOTING 0 p va

/-- The function `rebUNQUOTINGQ` of valist.c, lines 390 to 394. -/
def rebUNQUOTINGQ {σ : Type} (H : Host σ) (p : Ptr) (rest : List Ptr) : Api σ Ptr := do
  H.RL_rebEnterApi_internal
  let va := va_start rest
  H.RL_rebUNQUOTING 1 p va

/-- The function `rebRELEASING` of valist.c, lines 396 to 399. -/
def rebRELEASING {σ : Type} (H : Host σ) (v : Ptr) : Api σ Ptr := do
  H.RL_rebEnterApi_internal
  H.RL_rebRELEASING v

/-- The function `rebManage` of valist.c, lines 401 to 404. -/
def rebManage {σ : Type} (H : Host σ) (v : Ptr) : Api σ Ptr := do
  H.RL_rebEnterApi_internal
  H.RL_rebManage v

/-- The function `rebUnmanage` of valist.c, lines 406 to 409. -/
def rebUnmanage {σ : Type} (H : Host σ) (p : Ptr) : Api σ Unit := do
  H.RL_rebEnterApi_internal
  H.RL_rebUnmanage p

/-- The function `rebRelease` of valist.c, lines 411 to 414. -/
def rebRelease {σ : Type} (H : Host σ) (v : Ptr) : Api σ Unit := do
  H.RL_rebEnterApi_internal
  H.RL_rebRelease v

/-- The function `rebDeflateAlloc` of valist.c, lines 416 to 419. -/
def rebDeflateAlloc {σ : Type} (H : Host σ) (out_len : Ptr) (input : Ptr) (in_len : size_t) : Api σ Ptr := do
  H.RL_rebEnterApi_internal
  H.RL_rebDeflateAlloc out_len input in_len

/-- The function `rebZdeflateAlloc` of valist.c, lines 421 to 424. -/
def rebZdeflateAlloc {σ : Type} (H : Host σ) (out_len : Ptr) (input : Ptr) (in_len : size_t) : Api σ Ptr := do
  H.RL_rebEnterApi_internal
  H.RL_rebZdeflateAlloc out_len input in_len

/-- The function `rebGzipAlloc` of valist.c, lines 426 to 429. -/
def rebGzipAlloc {σ : Type} (H : Host σ) (out_len : Ptr) (input : Ptr) (in_len : size_t) : Api σ Ptr := do
  H.RL_rebEnterApi_internal
  H.RL_rebGzipAlloc out_len input in_len

/-- The function `rebInflateAlloc` of valist.c, lines 431 to 434. -/
def rebInflateAlloc {σ : Type} (H : Host σ) (len_out : Ptr) (input : Ptr) (len_in : size_t) (max : int) : Api σ Ptr := do
  H.RL_rebEnterApi_internal
  H.RL_rebInflateAlloc len_out input len_in max

/-- The function `rebZinflateAlloc` of valist.c, lines 436 to 439. -/
def rebZinflateAlloc {σ : Type} (H : Host σ) (len_out : Ptr) (input : Ptr) (len_in : size_t) (max : int) : Api σ Ptr := do
  H.RL_rebEnterApi_internal
  H.RL_rebZinflateAlloc len_out input len_in max

/-- The function `rebGunzipAlloc` of valist.c, lines 441 to 444. -/
def rebGunzipAlloc {σ : Type} (H : Host σ) (len_out : Ptr) (input : Ptr) (len_in : size_t) (max : int) : Api σ Ptr := do
  H.RL_rebEnterApi_internal
  H.RL_rebGunzipAlloc len_out input len_in max

/-- The function `rebDeflateDetectAlloc` of valist.c, lines 446 to 449. -/
def rebDeflateDetectAlloc {σ : Type} (H : Host σ) (len_out : Ptr) (input : Ptr) (len_in : size_t) (max : int) : Api σ Ptr := do
  H.RL_rebEnterApi_internal
  H.RL_rebDeflateDetectAlloc len_out input len_in max

/-- The function `rebFail_OS` of valist.c, lines 451 to 456, declared `ATTRIBUTE_NO_RETURN`. -/
def rebFail_OS {σ : Type} (d : DeadEnd) (H : Host σ) (errnum : int) : Api σ Unit := do
  H.RL_rebEnterApi_internal
  H.RL_rebFail_OS errnum
  DEAD_END d

end Valist

/-! ## The inline functions of rebol.h under `REB_EXT` -/

namespace Ext

/-- The function `rebMalloc_inline` of rebol.h, lines 316 to 319. -/
def rebMalloc_inline {σ : Type} (RL : RL_LIB σ) (size : size_t) : Api σ Ptr := do
  RL.rebEnterApi_internal
  RL.rebMalloc size

/-- The function `rebRealloc_inline` of rebol.h, lines 321 to 324. -/
def rebRealloc_inline {σ : Type} (RL : RL_LIB σ) (ptr : Ptr) (new_size : size_t) : Api σ Ptr := do
  RL.rebEnterApi_internal
  RL.rebRealloc ptr new_size

/-- The function `rebFree_inline` of rebol.h, lines 326 to 329. -/
def rebFree_inline {σ : Type} (RL : RL_LIB σ) (ptr : Ptr) : Api σ Unit := do
  RL.rebEnterApi_internal
  RL.rebFree ptr

/-- The function `rebRepossess_inline` of rebol.h, lines 331 to 334. -/
def rebRepossess_inline {σ : Type} (RL : RL_LIB σ) (ptr : Ptr) (size : size_t) : Api σ Ptr := do
  RL.rebEnterApi_internal
  RL.rebRepossess ptr size

/-- The function `rebStartup_inline` of rebol.h, lines 336 to 338. -/
def rebStartup_inline {σ : Type} (RL : RL_LIB σ) : Api σ Unit := do
  RL.rebStartup

/-- The function `rebShutdown_inline` of rebol.h, lines 340 to 343. -/
def rebShutdown_inline {σ : Type} (RL : RL_LIB σ) (clean : Bool) : Api σ Unit := do
  RL.rebEnterApi_internal
  RL.rebShutdown clean

/-- The function `rebTick_inline` of rebol.h, lines 345 to 348. -/
def rebTick_inline {σ : Type} (RL : RL_LIB σ) : Api σ uintptr_t := do
  RL.rebEnterApi_internal
  RL.rebTick

/-- The function `rebVoid_inline` of rebol.h, lines 350 to 353. -/
def rebVoid_inline {σ : Type} (RL : RL_LIB σ) : Api σ Ptr := do
  RL.rebEnterApi_internal
  RL.rebVoid

/-- The function `rebBlank_inline` of rebol.h, lines 355 to 358. -/
def rebBlank_inline {σ : Type} (RL : RL_LIB σ) : Api σ Ptr := do
  RL.rebEnterApi_internal
  RL.rebBlank

/-- The function `rebLogic_inline` of rebol.h, lines 360 to 363. -/
def rebLogic_inline {σ : Type} (RL : RL_LIB σ) (logic : Bool) : Api σ Ptr := do
  RL.rebEnterApi_internal
  RL.rebLogic logic

/-- The function `rebChar_inline` of rebol.h, lines 365 to 368. -/
def rebChar_inline {σ : Type} (RL : RL_LIB σ) (codepoint : uint32_t) : Api σ Ptr := do
  RL.rebEnterApi_internal
  RL.rebChar codepoint

/-- The function `rebInteger_inline` of rebol.h, lines 370 to 373. -/
def rebInteger_inline {σ : Type} (RL : RL_LIB σ) (i : int64_t) : Api σ Ptr := do
  RL.rebEnterApi_internal
  RL.rebInteger i

/-- The function `rebDecimal_inline` of rebol.h, lines 375 to 378. -/
def rebDecimal_inline {σ : Type} (RL : RL_LIB σ) (dec : double) : Api σ Ptr := do
  RL.rebEnterApi_internal
  RL.rebDecimal dec

/-- The function `rebSizedBinary_inline` of rebol.h, lines 380 to 383. -/
def rebSizedBinary_inline {σ : Type} (RL : RL_LIB σ) (bytes : Ptr) (size : size_t) : Api σ Ptr := do
  RL.rebEnterApi_internal
  RL.rebSizedBinary bytes size

/-- The function `rebUninitializedBinary_internal_inline` of rebol.h, lines 385 to 388. -/
def rebUninitializedBinary_internal_inline {σ : Type} (RL : RL_LIB σ) (size : size_t) : Api σ Ptr := do
  RL.rebEnterApi_internal
  RL.rebUninitializedBinary_internal size

/-- The function `rebBinaryHead_internal_inline` of rebol.h, lines 390 to 393. -/
def rebBinaryHead_internal_inline {σ : Type} (RL : RL_LIB σ) (binary : Ptr) : Api σ Ptr := do
  RL.rebEnterApi_internal
  RL.rebBinaryHead_internal binary

/-- The function `rebBinaryAt_internal_inline` of rebol.h, lines 395 to 398. -/
def rebBinaryAt_internal_inline {σ : Type} (RL : RL_LIB σ) (binary : Ptr) : Api σ Ptr := do
  RL.rebEnterApi_internal
  RL.rebBinaryAt_internal binary

/-- The function `rebBinarySizeAt_internal_inline` of rebol.h, lines 400 to 403. -/
def rebBinarySizeAt_internal_inline {σ : Type} (RL : RL_LIB σ) (binary : Ptr) : Api σ unsigned_int := do
  RL.rebEnterApi_internal
  RL.rebBinarySizeAt_internal binary

/-- The function `rebSizedText_inline` of rebol.h, lines 405 to 408. -/
def rebSizedText_inline {σ : Type} (RL : RL_LIB σ) (utf8 : Ptr) (size : size_t) : Api σ Ptr := do
  RL.rebEnterApi_internal
  RL.rebSizedText utf8 size

/-- The function `rebText_inline` of rebol.h, lines 410 to 413. -/
def rebText_inline {σ : Type} (RL : RL_LIB σ) (utf8 : Ptr) : Api σ Ptr := do
  RL.rebEnterApi_internal
  RL.rebText utf8

/-- The function `rebLengthedTextWide_inline` of rebol.h, lines 415 to 418. -/
def rebLengthedTextWide_inline {σ : Type} (RL : RL_LIB σ) (wstr : Ptr) (num_chars : unsigned_int) : Api σ Ptr := do
  RL.rebEnterApi_internal
  RL.rebLengthedTextWide wstr num_chars

/-- The function `rebTextWide_inline` of rebol.h, lines 420 to 423. -/
def rebTextWide_inline {σ : Type} (RL : RL_LIB σ) (wstr : Ptr) : Api σ Ptr := do
  RL.rebEnterApi_internal
  RL.rebTextWide wstr

/-- The function `rebHandle_inline` of rebol.h, lines 425 to 428. -/
def rebHandle_inline {σ : Type} (RL : RL_LIB σ) (data : Ptr) (length : size_t) (cleaner : Ptr) : Api σ Ptr := do
  RL.rebEnterApi_internal
  RL.rebHandle data length cleaner

/-- The function `rebArgR_inline` of rebol.h, lines 430 to 434. -/
def rebArgR_inline {σ : Type} (RL : RL_LIB σ) (p : Ptr) (rest : List Ptr) : Api σ Ptr := do
  RL.rebEnterApi_internal
  let va := va_start rest
  RL.rebArgR 0 p va

/-- The function `rebArgRQ_inline` of rebol.h, lines 436 to 440. -/
def rebArgRQ_inline {σ : Type} (RL : RL_LIB σ) (p : Ptr) (rest : List Ptr) : Api σ Ptr := do
  RL.rebEnterApi_internal
  let va := va_start rest
  RL.rebArgR 1 p va

/-- The function `rebArg_inline` of rebol.h, lines 442 to 446. -/
def rebArg_inline {σ : Type} (RL : RL_LIB σ) (p : Ptr) (rest : List Ptr) : Api σ Ptr := do
  RL.rebEnterApi_internal
  let va := va_start rest
  RL.rebArg 0 p va

/-- The function `rebArgQ_inline` of rebol.h, lines 448 to 452. -/
def rebArgQ_inline {σ : Type} (RL : RL_LIB σ) (p : Ptr) (rest : List Ptr) : Api σ Ptr := do
  RL.rebEnterApi_internal
  let va := va_start rest
  RL.rebArg 1 p va

/-- The function `rebValue_inline` of rebol.h, lines 454 to 458. -/
def rebValue_inline {σ : Type} (RL : RL_LIB σ) (p : Ptr) (rest : List Ptr) : Api σ Ptr := do
  RL.rebEnterApi_internal
  let va := va_start rest
  RL.rebValue 0 p va

/-- The function `rebValueQ_inline` of rebol.h, lines 460 to 464. -/
def rebValueQ_inline {σ : Type} (RL : RL_LIB σ) (p : Ptr) (rest : List Ptr) : Api σ Ptr := do
  RL.rebEnterApi_internal
  let va := va_start rest
  RL.rebValue 1 p va

/-- The function `rebQuote_inline` of rebol.h, lines 466 to 470. -/
def rebQuote_inline {σ : Type} (RL : RL_LIB σ) (p : Ptr) (rest : List Ptr) : Api σ Ptr := do
  RL.rebEnterApi_internal
  let va := va_start rest
  RL.rebQuote 0 p va

/-- The function `rebQuoteQ_inline` of rebol.h, lines 472 to 476. -/
def rebQuoteQ_inline {σ : Type} (RL : RL_LIB σ) (p : Ptr) (rest : List Ptr) : Api σ Ptr := do
  RL.rebEnterApi_internal
  let va := va_start rest
  RL.rebQuote 1 p va

/-- The function `rebElide_inline` of rebol.h, lines 478 to 482. -/
def rebElide_inline {σ : Type} (RL : RL_LIB σ) (p : Ptr) (rest : List Ptr) : Api σ Unit := do
  RL.rebEnterApi_internal
  let va := va_start rest
  RL.rebElide 0 p va

/-- The function `rebElideQ_inline` of rebol.h, lines 484 to 488. -/
def rebElideQ_inline {σ : Type} (RL : RL_LIB σ) (p : Ptr) (rest : List Ptr) : Api σ Unit := do
  RL.rebEnterApi_internal
  let va := va_start rest
  RL.rebElide 1 p va

/-- The function `rebJumps_inline` of rebol.h, lines 490 to 496, declared `ATTRIBUTE_NO_RETURN`. -/
def rebJumps_inline {σ : Type} (d : DeadEnd) (RL : RL_LIB σ) (p : Ptr) (rest : List Ptr) : Api σ Unit := do
  RL.rebEnterApi_internal
  let va := va_start rest
  RL.rebJumps 0 p va
  DEAD_END d

/-- The function `rebJumpsQ_inline` of rebol.h, lines 498 to 504, declared `ATTRIBUTE_NO_RETURN`. -/
def rebJumpsQ_inline {σ : Type} (d : DeadEnd) (RL : RL_LIB σ) (p : Ptr) (rest : List Ptr) : Api σ Unit := do
  RL.rebEnterApi_internal
  let va := va_start rest
  RL.rebJumps 1 p va
  DEAD_END d

/-- The function `rebDid_inline` of rebol.h, lines 506 to 510. -/
def rebDid_inline {σ : Type} (RL : RL_LIB σ) (p : Ptr) (rest : List Ptr) : Api σ Bool := do
  RL.rebEnterApi_internal
  let va := va_start rest
  RL.rebDid 0 p va

/-- The function `rebDidQ_inline` of rebol.h, lines 512 to 516. -/
def rebDidQ_inline {σ : Type} (RL : RL_LIB σ) (p : Ptr) (rest : List Ptr) : Api σ Bool := do
  RL.rebEnterApi_internal
  let va := va_start rest
  RL.rebDid 1 p va

/-- The function `rebNot_inline` of rebol.h, lines 518 to 522. -/
def rebNot_inline {σ : Type} (RL : RL_LIB σ) (p : Ptr) (rest : List Ptr) : Api σ Bool := do
  RL.rebEnterApi_internal
  let va := va_start rest
  RL.rebNot 0 p va

/-- The function `rebNotQ_inline` of rebol.h, lines 524 to 528. -/
def rebNotQ_inline {σ : Type} (RL : RL_LIB σ) (p : Ptr) (rest : List Ptr) : Api σ Bool := do
  RL.rebEnterApi_internal
  let va := va_start rest
  RL.rebNot 1 p va

/-- The function `rebUnbox_inline` of rebol.h, lines 530 to 534. -/
def rebUnbox_inline {σ : Type} (RL : RL_LIB σ) (p : Ptr) (rest : List Ptr) : Api σ intptr_t := do
  RL.rebEnterApi_internal
  let va := va_start rest
  RL.rebUnbox 0 p va

/-- The function `rebUnboxQ_inline` of rebol.h, lines 536 to 540. -/
def rebUnboxQ_inline {σ : Type} (RL : RL_LIB σ) (p : Ptr) (rest : List Ptr) : Api σ intptr_t := do
  RL.rebEnterApi_internal
  let va := va_start rest
  RL.rebUnbox 1 p va

/-- The function `rebUnbox0_inline` of rebol.h, lines 542 to 545. -/
def rebUnbox0_inline {σ : Type} (RL : RL_LIB σ) (p : Ptr) : Api σ intptr_t := do
  RL.rebEnterApi_internal
  RL.rebUnbox0 p

/-- The function `rebUnboxInteger_inline` of rebol.h, lines 547 to 551. -/
def rebUnboxInteger_inline {σ : Type} (RL : RL_LIB σ) (p : Ptr) (rest : List Ptr) : Api σ intptr_t := do
  RL.rebEnterApi_internal
  let va := va_start rest
  RL.rebUnboxInteger 0 p va

/-- The function `rebUnboxIntegerQ_inline` of rebol.h, lines 553 to 557. -/
def rebUnboxIntegerQ_inline {σ : Type} (RL : RL_LIB σ) (p : Ptr) (rest : List Ptr) : Api σ intptr_t := do
  RL.rebEnterApi_internal
  let va := va_start rest
  RL.rebUnboxInteger 1 p va

/-- The function `rebUnboxInteger0_inline` of rebol.h, lines 559 to 562. -/
def rebUnboxInteger0_inline {σ : Type} (RL : RL_LIB σ) (p : Ptr) : Api σ intptr_t := do
  RL.rebEnterApi_internal
  RL.rebUnboxInteger0 p

/-- The function `rebUnboxDecimal_inline` of rebol.h, lines 564 to 568. -/
def rebUnboxDecimal_inline {σ : Type} (RL : RL_LIB σ) (p : Ptr) (rest : List Ptr) : Api σ double := do
  RL.rebEnterApi_internal
  let va := va_start rest
  RL.rebUnboxDecimal 0 p va

/-- The function `rebUnboxDecimalQ_inline` of rebol.h, lines 570 to 574. -/
def rebUnboxDecimalQ_inline {σ : Type} (RL : RL_LIB σ) (p : Ptr) (rest : List Ptr) : Api σ double := do
  RL.rebEnterApi_internal
  let va := va_start rest
  RL.rebUnboxDecimal 1 p va

/-- The function `rebUnboxChar_inline` of rebol.h, lines 576 to 580. -/
def rebUnboxChar_inline {σ : Type} (RL : RL_LIB σ) (p : Ptr) (rest : List Ptr) : Api σ uint32_t := do
  RL.rebEnterApi_internal
  let va := va_start rest
  RL.rebUnboxChar 0 p va

/-- The function `rebUnboxCharQ_inline` of rebol.h, lines 582 to 586. -/
def rebUnboxCharQ_inline {σ : Type} (RL : RL_LIB σ) (p : Ptr) (rest : List Ptr) : Api σ uint32_t := do
  RL.rebEnterApi_internal
  let va := va_start rest
  RL.rebUnboxChar 1 p va

/-- The function `rebSpellInto_inline` of rebol.h, lines 588 to 592. -/
def rebSpellInto_inline {σ : Type} (RL : RL_LIB σ) (buf : Ptr) (buf_size : size_t) (p : Ptr) (rest : List Ptr) : Api σ size_t := do
  RL.rebEnterApi_internal
  let va := va_start rest
  RL.rebSpellInto 0 buf buf_size p va

/-- The function `rebSpellIntoQ_inline` of rebol.h, lines 594 to 598. -/
def rebSpellIntoQ_inline {σ : Type} (RL : RL_LIB σ) (buf : Ptr) (buf_size : size_t) (p : Ptr) (rest : List Ptr) : Api σ size_t := do
  RL.rebEnterApi_internal
  let va := va_start rest
  RL.rebSpellInto 1 buf buf_size p va

/-- The function `rebSpell_inline` of rebol.h, lines 600 to 604. -/
def rebSpell_inline {σ : Type} (RL : RL_LIB σ) (p : Ptr) (rest : List Ptr) : Api σ Ptr := do
  RL.rebEnterApi_internal
  let va := va_start rest
  RL.rebSpell 0 p va

/-- The function `rebSpellQ_inline` of rebol.h, lines 606 to 610. -/
def rebSpellQ_inline {σ : Type} (RL : RL_LIB σ) (p : Ptr) (rest : List Ptr) : Api σ Ptr := do
  RL.rebEnterApi_internal
  let va := va_start rest
  RL.rebSpell 1 p va

/-- The function `rebSpellIntoWide_inline` of rebol.h, lines 612 to 616. -/
def rebSpellIntoWide_inline {σ : Type} (RL : RL_LIB σ) (buf : Ptr) (buf_chars : unsigned_int) (p : Ptr) (rest : List Ptr) : Api σ unsigned_int := do
  RL.rebEnterApi_internal
  let va := va_start rest
  RL.rebSpellIntoWide 0 buf buf_chars p va

/-- The function `rebSpellIntoWideQ_inline` of rebol.h, lines 618 to 622. -/
def rebSpellIntoWideQ_inline {σ : Type} (RL : RL_LIB σ) (buf : Ptr) (buf_chars : unsigned_int) (p : Ptr) (rest : List Ptr) : Api σ unsigned_int := do
  RL.rebEnterApi_internal
  let va := va_start rest
  RL.rebSpellIntoWide 1 buf buf_chars p va

/-- The function `rebSpellWide_inline` of rebol.h, lines 624 to 628. -/
def rebSpellWide_inline {σ : Type} (RL : RL_LIB σ) (p : Ptr) (rest : List Ptr) : Api σ Ptr := do
  RL.rebEnterApi_internal
  let va := va_start rest
  RL.rebSpellWide 0 p va

/-- The function `rebSpellWideQ_inline` of rebol.h, lines 630 to 634. -/
def rebSpellWideQ_inline {σ : Type} (RL : RL_LIB σ) (p : Ptr) (rest : List Ptr) : Api σ Ptr := do
  RL.rebEnterApi_internal
  let va := va_start rest
  RL.rebSpellWide 1 p va

/-- The function `rebBytesInto_inline` of rebol.h, lines 636 to 640. -/
def rebBytesInto_inline {σ : Type} (RL : RL_LIB σ) (buf : Ptr) (buf_size : size_t) (p : Ptr) (rest : List Ptr) : Api σ size_t := do
  RL.rebEnterApi_internal
  let va := va_start rest
  RL.rebBytesInto 0 buf buf_size p va

/-- The function `rebBytesIntoQ_inline` of rebol.h, lines 642 to 646. -/
def rebBytesIntoQ_inline {σ : Type} (RL : RL_LIB σ) (buf : Ptr) (buf_size : size_t) (p : Ptr) (rest : List Ptr) : Api σ size_t := do
  RL.rebEnterApi_internal
  let va := va_start rest
  RL.rebBytesInto 1 buf buf_size p va

/-- The function `rebBytes_inline` of rebol.h, lines 648 to 652. -/
def rebBytes_inline {σ : Type} (RL : RL_LIB σ) (size_out : Ptr) (p : Ptr) (rest : List Ptr) : Api σ Ptr := do
  RL.rebEnterApi_internal
  let va := va_start rest
  RL.rebBytes 0 size_out p va

/-- The function `rebBytesQ_inline` of rebol.h, lines 654 to 658. -/
def rebBytesQ_inline {σ : Type} (RL : RL_LIB σ) (size_out : Ptr) (p : Ptr) (rest : List Ptr) : Api σ Ptr := do
  RL.rebEnterApi_internal
  let va := va_start rest
  RL.rebBytes 1 size_out p va

/-- The function `rebRescue_inline` of rebol.h, lines 660 to 663. -/
def rebRescue_inline {σ : Type} (RL : RL_LIB σ) (dangerous : Ptr) (opaq : Ptr) : Api σ Ptr := do
  RL.rebEnterApi_internal
  RL.rebRescue dangerous opaq

/-- The function `rebRescueWith_inline` of rebol.h, lines 665 to 668. -/
def rebRescueWith_inline {σ : Type} (RL : RL_LIB σ) (dangerous : Ptr) (rescuer : Ptr) (opaq : Ptr) : Api σ Ptr := do
  RL.rebEnterApi_internal
  RL.rebRescueWith dangerous rescuer opaq

/-- The function `rebHalt_inline` of rebol.h, lines 670 to 673. -/
def rebHalt_inline {σ : Type} (RL : RL_LIB σ) : Api σ Unit := do
  RL.rebEnterApi_internal
  RL.rebHalt

/-- The function `rebQUOTING_inline` of rebol.h, lines 675 to 679. -/
def rebQUOTING_inline {σ : Type} (RL : RL_LIB σ) (p : Ptr) (rest : List Ptr) : Api σ Ptr := do
  RL.rebEnterApi_internal
  let va := va_start rest
  RL.rebQUOTING 0 p va

/-- The function `rebQUOTINGQ_inline` of rebol.h, lines 681 to 685. -/
def rebQUOTINGQ_inline {σ : Type} (RL : RL_LIB σ) (p : Ptr) (rest : List Ptr) : Api σ Ptr := do
  RL.rebEnterApi_internal
  let va := va_start rest
  RL.rebQUOTING 1 p va

/-- The function `rebUNQUOTING_inline` of rebol.h, lines 687 to 691. -/
def rebUNQUOTING_inline {σ : Type} (RL : RL_LIB σ) (p : Ptr) (rest : List Ptr) : Api σ Ptr := do
  RL.rebEnterApi_internal
  let va := va_start rest
  RL.rebUNQUOTING 0 p va

/-- The function `rebUNQUOTINGQ_inline` of rebol.h, lines 693 to 697. -/
def rebUNQUOTINGQ_inline {σ : Type} (RL : RL_LIB σ) (p : Ptr) (rest : List Ptr) : Api σ Ptr := do
  RL.rebEnterApi_internal
  let va := va_start rest
  RL.rebUNQUOTING 1 p va

/-- The function `rebRELEASING_inline` of rebol.h, lines 699 to 702. -/
def rebRELEASING_inline {σ : Type} (RL : RL_LIB σ) (v : Ptr) : Api σ Ptr := do
  RL.rebEnterApi_internal
  RL.rebRELEASING v

/-- The function `rebManage_inline` of rebol.h, lines 704 to 707. -/
def rebManage_inline {σ : Type} (RL : RL_LIB σ) (v : Ptr) : Api σ Ptr := do
  RL.rebEnterApi_internal
  RL.rebManage v

/-- The function `rebUnmanage_inline` of rebol.h, lines 709 to 712. -/
def rebUnmanage_inline {σ : Type} (RL : RL_LIB σ) (p : Ptr) : Api σ Unit := do
  RL.rebEnterApi_internal
  RL.rebUnmanage p

/-- The function `rebRelease_inline` of rebol.h, lines 714 to 717. -/
def rebRelease_inline {σ : Type} (RL : RL_LIB σ) (v : Ptr) : Api σ Unit := do
  RL.rebEnterApi_internal
  RL.rebRelease v

/-- The function `rebDeflateAlloc_inline` of rebol.h, lines 719 to 722. -/
def rebDeflateAlloc_inline {σ : Type} (RL : RL_LIB σ) (out_len : Ptr) (input : Ptr) (in_len : size_t) : Api σ Ptr := do
  RL.rebEnterApi_internal
  RL.rebDeflateAlloc out_len input in_len

/-- The function `rebZdeflateAlloc_inline` of rebol.h, lines 724 to 727. -/
def rebZdeflateAlloc_inline {σ : Type} (RL : RL_LIB σ) (out_len : Ptr) (input : Ptr) (in_len : size_t) : Api σ Ptr := do
  RL.rebEnterApi_internal
  RL.rebZdeflateAlloc out_len input in_len

/-- The function `rebGzipAlloc_inline` of rebol.h, lines 729 to 732. -/
def rebGzipAlloc_inline {σ : Type} (RL : RL_LIB σ) (out_len : Ptr) (input : Ptr) (in_len : size_t) : Api σ Ptr := do
  RL.rebEnterApi_internal
  RL.rebGzipAlloc out_len input in_len

/-- The function `rebInflateAlloc_inline` of rebol.h, lines 734 to 737. -/
def rebInflateAlloc_inline {σ : Type} (RL : RL_LIB σ) (len_out : Ptr) (input : Ptr) (len_in : size_t) (max : int) : Api σ Ptr := do
  RL.rebEnterApi_internal
  RL.rebInflateAlloc len_out input len_in max

/-- The function `rebZinflateAlloc_inline` of rebol.h, lines 739 to 742. -/
def rebZinflateAlloc_inline {σ : Type} (RL : RL_LIB σ) (len_out : Ptr) (input : Ptr) (len_in : size_t) (max : int) : Api σ Ptr := do
  RL.rebEnterApi_internal
  RL.rebZinflateAlloc len_out input len_in max

/-- The function `rebGunzipAlloc_inline` of rebol.h, lines 744 to 747. -/
def rebGunzipAlloc_inline {σ : Type} (RL : RL_LIB σ) (len_out : Ptr) (input : Ptr) (len_in : size_t) (max : int) : Api σ Ptr := do
  RL.rebEnterApi_internal
  RL.rebGunzipAlloc len_out input len_in max

/-- The function `rebDeflateDetectAlloc_inline` of rebol.h, lines 749 to 752. -/
def rebDeflateDetectAlloc_inline {σ : Type} (RL : RL_LIB σ) (len_out : Ptr) (input : Ptr) (len_in : size_t) (max : int) : Api σ Ptr := do
  RL.rebEnterApi_internal
  RL.rebDeflateDetectAlloc len_out input len_in max

/-- The function `rebFail_OS_inline` of rebol.h, lines 754 to 759, declared `ATTRIBUTE_NO_RETURN`. -/
def rebFail_OS_inline {σ : Type} (d : DeadEnd) (RL : RL_LIB σ) (errnum : int) : Api σ Unit := do
  RL.rebEnterApi_internal
  RL.rebFail_OS errnum
  DEAD_END d

end Ext

/-! ## The inline functions of rebol.h, directly linked -/

namespace Direct

/-- The function `rebMalloc_inline` of rebol.h, lines 847 to 850. -/
def rebMalloc_inline {σ : Type} (H : Host σ) (size : size_t) : Api σ Ptr := do
  H.RL_rebEnterApi_internal
  H.RL_rebMalloc size

/-- The function `rebRealloc_inline` of rebol.h, lines 852 to 855. -/
def rebRealloc_inline {σ : Type} (H : Host σ) (ptr : Ptr) (new_size : size_t) : Api σ Ptr := do
  H.RL_rebEnterApi_internal
  H.RL_rebRealloc ptr new_size

/-- The function `rebFree_inline` of rebol.h, lines 857 to 860. -/
def rebFree_inline {σ : Type} (H : Host σ) (ptr : Ptr) : Api σ Unit := do
  H.RL_rebEnterApi_internal
  H.RL_rebFree ptr

/-- The function `rebRepossess_inline` of rebol.h, lines 862 to 865. -/
def rebRepossess_inline {σ : Type} (H : Host σ) (ptr : Ptr) (size : size_t) : Api σ Ptr := do
  H.RL_rebEnterApi_internal
  H.RL_rebRepossess ptr size

/-- The function `rebStartup_inline` of rebol.h, lines 867 to 869. -/
def rebStartup_inline {σ : Type} (H : Host σ) : Api σ Unit := do
  H.RL_rebStartup

/-- The function `rebShutdown_inline` of rebol.h, lines 871 to 874. -/
def rebShutdown_inline {σ : Type} (H : Host σ) (clean : Bool) : Api σ Unit := do
  H.RL_rebEnterApi_internal
  H.RL_rebShutdown clean

/-- The function `rebTick_inline` of rebol.h, lines 876 to 879. -/
def rebTick_inline {σ : Type} (H : Host σ) : Api σ uintptr_t := do
  H.RL_rebEnterApi_internal
  H.RL_rebTick

/-- The function `rebVoid_inline` of rebol.h, lines 881 to 884. -/
def rebVoid_inline {σ : Type} (H : Host σ) : Api σ Ptr := do
  H.RL_rebEnterApi_internal
  H.RL_rebVoid

/-- The function `rebBlank_inline` of rebol.h, lines 886 to 889. -/
def rebBlank_inline {σ : Type} (H : Host σ) : Api σ Ptr := do
  H.RL_rebEnterApi_internal
  H.RL_rebBlank

/-- The function `rebLogic_inline` of rebol.h, lines 891 to 894. -/
def rebLogic_inline {σ : Type} (H : Host σ) (logic : Bool) : Api σ Ptr := do
  H.RL_rebEnterApi_internal
  H.RL_rebLogic logic

/-- The function `rebChar_inline` of rebol.h, lines 896 to 899. -/
def rebChar_inline {σ : Type} (H : Host σ) (codepoint : uint32_t) : Api σ Ptr := do
  H.RL_rebEnterApi_internal
  H.RL_rebChar codepoint

/-- The function `rebInteger_inline` of rebol.h, lines 901 to 904. -/
def rebInteger_inline {σ : Type} (H : Host σ) (i : int64_t) : Api σ Ptr := do
  H.RL_rebEnterApi_internal
  H.RL_rebInteger i

/-- The function `rebDecimal_inline` of rebol.h, lines 906 to 909. -/
def rebDecimal_inline {σ : Type} (H : Host σ) (dec : double) : Api σ Ptr := do
  H.RL_rebEnterApi_internal
  H.RL_rebDecimal dec

/-- The function `rebSizedBinary_inline` of rebol.h, lines 911 to 914. -/
def rebSizedBinary_inline {σ : Type} (H : Host σ) (bytes : Ptr) (size : size_t) : Api σ Ptr := do
  H.RL_rebEnterApi_internal
  H.RL_rebSizedBinary bytes size

/-- The function `rebUninitializedBinary_internal_inline` of rebol.h, lines 916 to 919. -/
def rebUninitializedBinary_internal_inline {σ : Type} (H : Host σ) (size : size_t) : Api σ Ptr := do
  H.RL_rebEnterApi_internal
  H.RL_rebUninitializedBinary_internal size

/-- The function `rebBinaryHead_internal_inline` of rebol.h, lines 921 to 924. -/
def rebBinaryHead_internal_inline {σ : Type} (H : Host σ) (binary : Ptr) : Api σ Ptr := do
  H.RL_rebEnterApi_internal
  H.RL_rebBinaryHead_internal binary

/-- The function `rebBinaryAt_internal_inline` of rebol.h, lines 926 to 929. -/
def rebBinaryAt_internal_inline {σ : Type} (H : Host σ) (binary : Ptr) : Api σ Ptr := do
  H.RL_rebEnterApi_internal
  H.RL_rebBinaryAt_internal binary

/-- The function `rebBinarySizeAt_internal_inline` of rebol.h, lines 931 to 934. -/
def rebBinarySizeAt_internal_inline {σ : Type} (H : Host σ) (binary : Ptr) : Api σ unsigned_int := do
  H.RL_rebEnterApi_internal
  H.RL_rebBinarySizeAt_internal binary

/-- The function `rebSizedText_inline` of rebol.h, lines 936 to 939. -/
def rebSizedText_inline {σ : Type} (H : Host σ) (utf8 : Ptr) (size : size_t) : Api σ Ptr := do
  H.RL_rebEnterApi_internal
  H.RL_rebSizedText utf8 size

/-- The function `rebText_inline` of rebol.h, lines 941 to 944. -/
def rebText_inline {σ : Type} (H : Host σ) (utf8 : Ptr) : Api σ Ptr := do
  H.RL_rebEnterApi_internal
  H.RL_rebText utf8

/-- The function `rebLengthedTextWide_inline` of rebol.h, lines 946 to 949. -/
def rebLengthedTextWide_inline {σ : Type} (H : Host σ) (wstr : Ptr) (num_chars : unsigned_int) : Api σ Ptr := do
  H.RL_rebEnterApi_internal
  H.RL_rebLengthedTextWide wstr num_chars

/-- The function `rebTextWide_inline` of rebol.h, lines 951 to 954. -/
def rebTextWide_inline {σ : Type} (H : Host σ) (wstr : Ptr) : Api σ Ptr := do
  H.RL_rebEnterApi_internal
  H.RL_rebTextWide wstr

/-- The function `rebHandle_inline` of rebol.h, lines 956 to 959. -/
def rebHandle_inline {σ : Type} (H : Host σ) (data : Ptr) (length : size_t) (cleaner : Ptr) : Api σ Ptr := do
  H.RL_rebEnterApi_internal
  H.RL_rebHandle data length cleaner

/-- The function `rebArgR_inline` of rebol.h, lines 961 to 965. -/
def rebArgR_inline {σ : Type} (H : Host σ) (p : Ptr) (rest : List Ptr) : Api σ Ptr := do
  H.RL_rebEnterApi_internal
  let va := va_start rest
  H.RL_rebArgR 0 p va

/-- The function `rebArgRQ_inline` of rebol.h, lines 967 to 971. -/
def rebArgRQ_inline {σ : Type} (H : Host σ) (p : Ptr) (rest : List Ptr) : Api σ Ptr := do
  H.RL_rebEnterApi_internal
  let va := va_start rest
  H.RL_rebArgR 1 p va

/-- The function `rebArg_inline` of rebol.h, lines 973 to 977. -/
def rebArg_inline {σ : Type} (H : Host σ) (p : Ptr) (rest : List Ptr) : Api σ Ptr := do
  H.RL_rebEnterApi_internal
  let va := va_start rest
  H.RL_rebArg 0 p va

/-- The function `rebArgQ_inline` of rebol.h, lines 979 to 983. -/
def rebArgQ_inline {σ : Type} (H : Host σ) (p : Ptr) (rest : List Ptr) : Api σ Ptr := do
  H.RL_rebEnterApi_internal
  let va := va_start rest
  H.RL_rebArg 1 p va

/-- The function `rebValue_inline` of rebol.h, lines 985 to 989. -/
def rebValue_inline {σ : Type} (H : Host σ) (p : Ptr) (rest : List Ptr) : Api σ Ptr := do
  H.RL_rebEnterApi_internal
  let va := va_start rest
  H.RL_rebValue 0 p va

/-- The function `rebValueQ_inline` of rebol.h, lines 991 to 995. -/
def rebValueQ_inline {σ : Type} (H : Host σ) (p : Ptr) (rest : List Ptr) : Api σ Ptr := do
  H.RL_rebEnterApi_internal
  let va := va_start rest
  H.RL_rebValue 1 p va

/-- The function `rebQuote_inline` of rebol.h, lines 997 to 1001. -/
def rebQuote_inline {σ : Type} (H : Host σ) (p : Ptr) (rest : List Ptr) : Api σ Ptr := do
  H.RL_rebEnterApi_internal
  let va := va_start rest
  H.RL_rebQuote 0 p va

/-- The function `rebQuoteQ_inline` of rebol.h, lines 1003 to 1007. -/
def rebQuoteQ_inline {σ : Type} (H : Host σ) (p : Ptr) (rest : List Ptr) : Api σ Ptr := do
  H.RL_rebEnterApi_internal
  let va := va_start rest
  H.RL_rebQuote 1 p va

/-- The function `rebElide_inline` of rebol.h, lines 1009 to 1013. -/
def rebElide_inline {σ : Type} (H : Host σ) (p : Ptr) (rest : List Ptr) : Api σ Unit := do
  H.RL_rebEnterApi_internal
  let va := va_start rest
  H.RL_rebElide 0 p va

/-- The function `rebElideQ_inline` of rebol.h, lines 1015 to 1019. -/
def rebElideQ_inline {σ : Type} (H : Host σ) (p : Ptr) (rest : List Ptr) : Api σ Unit := do
  H.RL_rebEnterApi_internal
  let va := va_start rest
  H.RL_rebElide 1 p va

/-- The function `rebJumps_inline` of rebol.h, lines 1021 to 1027, declared `ATTRIBUTE_NO_RETURN`. -/
def rebJumps_inline {σ : Type} (d : DeadEnd) (H : Host σ) (p : Ptr) (rest : List Ptr) : Api σ Unit := do
  H.RL_rebEnterApi_internal
  let va := va_start rest
  H.RL_rebJumps 0 p va
  DEAD_END d

/-- The function `rebJumpsQ_inline` of rebol.h, lines 1029 to 1035, declared `ATTRIBUTE_NO_RETURN`. -/
def rebJumpsQ_inline {σ : Type} (d : DeadEnd) (H : Host σ) (p : Ptr) (rest : List Ptr) : Api σ Unit := do
  H.RL_rebEnterApi_internal
  let va := va_start rest
  H.RL_rebJumps 1 p va
  DEAD_END d

/-- The function `rebDid_inline` of rebol.h, lines 1037 to 1041. -/
def rebDid_inline {σ : Type} (H : Host σ) (p : Ptr) (rest : List Ptr) : Api σ Bool := do
  H.RL_rebEnterApi_internal
  let va := va_start rest
  H.RL_rebDid 0 p va

/-- The function `rebDidQ_inline` of rebol.h, lines 1043 to 1047. -/
def rebDidQ_inline {σ : Type} (H : Host σ) (p : Ptr) (rest : List Ptr) : Api σ Bool := do
  H.RL_rebEnterApi_internal
  let va := va_start rest
  H.RL_rebDid 1 p va

/-- The function `rebNot_inline` of rebol.h, lines 1049 to 1053. -/
def rebNot_inline {σ : Type} (H : Host σ) (p : Ptr) (rest : List Ptr) : Api σ Bool := do
  H.RL_rebEnterApi_internal
  let va := va_start rest
  H.RL_rebNot 0 p va

/-- The function `rebNotQ_inline` of rebol.h, lines 1055 to 1059. -/
def rebNotQ_inline {σ : Type} (H : Host σ) (p : Ptr) (rest : List Ptr) : Api σ Bool := do
  H.RL_rebEnterApi_internal
  let va := va_start rest
  H.RL_rebNot 1 p va

/-- The function `rebUnbox_inline` of rebol.h, lines 1061 to 1065. -/
def rebUnbox_inline {σ : Type} (H : Host σ) (p : Ptr) (rest : List Ptr) : Api σ intptr_t := do
  H.RL_rebEnterApi_internal
  let va := va_start rest
  H.RL_rebUnbox 0 p va

/-- The function `rebUnboxQ_inline` of rebol.h, lines 1067 to 1071. -/
def rebUnboxQ_inline {σ : Type} (H : Host σ) (p : Ptr) (rest : List Ptr) : Api σ intptr_t := do
  H.RL_rebEnterApi_internal
  let va := va_start rest
  H.RL_rebUnbox 1 p va

/-- The function `rebUnbox0_inline` of rebol.h, lines 1073 to 1076. -/
def rebUnbox0_inline {σ : Type} (H : Host σ) (p : Ptr) : Api σ intptr_t := do
  H.RL_rebEnterApi_internal
  H.RL_rebUnbox0 p

/-- The function `rebUnboxInteger_inline` of rebol.h, lines 1078 to 1082. -/
def rebUnboxInteger_inline {σ : Type} (H : Host σ) (p : Ptr) (rest : List Ptr) : Api σ intptr_t := do
  H.RL_rebEnterApi_internal
  let va := va_start rest
  H.RL_rebUnboxInteger 0 p va

/-- The function `rebUnboxIntegerQ_inline` of rebol.h, lines 1084 to 1088. -/
def rebUnboxIntegerQ_inline {σ : Type} (H : Host σ) (p : Ptr) (rest : List Ptr) : Api σ intptr_t := do
  H.RL_rebEnterApi_internal
  let va := va_start rest
  H.RL_rebUnboxInteger 1 p va

/-- The function `rebUnboxInteger0_inline` of rebol.h, lines 1090 to 1093. -/
def rebUnboxInteger0_inline {σ : Type} (H : Host σ) (p : Ptr) : Api σ intptr_t := do
  H.RL_rebEnterApi_internal
  H.RL_rebUnboxInteger0 p

/-- The function `rebUnboxDecimal_inline` of rebol.h, lines 1095 to 1099. -/
def rebUnboxDecimal_inline {σ : Type} (H : Host σ) (p : Ptr) (rest : List Ptr) : Api σ double := do
  H.RL_rebEnterApi_internal
  let va := va_start rest
  H.RL_rebUnboxDecimal 0 p va

/-- The function `rebUnboxDecimalQ_inline` of rebol.h, lines 1101 to 1105. -/
def rebUnboxDecimalQ_inline {σ : Type} (H : Host σ) (p : Ptr) (rest : List Ptr) : Api σ double := do
  H.RL_rebEnterApi_internal
  let va := va_start rest
  H.RL_rebUnboxDecimal 1 p va

/-- The function `rebUnboxChar_inline` of rebol.h, lines 1107 to 1111. -/
def rebUnboxChar_inline {σ : Type} (H : Host σ) (p : Ptr) (rest : List Ptr) : Api σ uint32_t := do
  H.RL_rebEnterApi_internal
  let va := va_start rest
  H.RL_rebUnboxChar 0 p va

/-- The function `rebUnboxCharQ_inline` of rebol.h, lines 1113 to 1117. -/
def rebUnboxCharQ_inline {σ : Type} (H : Host σ) (p : Ptr) (rest : List Ptr) : Api σ uint32_t := do
  H.RL_rebEnterApi_internal
  let va := va_start rest
  H.RL_rebUnboxChar 1 p va

/-- The function `rebSpellInto_inline` of rebol.h, lines 1119 to 1123. -/
def rebSpellInto_inline {σ : Type} (H : Host σ) (buf : Ptr) (buf_size : size_t) (p : Ptr) (rest : List Ptr) : Api σ size_t := do
  H.RL_rebEnterApi_internal
  let va := va_start rest
  H.RL_rebSpellInto 0 buf buf_size p va

/-- The function `rebSpellIntoQ_inline` of rebol.h, lines 1125 to 1129. -/
def rebSpellIntoQ_inline {σ : Type} (H : Host σ) (buf : Ptr) (buf_size : size_t) (p : Ptr) (rest : List Ptr) : Api σ size_t := do
  H.RL_rebEnterApi_internal
  let va := va_start rest
  H.RL_rebSpellInto 1 buf buf_size p va

/-- The function `rebSpell_inline` of rebol.h, lines 1131 to 1135. -/
def rebSpell_inline {σ : Type} (H : Host σ) (p : Ptr) (rest : List Ptr) : Api σ Ptr := do
  H.RL_rebEnterApi_internal
  let va := va_start rest
  H.RL_rebSpell 0 p va

/-- The function `rebSpellQ_inline` of rebol.h, lines 1137 to 1141. -/
def rebSpellQ_inline {σ : Type} (H : Host σ) (p : Ptr) (rest : List Ptr) : Api σ Ptr := do
  H.RL_rebEnterApi_internal
  let va := va_start rest
  H.RL_rebSpell 1 p va

/-- The function `rebSpellIntoWide_inline` of rebol.h, lines 1143 to 1147. -/
def rebSpellIntoWide_inline {σ : Type} (H : Host σ) (buf : Ptr) (buf_chars : unsigned_int) (p : Ptr) (rest : List Ptr) : Api σ unsigned_int := do
  H.RL_rebEnterApi_internal
  let va := va_start rest
  H.RL_rebSpellIntoWide 0 buf buf_chars p va

/-- The function `rebSpellIntoWideQ_inline` of rebol.h, lines 1149 to 1153. -/
def rebSpellIntoWideQ_inline {σ : Type} (H : Host σ) (buf : Ptr) (buf_chars : unsigned_int) (p : Ptr) (rest : List Ptr) : Api σ unsigned_int := do
  H.RL_rebEnterApi_internal
  let va := va_start rest
  H.RL_rebSpellIntoWide 1 buf buf_chars p va

/-- The function `rebSpellWide_inline` of rebol.h, lines 1155 to 1159. -/
def rebSpellWide_inline {σ : Type} (H : Host σ) (p : Ptr) (rest : List Ptr) : Api σ Ptr := do
  H.RL_rebEnterApi_internal
  let va := va_start rest
  H.RL_rebSpellWide 0 p va

/-- The function `rebSpellWideQ_inline` of rebol.h, lines 1161 to 1165. -/
def rebSpellWideQ_inline {σ : Type} (H : Host σ) (p : Ptr) (rest : List Ptr) : Api σ Ptr := do
  H.RL_rebEnterApi_internal
  let va := va_start rest
  H.RL_rebSpellWide 1 p va

/-- The function `rebBytesInto_inline` of rebol.h, lines 1167 to 1171. -/
def rebBytesInto_inline {σ : Type} (H : Host σ) (buf : Ptr) (buf_size : size_t) (p : Ptr) (rest : List Ptr) : Api σ size_t := do
  H.RL_rebEnterApi_internal
  let va := va_start rest
  H.RL_rebBytesInto 0 buf buf_size p va

/-- The function `rebBytesIntoQ_inline` of rebol.h, lines 1173 to 1177. -/
def rebBytesIntoQ_inline {σ : Type} (H : Host σ) (buf : Ptr) (buf_size : size_t) (p : Ptr) (rest : List Ptr) : Api σ size_t := do
  H.RL_rebEnterApi_internal
  let va := va_start rest
  H.RL_rebBytesInto 1 buf buf_size p va

/-- The function `rebBytes_inline` of rebol.h, lines 1179 to 1183. -/
def rebBytes_inline {σ : Type} (H : Host σ) (size_out : Ptr) (p : Ptr) (rest : List Ptr) : Api σ Ptr := do
  H.RL_rebEnterApi_internal
  let va := va_start rest
  H.RL_rebBytes 0 size_out p va

/-- The function `rebBytesQ_inline` of rebol.h, lines 1185 to 1189. -/
def rebBytesQ_inline {σ : Type} (H : Host σ) (size_out : Ptr) (p : Ptr) (rest : List Ptr) : Api σ Ptr := do
  H.RL_rebEnterApi_internal
  let va := va_start rest
  H.RL_rebBytes 1 size_out p va

/-- The function `rebRescue_inline` of rebol.h, lines 1191 to 1194. -/
def rebRescue_inline {σ : Type} (H : Host σ) (dangerous : Ptr) (opaq : Ptr) : Api σ Ptr := do
  H.RL_rebEnterApi_internal
  H.RL_rebRescue dangerous opaq

/-- The function `rebRescueWith_inline` of rebol.h, lines 1196 to 1199. -/
def rebRescueWith_inline {σ : Type} (H : Host σ) (dangerous : Ptr) (rescuer : Ptr) (opaq : Ptr) : Api σ Ptr := do
  H.RL_rebEnterApi_internal
  H.RL_rebRescueWith dangerous rescuer opaq

/-- The function `rebHalt_inline` of rebol.h, lines 1201 to 1204. -/
def rebHalt_inline {σ : Type} (H : Host σ) : Api σ Unit := do
  H.RL_rebEnterApi_internal
  H.RL_rebHalt

/-- The function `rebQUOTING_inline` of rebol.h, lines 1206 to 1210. -/
def rebQUOTING_inline {σ : Type} (H : Host σ) (p : Ptr) (rest : List Ptr) : Api σ Ptr := do
  H.RL_rebEnterApi_internal
  let va := va_start rest
  H.RL_rebQUOTING 0 p va

/-- The function `rebQUOTINGQ_inline` of rebol.h, lines 1212 to 1216. -/
def rebQUOTINGQ_inline {σ : Type} (H : Host σ) (p : Ptr) (rest : List Ptr) : Api σ Ptr := do
  H.RL_rebEnterApi_internal
  let va := va_start rest
  H.RL_rebQUOTING 1 p va

/-- The function `rebUNQUOTING_inline` of rebol.h, lines 1218 to 1222. -/
def rebUNQUOTING_inline {σ : Type} (H : Host σ) (p : Ptr) (rest : List Ptr) : Api σ Ptr := do
  H.RL_rebEnterApi_internal
  let va := va_start rest
  H.RL_rebUNQUOTING 0 p va

/-- The function `rebUNQUOTINGQ_inline` of rebol.h, lines 1224 to 1228. -/
def rebUNQUOTINGQ_inline {σ : Type} (H : Host σ) (p : Ptr) (rest : List Ptr) : Api σ Ptr := do
  H.RL_rebEnterApi_internal
  let va := va_start rest
  H.RL_rebUNQUOTING 1 p va

/-- The function `rebRELEASING_inline` of rebol.h, lines 1230 to 1233. -/
def rebRELEASING_inline {σ : Type} (H : Host σ) (v : Ptr) : Api σ Ptr := do
  H.RL_rebEnterApi_internal
  H.RL_rebRELEASING v

/-- The function `rebManage_inline` of rebol.h, lines 1235 to 1238. -/
def rebManage_inline {σ : Type} (H : Host σ) (v : Ptr) : Api σ Ptr := do
  H.RL_rebEnterApi_internal
  H.RL_rebManage v

/-- The function `rebUnmanage_inline` of rebol.h, lines 1240 to 1243. -/
def rebUnmanage_inline {σ : Type} (H : Host σ) (p : Ptr) : Api σ Unit := do
  H.RL_rebEnterApi_internal
  H.RL_rebUnmanage p

/-- The function `rebRelease_inline` of rebol.h, lines 1245 to 1248. -/
def rebRelease_inline {σ : Type} (H : Host σ) (v : Ptr) : Api σ Unit := do
  H.RL_rebEnterApi_internal
  H.RL_rebRelease v

/-- The function `rebDeflateAlloc_inline` of rebol.h, lines 1250 to 1253. -/
def rebDeflateAlloc_inline {σ : Type} (H : Host σ) (out_len : Ptr) (input : Ptr) (in_len : size_t) : Api σ Ptr := do
  H.RL_rebEnterApi_internal
  H.RL_rebDeflateAlloc out_len input in_len

/-- The function `rebZdeflateAlloc_inline` of rebol.h, lines 1255 to 1258. -/
def rebZdeflateAlloc_inline {σ : Type} (H : Host σ) (out_len : Ptr) (input : Ptr) (in_len : size_t) : Api σ Ptr := do
  H.RL_rebEnterApi_internal
  H.RL_rebZdeflateAlloc out_len input in_len

/-- The function `rebGzipAlloc_inline` of rebol.h, lines 1260 to 1263. -/
def rebGzipAlloc_inline {σ : Type} (H : Host σ) (out_len : Ptr) (input : Ptr) (in_len : size_t) : Api σ Ptr := do
  H.RL_rebEnterApi_internal
  H.RL_rebGzipAlloc out_len input in_len

/-- The function `rebInflateAlloc_inline` of rebol.h, lines 1265 to 1268. -/
def rebInflateAlloc_inline {σ : Type} (H : Host σ) (len_out : Ptr) (input : Ptr) (len_in : size_t) (max : int) : Api σ Ptr := do
  H.RL_rebEnterApi_internal
  H.RL_rebInflateAlloc len_out input len_in max

/-- The function `rebZinflateAlloc_inline` of rebol.h, lines 1270 to 1273. -/
def rebZinflateAlloc_inline {σ : Type} (H : Host σ) (len_out : Ptr) (input : Ptr) (len_in : size_t) (max : int) : Api σ Ptr := do
  H.RL_rebEnterApi_internal
  H.RL_rebZinflateAlloc len_out input len_in max

/-- The function `rebGunzipAlloc_inline` of rebol.h, lines 1275 to 1278. -/
def rebGunzipAlloc_inline {σ : Type} (H : Host σ) (len_out : Ptr) (input : Ptr) (len_in : size_t) (max : int) : Api σ Ptr := do
  H.RL_rebEnterApi_internal
  H.RL_rebGunzipAlloc len_out input len_in max

/-- The function `rebDeflateDetectAlloc_inline` of rebol.h, lines 1280 to 1283. -/
def rebDeflateDetectAlloc_inline {σ : Type} (H : Host σ) (len_out : Ptr) (input : Ptr) (len_in : size_t) (max : int) : Api σ Ptr := do
  H.RL_rebEnterApi_internal
  H.RL_rebDeflateDetectAlloc len_out input len_in max

/-- The function `rebFail_OS_inline` of rebol.h, lines 1285 to 1290, declared `ATTRIBUTE_NO_RETURN`. -/
def rebFail_OS_inline {σ : Type} (d : DeadEnd) (H : Host σ) (errnum : int) : Api σ Unit := do
  H.RL_rebEnterApi_internal
  H.RL_rebFail_OS errnum
  DEAD_END d

end Direct

/-! ## Observing calls -/

/-- An argument as a callee receives it, tagged with its C type. -/
inductive CVal where
  | ptr (p : Ptr)
  | size_t (n : size_t)
  | uintptr_t (n : uintptr_t)
  | intptr_t (i : intptr_t)
  | int64_t (i : int64_t)
  | uint32_t (n : uint32_t)
  | int (i : int)
  | unsigned_int (n : unsigned_int)
  | unsigned_char (n : unsigned_char)
  | bool (b : Bool)
  | double (x : double)
  | va_list (va : va_list)
  deriving DecidableEq, Repr

/-- What the runtime sees of the boundary: a call of `RL_rebEnterApi_internal`,
or a call of another `RL_` function with its arguments in order. -/
inductive Event where
  | enter
  | call (fn : String) (args : List CVal)
  deriving DecidableEq, Repr

/-- How each call of the recording host ends, by C return type. -/
structure Answers where
  void : Event → Outcome Unit
  ptr : Event → Outcome Ptr
  size_t : Event → Outcome size_t
  uintptr_t : Event → Outcome uintptr_t
  intptr_t : Event → Outcome intptr_t
  uint32_t : Event → Outcome uint32_t
  unsigned_int : Event → Outcome unsigned_int
  bool : Event → Outcome Bool
  double : Event → Outcome double

/-- The recording host's `RL_rebEnterApi_internal`. -/
def entered : Api (List Event) Unit := fun log => (Outcome.ret (), log ++ [Event.enter])

/-- A recorded call: log it, and end as the answer for it says. -/
def answered {α : Type} (answer : Event → Outcome α) (ev : Event) : Api (List Event) α :=
  fun log => (answer ev, log ++ [ev])

/-- Run a function body against an empty log: how it ends, and the calls the
runtime saw, in order. -/
def observe {α : Type} (body : Api (List Event) α) : Outcome α × List Event := body []

/-- A host that records.  Its state is the list of calls made so far, oldest
first.  `RL_rebEnterApi_internal` logs `Event.enter` and returns; every other
function logs its name and the arguments it was given, and ends the way `ans`
says for that call. -/
def recorder (ans : Answers) : Host (List Event) where
  RL_rebEnterApi_internal := entered
  RL_rebMalloc := fun size => answered ans.ptr (Event.call "RL_rebMalloc" [CVal.size_t size])
  RL_rebRealloc := fun ptr new_size => answered ans.ptr (Event.call "RL_rebRealloc" [CVal.ptr ptr, CVal.size_t new_size])
  RL_rebFree := fun ptr => answered ans.void (Event.call "RL_rebFree" [CVal.ptr ptr])
  RL_rebRepossess := fun ptr size => answered ans.ptr (Event.call "RL_rebRepossess" [CVal.ptr ptr, CVal.size_t size])
  RL_rebStartup := answered ans.void (Event.call "RL_rebStartup" [])
  RL_rebShutdown := fun clean => answered ans.void (Event.call "RL_rebShutdown" [CVal.bool clean])
  RL_rebTick := answered ans.uintptr_t (Event.call "RL_rebTick" [])
  RL_rebVoid := answered ans.ptr (Event.call "RL_rebVoid" [])
  RL_rebBlank := answered ans.ptr (Event.call "RL_rebBlank" [])
  RL_rebLogic := fun logic => answered ans.ptr (Event.call "RL_rebLogic" [CVal.bool logic])
  RL_rebChar := fun codepoint => answered ans.ptr (Event.call "RL_rebChar" [CVal.uint32_t codepoint])
  RL_rebInteger := fun i => answered ans.ptr (Event.call "RL_rebInteger" [CVal.int64_t i])
  RL_rebDecimal := fun dec => answered ans.ptr (Event.call "RL_rebDecimal" [CVal.double dec])
  RL_rebSizedBinary := fun bytes size => answered ans.ptr (Event.call "RL_rebSizedBinary" [CVal.ptr bytes, CVal.size_t size])
  RL_rebUninitializedBinary_internal := fun size => answered ans.ptr (Event.call "RL_rebUninitializedBinary_internal" [CVal.size_t size])
  RL_rebBinaryHead_internal := fun binary => answered ans.ptr (Event.call "RL_rebBinaryHead_internal" [CVal.ptr binary])
  RL_rebBinaryAt_internal := fun binary => answered ans.ptr (Event.call "RL_rebBinaryAt_internal" [CVal.ptr binary])
  RL_rebBinarySizeAt_internal := fun binary => answered ans.unsigned_int (Event.call "RL_rebBinarySizeAt_internal" [CVal.ptr binary])
  RL_rebSizedText := fun utf8 size => answered ans.ptr (Event.call "RL_rebSizedText" [CVal.ptr utf8, CVal.size_t size])
  RL_rebText := fun utf8 => answered ans.ptr (Event.call "RL_rebText" [CVal.ptr utf8])
  RL_rebLengthedTextWide := fun wstr num_chars => answered ans.ptr (Event.call "RL_rebLengthedTextWide" [CVal.ptr wstr, CVal.unsigned_int num_chars])
  RL_rebTextWide := fun wstr => answered ans.ptr (Event.call "RL_rebTextWide" [CVal.ptr wstr])
  RL_rebHandle := fun data length cleaner => answered ans.ptr (Event.call "RL_rebHandle" [CVal.ptr data, CVal.size_t length, CVal.ptr cleaner])
  RL_rebArgR := fun quotes p vaptr => answered ans.ptr (Event.call "RL_rebArgR" [CVal.unsigned_char quotes, CVal.ptr p, CVal.va_list vaptr])
  RL_rebArg := fun quotes p vaptr => answered ans.ptr (Event.call "RL_rebArg" [CVal.unsigned_char quotes, CVal.ptr p, CVal.va_list vaptr])
  RL_rebValue := fun quotes p vaptr => answered ans.ptr (Event.call "RL_rebValue" [CVal.unsigned_char quotes, CVal.ptr p, CVal.va_list vaptr])
  RL_rebQuote := fun quotes p vaptr => answered ans.ptr (Event.call "RL_rebQuote" [CVal.unsigned_char quotes, CVal.ptr p, CVal.va_list vaptr])
  RL_rebElide := fun quotes p vaptr => answered ans.void (Event.call "RL_rebElide" [CVal.unsigned_char quotes, CVal.ptr p, CVal.va_list vaptr])
  RL_rebJumps := fun quotes p vaptr => answered ans.void (Event.call "RL_rebJumps" [CVal.unsigned_char quotes, CVal.ptr p, CVal.va_list vaptr])
  RL_rebDid := fun quotes p vaptr => answered ans.bool (Event.call "RL_rebDid" [CVal.unsigned_char quotes, CVal.ptr p, CVal.va_list vaptr])
  RL_rebNot := fun quotes p vaptr => answered ans.bool (Event.call "RL_rebNot" [CVal.unsigned_char quotes, CVal.ptr p, CVal.va_list vaptr])
  RL_rebUnbox := fun quotes p vaptr => answered ans.intptr_t (Event.call "RL_rebUnbox" [CVal.unsigned_char quotes, CVal.ptr p, CVal.va_list vaptr])
  RL_rebUnbox0 := fun p => answered ans.intptr_t (Event.call "RL_rebUnbox0" [CVal.ptr p])
  RL_rebUnboxInteger := fun quotes p vaptr => answered ans.intptr_t (Event.call "RL_rebUnboxInteger" [CVal.unsigned_char quotes, CVal.ptr p, CVal.va_list vaptr])
  RL_rebUnboxInteger0 := fun p => answered ans.intptr_t (Event.call "RL_rebUnboxInteger0" [CVal.ptr p])
  RL_rebUnboxDecimal := fun quotes p vaptr => answered ans.double (Event.call "RL_rebUnboxDecimal" [CVal.unsigned_char quotes, CVal.ptr p, CVal.va_list vaptr])
  RL_rebUnboxChar := fun quotes p vaptr => answered ans.uint32_t (Event.call "RL_rebUnboxChar" [CVal.unsigned_char quotes, CVal.ptr p, CVal.va_list vaptr])
  RL_rebSpellInto := fun quotes buf buf_size p vaptr => answered ans.size_t (Event.call "RL_rebSpellInto" [CVal.unsigned_char quotes, CVal.ptr buf, CVal.size_t buf_size, CVal.ptr p, CVal.va_list vaptr])
  RL_rebSpell := fun quotes p vaptr => answered ans.ptr (Event.call "RL_rebSpell" [CVal.unsigned_char quotes, CVal.ptr p, CVal.va_list vaptr])
  RL_rebSpellIntoWide := fun quotes buf buf_chars p vaptr => answered ans.unsigned_int (Event.call "RL_rebSpellIntoWide" [CVal.unsigned_char quotes, CVal.ptr buf, CVal.unsigned_int buf_chars, CVal.ptr p, CVal.va_list vaptr])
  RL_rebSpellWide := fun quotes p vaptr => answered ans.ptr (Event.call "RL_rebSpellWide" [CVal.unsigned_char quotes, CVal.ptr p, CVal.va_list vaptr])
  RL_rebBytesInto := fun quotes buf buf_size p vaptr => answered ans.size_t (Event.call "RL_rebBytesInto" [CVal.unsigned_char quotes, CVal.ptr buf, CVal.size_t buf_size, CVal.ptr p, CVal.va_list vaptr])
  RL_rebBytes := fun quotes size_out p vaptr => answered ans.ptr (Event.call "RL_rebBytes" [CVal.unsigned_char quotes, CVal.ptr size_out, CVal.ptr p, CVal.va_list vaptr])
  RL_rebRescue := fun dangerous opaq => answered ans.ptr (Event.call "RL_rebRescue" [CVal.ptr dangerous, CVal.ptr opaq])
  RL_rebRescueWith := fun dangerous rescuer opaq => answered ans.ptr (Event.call "RL_rebRescueWith" [CVal.ptr dangerous, CVal.ptr rescuer, CVal.ptr opaq])
  RL_rebHalt := answered ans.void (Event.call "RL_rebHalt" [])
  RL_rebQUOTING := fun quotes p vaptr => answered ans.ptr (Event.call "RL_rebQUOTING" [CVal.unsigned_char quotes, CVal.ptr p, CVal.va_list vaptr])
  RL_rebUNQUOTING := fun quotes p vaptr => answered ans.ptr (Event.call "RL_rebUNQUOTING" [CVal.unsigned_char quotes, CVal.ptr p, CVal.va_list vaptr])
  RL_rebRELEASING := fun v => answered ans.ptr (Event.call "RL_rebRELEASING" [CVal.ptr v])
  RL_rebManage := fun v => answered ans.ptr (Event.call "RL_rebManage" [CVal.ptr v])
  RL_rebUnmanage := fun p => answered ans.void (Event.call "RL_rebUnmanage" [CVal.ptr p])
  RL_rebRelease := fun v => answered ans.void (Event.call "RL_rebRelease" [CVal.ptr v])
  RL_rebDeflateAlloc := fun out_len input in_len => answered ans.ptr (Event.call "RL_rebDeflateAlloc" [CVal.ptr out_len, CVal.ptr input, CVal.size_t in_len])
  RL_rebZdeflateAlloc := fun out_len input in_len => answered ans.ptr (Event.call "RL_rebZdeflateAlloc" [CVal.ptr out_len, CVal.ptr input, CVal.size_t in_len])
  RL_rebGzipAlloc := fun out_len input in_len => answered ans.ptr (Event.call "RL_rebGzipAlloc" [CVal.ptr out_len, CVal.ptr input, CVal.size_t in_len])
  RL_rebInflateAlloc := fun len_out input len_in max => answered ans.ptr (Event.call "RL_rebInflateAlloc" [CVal.ptr len_out, CVal.ptr input, CVal.size_t len_in, CVal.int max])
  RL_rebZinflateAlloc := fun len_out input len_in max => answered ans.ptr (Event.call "RL_rebZinflateAlloc" [CVal.ptr len_out, CVal.ptr input, CVal.size_t len_in, CVal.int max])
  RL_rebGunzipAlloc := fun len_out input len_in max => answered ans.ptr (Event.call "RL_rebGunzipAlloc" [CVal.ptr len_out, CVal.ptr input, CVal.size_t len_in, CVal.int max])
  RL_rebDeflateDetectAlloc := fun len_out input len_in max => answered ans.ptr (Event.call "RL_rebDeflateDetectAlloc" [CVal.ptr len_out, CVal.ptr input, CVal.size_t len_in, CVal.int max])
  RL_rebFail_OS := fun errnum => answered ans.void (Event.call "RL_rebFail_OS" [CVal.int errnum])

/-- What `DEAD_END;` after a call makes of how that call ended: a call that did
not return ends the function the same way, and after a call that returned
control runs into the dead end. -/
def Outcome.thenDeadEnd (d : DeadEnd) : Outcome Unit → Outcome Unit
  | .ret _ =>
    match d with
    | .builtin_unreachable => .undefined
    | .msvc_unreachable => .hang
    | .empty => .ret ()
  | .jump e => .jump e
  | .undefined => .undefined
  | .hang => .hang

/-- The quote levels a log shows: the `unsigned char` arguments of its calls. -/
def quoteLevels : List Event → List Nat
  | [] => []
  | Event.enter :: more => quoteLevels more
  | Event.call _ args :: more =>
    args.filterMap (fun a => match a with | CVal.unsigned_char q => some q | _ => none)
      ++ quoteLevels more

/-- Whether every backend call of a log has a call of
`RL_rebEnterApi_internal` before it: so it is exactly when the log does not
start with a backend call. -/
def entersBeforeBackend : List Event → Bool
  | [] => true
  | Event.enter :: _ => true
  | Event.call _ _ :: _ => false

/-- The calls of a log other than `RL_rebEnterApi_internal`. -/
def backendCalls (log : List Event) : List Event :=
  log.filter (fun e => decide (e ≠ Event.enter))

/-- Answers under which every call returns: null pointers, zeros and `false`. -/
def Answers.returning : Answers where
  void := fun _ => Outcome.ret ()
  ptr := fun _ => Outcome.ret Ptr.null
  size_t := fun _ => Outcome.ret 0
  uintptr_t := fun _ => Outcome.ret 0
  intptr_t := fun _ => Outcome.ret 0
  uint32_t := fun _ => Outcome.ret 0
  unsigned_int := fun _ => Outcome.ret 0
  bool := fun _ => Outcome.ret false
  double := fun _ => Outcome.ret ⟨0⟩

/-- One value for every parameter name of valist.c and rebol.h, and `rest` for
the arguments a caller passes after `p`. -/
structure Actuals where
  size : size_t
  ptr : Ptr
  new_size : size_t
  clean : Bool
  logic : Bool
  codepoint : uint32_t
  i : int64_t
  dec : double
  bytes : Ptr
  binary : Ptr
  utf8 : Ptr
  wstr : Ptr
  num_chars : unsigned_int
  data : Ptr
  length : size_t
  cleaner : Ptr
  p : Ptr
  rest : List Ptr
  buf : Ptr
  buf_size : size_t
  buf_chars : unsigned_int
  size_out : Ptr
  dangerous : Ptr
  opaq : Ptr
  rescuer : Ptr
  v : Ptr
  out_len : Ptr
  input : Ptr
  in_len : size_t
  len_out : Ptr
  len_in : size_t
  max : int
  errnum : int

/-- A function of the boundary by name, with the log of one call of it. -/
structure Observed where
  name : String
  log : List Event

/-- The calls the runtime saw when `body` ran against an empty log. -/
def logOf {α : Type} (body : Api (List Event) α) : List Event := (observe body).2

/-- Every function valist.c defines, in the order of the file, called on `x`
against the recording host. -/
def Valist.logs (d : DeadEnd) (ans : Answers) (x : Actuals) : List Observed :=
  [Observed.mk "rebMalloc" (logOf (Valist.rebMalloc (recorder ans) x.size)),
   Observed.mk "rebRealloc" (logOf (Valist.rebRealloc (recorder ans) x.ptr x.new_size)),
   Observed.mk "rebFree" (logOf (Valist.rebFree (recorder ans) x.ptr)),
   Observed.mk "rebRepossess" (logOf (Valist.rebRepossess (recorder ans) x.ptr x.size)),
   Observed.mk "rebStartup" (logOf (Valist.rebStartup (recorder ans))),
   Observed.mk "rebShutdown" (logOf (Valist.rebShutdown (recorder ans) x.clean)),
   Observed.mk "rebTick" (logOf (Valist.rebTick (recorder ans))),
   Observed.mk "rebVoid" (logOf (Valist.rebVoid (recorder ans))),
   Observed.mk "rebBlank" (logOf (Valist.rebBlank (recorder ans))),
   Observed.mk "rebLogic" (logOf (Valist.rebLogic (recorder ans) x.logic)),
   Observed.mk "rebChar" (logOf (Valist.rebChar (recorder ans) x.codepoint)),
   Observed.mk "rebInteger" (logOf (Valist.rebInteger (recorder ans) x.i)),
   Observed.mk "rebDecimal" (logOf (Valist.rebDecimal (recorder ans) x.dec)),
   Observed.mk "rebSizedBinary" (logOf (Valist.rebSizedBinary (recorder ans) x.bytes x.size)),
   Observed.mk "rebUninitializedBinary_internal" (logOf (Valist.rebUninitializedBinary_internal (recorder ans) x.size)),
   Observed.mk "rebBinaryHead_internal" (logOf (Valist.rebBinaryHead_internal (recorder ans) x.binary)),
   Observed.mk "rebBinaryAt_internal" (logOf (Valist.rebBinaryAt_internal (recorder ans) x.binary)),
   Observed.mk "rebBinarySizeAt_internal" (logOf (Valist.rebBinarySizeAt_internal (recorder ans) x.binary)),
   Observed.mk "rebSizedText" (logOf (Valist.rebSizedText (recorder ans) x.utf8 x.size)),
   Observed.mk "rebText" (logOf (Valist.rebText (recorder ans) x.utf8)),
   Observed.mk "rebLengthedTextWide" (logOf (Valist.rebLengthedTextWide (recorder ans) x.wstr x.num_chars)),
   Observed.mk "rebTextWide" (logOf (Valist.rebTextWide (recorder ans) x.wstr)),
   Observed.mk "rebHandle" (logOf (Valist.rebHandle (recorder ans) x.data x.length x.cleaner)),
   Observed.mk "rebArgR" (logOf (Valist.rebArgR (recorder ans) x.p x.rest)),
   Observed.mk "rebArgRQ" (logOf (Valist.rebArgRQ (recorder ans) x.p x.rest)),
   Observed.mk "rebArg" (logOf (Valist.rebArg (recorder ans) x.p x.rest)),
   Observed.mk "rebArgQ" (logOf (Valist.rebArgQ (recorder ans) x.p x.rest)),
   Observed.mk "rebValue" (logOf (Valist.rebValue (recorder ans) x.p x.rest)),
   Observed.mk "rebValueQ" (logOf (Valist.rebValueQ (recorder ans) x.p x.rest)),
   Observed.mk "rebQuote" (logOf (Valist.rebQuote (recorder ans) x.p x.rest)),
   Observed.mk "rebQuoteQ" (logOf (Valist.rebQuoteQ (recorder ans) x.p x.rest)),
   Observed.mk "rebElide" (logOf (Valist.rebElide (recorder ans) x.p x.rest)),
   Observed.mk "rebElideQ" (logOf (Valist.rebElideQ (recorder ans) x.p x.rest)),
   Observed.mk "rebJumps" (logOf (Valist.rebJumps d (recorder ans) x.p x.rest)),
   Observed.mk "rebJumpsQ" (logOf (Valist.rebJumpsQ d (recorder ans) x.p x.rest)),
   Observed.mk "rebDid" (logOf (Valist.rebDid (recorder ans) x.p x.rest)),
   Observed.mk "rebDidQ" (logOf (Valist.rebDidQ (recorder ans) x.p x.rest)),
   Observed.mk "rebNot" (logOf (Valist.rebNot (recorder ans) x.p x.rest)),
   Observed.mk "rebNotQ" (logOf (Valist.rebNotQ (recorder ans) x.p x.rest)),
   Observed.mk "rebUnbox" (logOf (Valist.rebUnbox (recorder ans) x.p x.rest)),
   Observed.mk "rebUnboxQ" (logOf (Valist.rebUnboxQ (recorder ans) x.p x.rest)),
   Observed.mk "rebUnbox0" (logOf (Valist.rebUnbox0 (recorder ans) x.p)),
   Observed.mk "rebUnboxInteger" (logOf (Valist.rebUnboxInteger (recorder ans) x.p x.rest)),
   Observed.mk "rebUnboxIntegerQ" (logOf (Valist.rebUnboxIntegerQ (recorder ans) x.p x.rest)),
   Observed.mk "rebUnboxInteger0" (logOf (Valist.rebUnboxInteger0 (recorder ans) x.p)),
   Observed.mk "rebUnboxDecimal" (logOf (Valist.rebUnboxDecimal (recorder ans) x.p x.rest)),
   Observed.mk "rebUnboxDecimalQ" (logOf (Valist.rebUnboxDecimalQ (recorder ans) x.p x.rest)),
   Observed.mk "rebUnboxChar" (logOf (Valist.rebUnboxChar (recorder ans) x.p x.rest)),
   Observed.mk "rebUnboxCharQ" (logOf (Valist.rebUnboxCharQ (recorder ans) x.p x.rest)),
   Observed.mk "rebSpellInto" (logOf (Valist.rebSpellInto (recorder ans) x.buf x.buf_size x.p x.rest)),
   Observed.mk "rebSpellIntoQ" (logOf (Valist.rebSpellIntoQ (recorder ans) x.buf x.buf_size x.p x.rest)),
   Observed.mk "rebSpell" (logOf (Valist.rebSpell (recorder ans) x.p x.rest)),
   Observed.mk "rebSpellQ" (logOf (Valist.rebSpellQ (recorder ans) x.p x.rest)),
   Observed.mk "rebSpellIntoWide" (logOf (Valist.rebSpellIntoWide (recorder ans) x.buf x.buf_chars x.p x.rest)),
   Observed.mk "rebSpellIntoWideQ" (logOf (Valist.rebSpellIntoWideQ (recorder ans) x.buf x.buf_chars x.p x.rest)),
   Observed.mk "rebSpellWide" (logOf (Valist.rebSpellWide (recorder ans) x.p x.rest)),
   Observed.mk "rebSpellWideQ" (logOf (Valist.rebSpellWideQ (recorder ans) x.p x.rest)),
   Observed.mk "rebBytesInto" (logOf (Valist.rebBytesInto (recorder ans) x.buf x.buf_size x.p x.rest)),
   Observed.mk "rebBytesIntoQ" (logOf (Valist.rebBytesIntoQ (recorder ans) x.buf x.buf_size x.p x.rest)),
   Observed.mk "rebBytes" (logOf (Valist.rebBytes (recorder ans) x.size_out x.p x.rest)),
   Observed.mk "rebBytesQ" (logOf (Valist.rebBytesQ (recorder ans) x.size_out x.p x.rest)),
   Observed.mk "rebRescue" (logOf (Valist.rebRescue (recorder ans) x.dangerous x.opaq)),
   Observed.mk "rebRescueWith" (logOf (Valist.rebRescueWith (recorder ans) x.dangerous x.rescuer x.opaq)),
   Observed.mk "rebHalt" (logOf (Valist.rebHalt (recorder ans))),
   Observed.mk "rebQUOTING" (logOf (Valist.rebQUOTING (recorder ans) x.p x.rest)),
   Observed.mk "rebQUOTINGQ" (logOf (Valist.rebQUOTINGQ (recorder ans) x.p x.rest)),
   Observed.mk "rebUNQUOTING" (logOf (Valist.rebUNQUOTING (recorder ans) x.p x.rest)),
   Observed.mk "rebUNQUOTINGQ" (logOf (Valist.rebUNQUOTINGQ (recorder ans) x.p x.rest)),
   Observed.mk "rebRELEASING" (logOf (Valist.rebRELEASING (recorder ans) x.v)),
   Observed.mk "rebManage" (logOf (Valist.rebManage (recorder ans) x.v)),
   Observed.mk "rebUnmanage" (logOf (Valist.rebUnmanage (recorder ans) x.p)),
   Observed.mk "rebRelease" (logOf (Valist.rebRelease (recorder ans) x.v)),
   Observed.mk "rebDeflateAlloc" (logOf (Valist.rebDeflateAlloc (recorder ans) x.out_len x.input x.in_len)),
   Observed.mk "rebZdeflateAlloc" (logOf (Valist.rebZdeflateAlloc (recorder ans) x.out_len x.input x.in_len)),
   Observed.mk "rebGzipAlloc" (logOf (Valist.rebGzipAlloc (recorder ans) x.out_len x.input x.in_len)),
   Observed.mk "rebInflateAlloc" (logOf (Valist.rebInflateAlloc (recorder ans) x.len_out x.input x.len_in x.max)),
   Observed.mk "rebZinflateAlloc" (logOf (Valist.rebZinflateAlloc (recorder ans) x.len_out x.input x.len_in x.max)),
   Observed.mk "rebGunzipAlloc" (logOf (Valist.rebGunzipAlloc (recorder ans) x.len_out x.input x.len_in x.max)),
   Observed.mk "rebDeflateDetectAlloc" (logOf (Valist.rebDeflateDetectAlloc (recorder ans) x.len_out x.input x.len_in x.max)),
   Observed.mk "rebFail_OS" (logOf (Valist.rebFail_OS d (recorder ans) x.errnum))]

/-- Every inline function of the `REB_EXT` branch of rebol.h, in the order of the
file, called on `x` through the table of the recording host. -/
def Ext.logs (d : DeadEnd) (ans : Answers) (x : Actuals) : List Observed :=
  [Observed.mk "rebMalloc_inline" (logOf (Ext.rebMalloc_inline (tableOf (recorder ans)) x.size)),
   Observed.mk "rebRealloc_inline" (logOf (Ext.rebRealloc_inline (tableOf (recorder ans)) x.ptr x.new_size)),
   Observed.mk "rebFree_inline" (logOf (Ext.rebFree_inline (tableOf (recorder ans)) x.ptr)),
   Observed.mk "rebRepossess_inline" (logOf (Ext.rebRepossess_inline (tableOf (recorder ans)) x.ptr x.size)),
   Observed.mk "rebStartup_inline" (logOf (Ext.rebStartup_inline (tableOf (recorder ans)))),
   Observed.mk "rebShutdown_inline" (logOf (Ext.rebShutdown_inline (tableOf (recorder ans)) x.clean)),
   Observed.mk "rebTick_inline" (logOf (Ext.rebTick_inline (tableOf (recorder ans)))),
   Observed.mk "rebVoid_inline" (logOf (Ext.rebVoid_inline (tableOf (recorder ans)))),
   Observed.mk "rebBlank_inline" (logOf (Ext.rebBlank_inline (tableOf (recorder ans)))),
   Observed.mk "rebLogic_inline" (logOf (Ext.rebLogic_inline (tableOf (recorder ans)) x.logic)),
   Observed.mk "rebChar_inline" (logOf (Ext.rebChar_inline (tableOf (recorder ans)) x.codepoint)),
   Observed.mk "rebInteger_inline" (logOf (Ext.rebInteger_inline (tableOf (recorder ans)) x.i)),
   Observed.mk "rebDecimal_inline" (logOf (Ext.rebDecimal_inline (tableOf (recorder ans)) x.dec)),
   Observed.mk "rebSizedBinary_inline" (logOf (Ext.rebSizedBinary_inline (tableOf (recorder ans)) x.bytes x.size)),
   Observed.mk "rebUninitializedBinary_internal_inline" (logOf (Ext.rebUninitializedBinary_internal_inline (tableOf (recorder ans)) x.size)),
   Observed.mk "rebBinaryHead_internal_inline" (logOf (Ext.rebBinaryHead_internal_inline (tableOf (recorder ans)) x.binary)),
   Observed.mk "rebBinaryAt_internal_inline" (logOf (Ext.rebBinaryAt_internal_inline (tableOf (recorder ans)) x.binary)),
   Observed.mk "rebBinarySizeAt_internal_inline" (logOf (Ext.rebBinarySizeAt_internal_inline (tableOf (recorder ans)) x.binary)),
   Observed.mk "rebSizedText_inline" (logOf (Ext.rebSizedText_inline (tableOf (recorder ans)) x.utf8 x.size)),
   Observed.mk "rebText_inline" (logOf (Ext.rebText_inline (tableOf (recorder ans)) x.utf8)),
   Observed.mk "rebLengthedTextWide_inline" (logOf (Ext.rebLengthedTextWide_inline (tableOf (recorder ans)) x.wstr x.num_chars)),
   Observed.mk "rebTextWide_inline" (logOf (Ext.rebTextWide_inline (tableOf (recorder ans)) x.wstr)),
   Observed.mk "rebHandle_inline" (logOf (Ext.rebHandle_inline (tableOf (recorder ans)) x.data x.length x.cleaner)),
   Observed.mk "rebArgR_inline" (logOf (Ext.rebArgR_inline (tableOf (recorder ans)) x.p x.rest)),
   Observed.mk "rebArgRQ_inline" (logOf (Ext.rebArgRQ_inline (tableOf (recorder ans)) x.p x.rest)),
   Observed.mk "rebArg_inline" (logOf (Ext.rebArg_inline (tableOf (recorder ans)) x.p x.rest)),
   Observed.mk "rebArgQ_inline" (logOf (Ext.rebArgQ_inline (tableOf (recorder ans)) x.p x.rest)),
   Observed.mk "rebValue_inline" (logOf (Ext.rebValue_inline (tableOf (recorder ans)) x.p x.rest)),
   Observed.mk "rebValueQ_inline" (logOf (Ext.rebValueQ_inline (tableOf (recorder ans)) x.p x.rest)),
   Observed.mk "rebQuote_inline" (logOf (Ext.rebQuote_inline (tableOf (recorder ans)) x.p x.rest)),
   Observed.mk "rebQuoteQ_inline" (logOf (Ext.rebQuoteQ_inline (tableOf (recorder ans)) x.p x.rest)),
   Observed.mk "rebElide_inline" (logOf (Ext.rebElide_inline (tableOf (recorder ans)) x.p x.rest)),
   Observed.mk "rebElideQ_inline" (logOf (Ext.rebElideQ_inline (tableOf (recorder ans)) x.p x.rest)),
   Observed.mk "rebJumps_inline" (logOf (Ext.rebJumps_inline d (tableOf (recorder ans)) x.p x.rest)),
   Observed.mk "rebJumpsQ_inline" (logOf (Ext.rebJumpsQ_inline d (tableOf (recorder ans)) x.p x.rest)),
   Observed.mk "rebDid_inline" (logOf (Ext.rebDid_inline (tableOf (recorder ans)) x.p x.rest)),
   Observed.mk "rebDidQ_inline" (logOf (Ext.rebDidQ_inline (tableOf (recorder ans)) x.p x.rest)),
   Observed.mk "rebNot_inline" (logOf (Ext.rebNot_inline (tableOf (recorder ans)) x.p x.rest)),
   Observed.mk "rebNotQ_inline" (logOf (Ext.rebNotQ_inline (tableOf (recorder ans)) x.p x.rest)),
   Observed.mk "rebUnbox_inline" (logOf (Ext.rebUnbox_inline (tableOf (recorder ans)) x.p x.rest)),
   Observed.mk "rebUnboxQ_inline" (logOf (Ext.rebUnboxQ_inline (tableOf (recorder ans)) x.p x.rest)),
   Observed.mk "rebUnbox0_inline" (logOf (Ext.rebUnbox0_inline (tableOf (recorder ans)) x.p)),
   Observed.mk "rebUnboxInteger_inline" (logOf (Ext.rebUnboxInteger_inline (tableOf (recorder ans)) x.p x.rest)),
   Observed.mk "rebUnboxIntegerQ_inline" (logOf (Ext.rebUnboxIntegerQ_inline (tableOf (recorder ans)) x.p x.rest)),
   Observed.mk "rebUnboxInteger0_inline" (logOf (Ext.rebUnboxInteger0_inline (tableOf (recorder ans)) x.p)),
   Observed.mk "rebUnboxDecimal_inline" (logOf (Ext.rebUnboxDecimal_inline (tableOf (recorder ans)) x.p x.rest)),
   Observed.mk "rebUnboxDecimalQ_inline" (logOf (Ext.rebUnboxDecimalQ_inline (tableOf (recorder ans)) x.p x.rest)),
   Observed.mk "rebUnboxChar_inline" (logOf (Ext.rebUnboxChar_inline (tableOf (recorder ans)) x.p x.rest)),
   Observed.mk "rebUnboxCharQ_inline" (logOf (Ext.rebUnboxCharQ_inline (tableOf (recorder ans)) x.p x.rest)),
   Observed.mk "rebSpellInto_inline" (logOf (Ext.rebSpellInto_inline (tableOf (recorder ans)) x.buf x.buf_size x.p x.rest)),
   Observed.mk "rebSpellIntoQ_inline" (logOf (Ext.rebSpellIntoQ_inline (tableOf (recorder ans)) x.buf x.buf_size x.p x.rest)),
   Observed.mk "rebSpell_inline" (logOf (Ext.rebSpell_inline (tableOf (recorder ans)) x.p x.rest)),
   Observed.mk "rebSpellQ_inline" (logOf (Ext.rebSpellQ_inline (tableOf (recorder ans)) x.p x.rest)),
   Observed.mk "rebSpellIntoWide_inline" (logOf (Ext.rebSpellIntoWide_inline (tableOf (recorder ans)) x.buf x.buf_chars x.p x.rest)),
   Observed.mk "rebSpellIntoWideQ_inline" (logOf (Ext.rebSpellIntoWideQ_inline (tableOf (recorder ans)) x.buf x.buf_chars x.p x.rest)),
   Observed.mk "rebSpellWide_inline" (logOf (Ext.rebSpellWide_inline (tableOf (recorder ans)) x.p x.rest)),
   Observed.mk "rebSpellWideQ_inline" (logOf (Ext.rebSpellWideQ_inline (tableOf (recorder ans)) x.p x.rest)),
   Observed.mk "rebBytesInto_inline" (logOf (Ext.rebBytesInto_inline (tableOf (recorder ans)) x.buf x.buf_size x.p x.rest)),
   Observed.mk "rebBytesIntoQ_inline" (logOf (Ext.rebBytesIntoQ_inline (tableOf (recorder ans)) x.buf x.buf_size x.p x.rest)),
   Observed.mk "rebBytes_inline" (logOf (Ext.rebBytes_inline (tableOf (recorder ans)) x.size_out x.p x.rest)),
   Observed.mk "rebBytesQ_inline" (logOf (Ext.rebBytesQ_inline (tableOf (recorder ans)) x.size_out x.p x.rest)),
   Observed.mk "rebRescue_inline" (logOf (Ext.rebRescue_inline (tableOf (recorder ans)) x.dangerous x.opaq)),
   Observed.mk "rebRescueWith_inline" (logOf (Ext.rebRescueWith_inline (tableOf (recorder ans)) x.dangerous x.rescuer x.opaq)),
   Observed.mk "rebHalt_inline" (logOf (Ext.rebHalt_inline (tableOf (recorder ans)))),
   Observed.mk "rebQUOTING_inline" (logOf (Ext.rebQUOTING_inline (tableOf (recorder ans)) x.p x.rest)),
   Observed.mk "rebQUOTINGQ_inline" (logOf (Ext.rebQUOTINGQ_inline (tableOf (recorder ans)) x.p x.rest)),
   Observed.mk "rebUNQUOTING_inline" (logOf (Ext.rebUNQUOTING_inline (tableOf (recorder ans)) x.p x.rest)),
   Observed.mk "rebUNQUOTINGQ_inline" (logOf (Ext.rebUNQUOTINGQ_inline (tableOf (recorder ans)) x.p x.rest)),
   Observed.mk "rebRELEASING_inline" (logOf (Ext.rebRELEASING_inline (tableOf (recorder ans)) x.v)),
   Observed.mk "rebManage_inline" (logOf (Ext.rebManage_inline (tableOf (recorder ans)) x.v)),
   Observed.mk "rebUnmanage_inline" (logOf (Ext.rebUnmanage_inline (tableOf (recorder ans)) x.p)),
   Observed.mk "rebRelease_inline" (logOf (Ext.rebRelease_inline (tableOf (recorder ans)) x.v)),
   Observed.mk "rebDeflateAlloc_inline" (logOf (Ext.rebDeflateAlloc_inline (tableOf (recorder ans)) x.out_len x.input x.in_len)),
   Observed.mk "rebZdeflateAlloc_inline" (logOf (Ext.rebZdeflateAlloc_inline (tableOf (recorder ans)) x.out_len x.input x.in_len)),
   Observed.mk "rebGzipAlloc_inline" (logOf (Ext.rebGzipAlloc_inline (tableOf (recorder ans)) x.out_len x.input x.in_len)),
   Observed.mk "rebInflateAlloc_inline" (logOf (Ext.rebInflateAlloc_inline (tableOf (recorder ans)) x.len_out x.input x.len_in x.max)),
   Observed.mk "rebZinflateAlloc_inline" (logOf (Ext.rebZinflateAlloc_inline (tableOf (recorder ans)) x.len_out x.input x.len_in x.max)),
   Observed.mk "rebGunzipAlloc_inline" (logOf (Ext.rebGunzipAlloc_inline (tableOf (recorder ans)) x.len_out x.input x.len_in x.max)),
   Observed.mk "rebDeflateDetectAlloc_inline" (logOf (Ext.rebDeflateDetectAlloc_inline (tableOf (recorder ans)) x.len_out x.input x.len_in x.max)),
   Observed.mk "rebFail_OS_inline" (logOf (Ext.rebFail_OS_inline d (tableOf (recorder ans)) x.errnum))]

/-- Every inline function of the directly linked branch of rebol.h, in the order
of the file, called on `x` against the recording host. -/
def Direct.logs (d : DeadEnd) (ans : Answers) (x : Actuals) : List Observed :=
  [Observed.mk "rebMalloc_inline" (logOf (Direct.rebMalloc_inline (recorder ans) x.size)),
   Observed.mk "rebRealloc_inline" (logOf (Direct.rebRealloc_inline (recorder ans) x.ptr x.new_size)),
   Observed.mk "rebFree_inline" (logOf (Direct.rebFree_inline (recorder ans) x.ptr)),
   Observed.mk "rebRepossess_inline" (logOf (Direct.rebRepossess_inline (recorder ans) x.ptr x.size)),
   Observed.mk "rebStartup_inline" (logOf (Direct.rebStartup_inline (recorder ans))),
   Observed.mk "rebShutdown_inline" (logOf (Direct.rebShutdown_inline (recorder ans) x.clean)),
   Observed.mk "rebTick_inline" (logOf (Direct.rebTick_inline (recorder ans))),
   Observed.mk "rebVoid_inline" (logOf (Direct.rebVoid_inline (recorder ans))),
   Observed.mk "rebBlank_inline" (logOf (Direct.rebBlank_inline (recorder ans))),
   Observed.mk "rebLogic_inline" (logOf (Direct.rebLogic_inline (recorder ans) x.logic)),
   Observed.mk "rebChar_inline" (logOf (Direct.rebChar_inline (recorder ans) x.codepoint)),
   Observed.mk "rebInteger_inline" (logOf (Direct.rebInteger_inline (recorder ans) x.i)),
   Observed.mk "rebDecimal_inline" (logOf (Direct.rebDecimal_inline (recorder ans) x.dec)),
   Observed.mk "rebSizedBinary_inline" (logOf (Direct.rebSizedBinary_inline (recorder ans) x.bytes x.size)),
   Observed.mk "rebUninitializedBinary_internal_inline" (logOf (Direct.rebUninitializedBinary_internal_inline (recorder ans) x.size)),
   Observed.mk "rebBinaryHead_internal_inline" (logOf (Direct.rebBinaryHead_internal_inline (recorder ans) x.binary)),
   Observed.mk "rebBinaryAt_internal_inline" (logOf (Direct.rebBinaryAt_internal_inline (recorder ans) x.binary)),
   Observed.mk "rebBinarySizeAt_internal_inline" (logOf (Direct.rebBinarySizeAt_internal_inline (recorder ans) x.binary)),
   Observed.mk "rebSizedText_inline" (logOf (Direct.rebSizedText_inline (recorder ans) x.utf8 x.size)),
   Observed.mk "rebText_inline" (logOf (Direct.rebText_inline (recorder ans) x.utf8)),
   Observed.mk "rebLengthedTextWide_inline" (logOf (Direct.rebLengthedTextWide_inline (recorder ans) x.wstr x.num_chars)),
   Observed.mk "rebTextWide_inline" (logOf (Direct.rebTextWide_inline (recorder ans) x.wstr)),
   Observed.mk "rebHandle_inline" (logOf (Direct.rebHandle_inline (recorder ans) x.data x.length x.cleaner)),
   Observed.mk "rebArgR_inline" (logOf (Direct.rebArgR_inline (recorder ans) x.p x.rest)),
   Observed.mk "rebArgRQ_inline" (logOf (Direct.rebArgRQ_inline (recorder ans) x.p x.rest)),
   Observed.mk "rebArg_inline" (logOf (Direct.rebArg_inline (recorder ans) x.p x.rest)),
   Observed.mk "rebArgQ_inline" (logOf (Direct.rebArgQ_inline (recorder ans) x.p x.rest)),
   Observed.mk "rebValue_inline" (logOf (Direct.rebValue_inline (recorder ans) x.p x.rest)),
   Observed.mk "rebValueQ_inline" (logOf (Direct.rebValueQ_inline (recorder ans) x.p x.rest)),
   Observed.mk "rebQuote_inline" (logOf (Direct.rebQuote_inline (recorder ans) x.p x.rest)),
   Observed.mk "rebQuoteQ_inline" (logOf (Direct.rebQuoteQ_inline (recorder ans) x.p x.rest)),
   Observed.mk "rebElide_inline" (logOf (Direct.rebElide_inline (recorder ans) x.p x.rest)),
   Observed.mk "rebElideQ_inline" (logOf (Direct.rebElideQ_inline (recorder ans) x.p x.rest)),
   Observed.mk "rebJumps_inline" (logOf (Direct.rebJumps_inline d (recorder ans) x.p x.rest)),
   Observed.mk "rebJumpsQ_inline" (logOf (Direct.rebJumpsQ_inline d (recorder ans) x.p x.rest)),
   Observed.mk "rebDid_inline" (logOf (Direct.rebDid_inline (recorder ans) x.p x.rest)),
   Observed.mk "rebDidQ_inline" (logOf (Direct.rebDidQ_inline (recorder ans) x.p x.rest)),
   Observed.mk "rebNot_inline" (logOf (Direct.rebNot_inline (recorder ans) x.p x.rest)),
   Observed.mk "rebNotQ_inline" (logOf (Direct.rebNotQ_inline (recorder ans) x.p x.rest)),
   Observed.mk "rebUnbox_inline" (logOf (Direct.rebUnbox_inline (recorder ans) x.p x.rest)),
   Observed.mk "rebUnboxQ_inline" (logOf (Direct.rebUnboxQ_inline (recorder ans) x.p x.rest)),
   Observed.mk "rebUnbox0_inline" (logOf (Direct.rebUnbox0_inline (recorder ans) x.p)),
   Observed.mk "rebUnboxInteger_inline" (logOf (Direct.rebUnboxInteger_inline (recorder ans) x.p x.rest)),
   Observed.mk "rebUnboxIntegerQ_inline" (logOf (Direct.rebUnboxIntegerQ_inline (recorder ans) x.p x.rest)),
   Observed.mk "rebUnboxInteger0_inline" (logOf (Direct.rebUnboxInteger0_inline (recorder ans) x.p)),
   Observed.mk "rebUnboxDecimal_inline" (logOf (Direct.rebUnboxDecimal_inline (recorder ans) x.p x.rest)),
   Observed.mk "rebUnboxDecimalQ_inline" (logOf (Direct.rebUnboxDecimalQ_inline (recorder ans) x.p x.rest)),
   Observed.mk "rebUnboxChar_inline" (logOf (Direct.rebUnboxChar_inline (recorder ans) x.p x.rest)),
   Observed.mk "rebUnboxCharQ_inline" (logOf (Direct.rebUnboxCharQ_inline (recorder ans) x.p x.rest)),
   Observed.mk "rebSpellInto_inline" (logOf (Direct.rebSpellInto_inline (recorder ans) x.buf x.buf_size x.p x.rest)),
   Observed.mk "rebSpellIntoQ_inline" (logOf (Direct.rebSpellIntoQ_inline (recorder ans) x.buf x.buf_size x.p x.rest)),
   Observed.mk "rebSpell_inline" (logOf (Direct.rebSpell_inline (recorder ans) x.p x.rest)),
   Observed.mk "rebSpellQ_inline" (logOf (Direct.rebSpellQ_inline (recorder ans) x.p x.rest)),
   Observed.mk "rebSpellIntoWide_inline" (logOf (Direct.rebSpellIntoWide_inline (recorder ans) x.buf x.buf_chars x.p x.rest)),
   Observed.mk "rebSpellIntoWideQ_inline" (logOf (Direct.rebSpellIntoWideQ_inline (recorder ans) x.buf x.buf_chars x.p x.rest)),
   Observed.mk "rebSpellWide_inline" (logOf (Direct.rebSpellWide_inline (recorder ans) x.p x.rest)),
   Observed.mk "rebSpellWideQ_inline" (logOf (Direct.rebSpellWideQ_inline (recorder ans) x.p x.rest)),
   Observed.mk "rebBytesInto_inline" (logOf (Direct.rebBytesInto_inline (recorder ans) x.buf x.buf_size x.p x.rest)),
   Observed.mk "rebBytesIntoQ_inline" (logOf (Direct.rebBytesIntoQ_inline (recorder ans) x.buf x.buf_size x.p x.rest)),
   Observed.mk "rebBytes_inline" (logOf (Direct.rebBytes_inline (recorder ans) x.size_out x.p x.rest)),
   Observed.mk "rebBytesQ_inline" (logOf (Direct.rebBytesQ_inline (recorder ans) x.size_out x.p x.rest)),
   Observed.mk "rebRescue_inline" (logOf (Direct.rebRescue_inline (recorder ans) x.dangerous x.opaq)),
   Observed.mk "rebRescueWith_inline" (logOf (Direct.rebRescueWith_inline (recorder ans) x.dangerous x.rescuer x.opaq)),
   Observed.mk "rebHalt_inline" (logOf (Direct.rebHalt_inline (recorder ans))),
   Observed.mk "rebQUOTING_inline" (logOf (Direct.rebQUOTING_inline (recorder ans) x.p x.rest)),
   Observed.mk "rebQUOTINGQ_inline" (logOf (Direct.rebQUOTINGQ_inline (recorder ans) x.p x.rest)),
   Observed.mk "rebUNQUOTING_inline" (logOf (Direct.rebUNQUOTING_inline (recorder ans) x.p x.rest)),
   Observed.mk "rebUNQUOTINGQ_inline" (logOf (Direct.rebUNQUOTINGQ_inline (recorder ans) x.p x.rest)),
   Observed.mk "rebRELEASING_inline" (logOf (Direct.rebRELEASING_inline (recorder ans) x.v)),
   Observed.mk "rebManage_inline" (logOf (Direct.rebManage_inline (recorder ans) x.v)),
   Observed.mk "rebUnmanage_inline" (logOf (Direct.rebUnmanage_inline (recorder ans) x.p)),
   Observed.mk "rebRelease_inline" (logOf (Direct.rebRelease_inline (recorder ans) x.v)),
   Observed.mk "rebDeflateAlloc_inline" (logOf (Direct.rebDeflateAlloc_inline (recorder ans) x.out_len x.input x.in_len)),
   Observed.mk "rebZdeflateAlloc_inline" (logOf (Direct.rebZdeflateAlloc_inline (recorder ans) x.out_len x.input x.in_len)),
   Observed.mk "rebGzipAlloc_inline" (logOf (Direct.rebGzipAlloc_inline (recorder ans) x.out_len x.input x.in_len)),
   Observed.mk "rebInflateAlloc_inline" (logOf (Direct.rebInflateAlloc_inline (recorder ans) x.len_out x.input x.len_in x.max)),
   Observed.mk "rebZinflateAlloc_inline" (logOf (Direct.rebZinflateAlloc_inline (recorder ans) x.len_out x.input x.len_in x.max)),
   Observed.mk "rebGunzipAlloc_inline" (logOf (Direct.rebGunzipAlloc_inline (recorder ans) x.len_out x.input x.len_in x.max)),
   Observed.mk "rebDeflateDetectAlloc_inline" (logOf (Direct.rebDeflateDetectAlloc_inline (recorder ans) x.len_out x.input x.len_in x.max)),
   Observed.mk "rebFail_OS_inline" (logOf (Direct.rebFail_OS_inline d (recorder ans) x.errnum))]

/-- Concrete arguments: distinct objects for the pointers, distinct numbers for
the integers, and `p` followed by one text argument and the sentinel. -/
def Actuals.sample : Actuals where
  size := 1
  ptr := Ptr.obj 2
  new_size := 3
  clean := true
  logic := true
  codepoint := 6
  i := 7
  dec := ⟨8⟩
  bytes := Ptr.obj 9
  binary := Ptr.obj 10
  utf8 := Ptr.obj 11
  wstr := Ptr.obj 12
  num_chars := 13
  data := Ptr.obj 14
  length := 15
  cleaner := Ptr.obj 16
  p := Ptr.obj 17
  rest := [Ptr.strLit [0x31], rebEND]
  buf := Ptr.obj 19
  buf_size := 20
  buf_chars := 21
  size_out := Ptr.obj 22
  dangerous := Ptr.obj 23
  opaq := Ptr.obj 24
  rescuer := Ptr.obj 25
  v := Ptr.obj 26
  out_len := Ptr.obj 27
  input := Ptr.obj 28
  in_len := 29
  len_out := Ptr.obj 30
  len_in := 31
  max := 32
  errnum := 33

/-- `Forwards body answer ev`: the runtime saw `RL_rebEnterApi_internal` and
then the one call `ev`, nothing else, and `body` ended the way `answer` says
that call ended. -/
def Forwards {α : Type} (body : Api (List Event) α) (answer : Event → Outcome α)
    (ev : Event) : Prop :=
  observe body = (answer ev, [Event.enter, ev])

/-- `CallsOnce body answer ev`: the only backend call the runtime saw is `ev`,
and `body` ended the way `answer` says that call ended. -/
def CallsOnce {α : Type} (body : Api (List Event) α) (answer : Event → Outcome α)
    (ev : Event) : Prop :=
  (observe body).1 = answer ev ∧ backendCalls (observe body).2 = [ev]

/-! ## The sentinel and the variadic protocol -/

/-- The test for the end of variadic input that rebol.h documents for `rebEND`
(lines 172 to 184): the pointer points at data whose first byte is 0x80 and
whose second byte is 0.  The null pointer points at nothing. -/
def isEND (mem : Memory) (p : Ptr) : Bool :=
  match p.pointee mem with
  | some (b0 :: b1 :: _) => b0 == 0x80 && b1 == 0
  | _ => false

/-- Modelled from the spec: the reading loop of the Variadic Marshaller, which
is not in the sources.  It takes `p` and then the pending variable arguments
one at a time, stops at the first sentinel, and yields the arguments consumed
before it; running out of arguments without meeting the sentinel is undefined
(`none`). -/
def readFrom (mem : Memory) : Ptr → List Ptr → Option (List Ptr)
  | p, [] => if isEND mem p then some [] else none
  | p, q :: more => if isEND mem p then some [] else (readFrom mem q more).map (fun r => p :: r)

/-- Modelled from the spec: the marshaller reading the `p` and `va_list` an
`RL_` function is handed. -/
def readArgs (mem : Memory) (p : Ptr) (va : va_list) : Option (List Ptr) :=
  readFrom mem p va.pending

/-- Modelled from the spec: the marshaller reading a whole argument sequence,
the first of which is `p`. -/
def readSeq (mem : Memory) : List Ptr → Option (List Ptr)
  | [] => none
  | p :: rest => readArgs mem p (va_start rest)

/-- The C call `f(a1, ..., aN, rebEND)` of a function `f(const void *p, ...)`:
the first actual argument is `p`, the others are the variable arguments. -/
def callWithEND {β : Type} (f : Ptr → List Ptr → β) : List Ptr → β
  | [] => f rebEND []
  | a :: more => f a (more ++ [rebEND])

/-- The variadic part of a backend call's arguments: its last two, `p` and the
`va_list`. -/
def variadicPart (args : List CVal) : Option (Ptr × va_list) :=
  match args.reverse with
  | CVal.va_list va :: CVal.ptr p :: _ => some (p, va)
  | _ => none

/-- `HandsOver mem as log`: the log is `RL_rebEnterApi_internal` and one backend
call; what that call is handed, `p` and then the pending contents of its
`va_list`, is `as` followed by `rebEND`; and the reader consumes exactly `as`
from it. -/
def HandsOver (mem : Memory) (as : List Ptr) (log : List Event) : Prop :=
  ∃ fn args p va, log = [Event.enter, Event.call fn args] ∧
    variadicPart args = some (p, va) ∧
    p :: va.pending = as ++ [rebEND] ∧
    readArgs mem p va = some as

/-- Whether a byte is a UTF-8 continuation byte, 0x80 to 0xBF. -/
def isContinuation (b : Nat) : Bool := decide (0x80 ≤ b ∧ b ≤ 0xBF)

/-- The length of the well-formed UTF-8 byte sequence that starts a list of
bytes, after Table 3-7 of the Unicode Standard (RFC 3629); `none` when the
list starts with no such sequence. -/
def utf8SequenceLength : List Nat → Option Nat
  | [] => none
  | b0 :: rest =>
    if b0 ≤ 0x7F then some 1
    else if 0xC2 ≤ b0 ∧ b0 ≤ 0xDF then
      match rest with
      | b1 :: _ => if isContinuation b1 then some 2 else none
      | _ => none
    else if 0xE0 ≤ b0 ∧ b0 ≤ 0xEF then
      match rest with
      | b1 :: b2 :: _ =>
        if (if b0 = 0xE0 then decide (0xA0 ≤ b1 ∧ b1 ≤ 0xBF)
            else if b0 = 0xED then decide (0x80 ≤ b1 ∧ b1 ≤ 0x9F)
            else isContinuation b1) && isContinuation b2 then some 3 else none
      | _ => none
    else if 0xF0 ≤ b0 ∧ b0 ≤ 0xF4 then
      match rest with
      | b1 :: b2 :: b3 :: _ =>
        if (if b0 = 0xF0 then decide (0x90 ≤ b1 ∧ b1 ≤ 0xBF)
            else if b0 = 0xF4 then decide (0x80 ≤ b1 ∧ b1 ≤ 0x8F)
            else isContinuation b1) && isContinuation b2 && isContinuation b3 then some 4
        else none
      | _ => none
    else none

/-- Whether the first `fuel` sequences cover a list of bytes with well-formed
UTF-8 sequences. -/
def wellFormedUtf8Fuel : Nat → List Nat → Bool
  | _, [] => true
  | 0, _ :: _ => false
  | fuel + 1, b :: rest =>
    match utf8SequenceLength (b :: rest) with
    | some n => wellFormedUtf8Fuel fuel ((b :: rest).drop n)
    | none => false

/-- Whether a list of bytes is well-formed UTF-8: a concatenation of
well-formed byte sequences.  Every sequence takes at least one byte, so as
many steps as there are bytes suffice. -/
def wellFormedUtf8 (bytes : List Nat) : Bool := wellFormedUtf8Fuel bytes.length bytes

/-! ## The accessor macros -/

/-- A `#define` of the accessor blocks of rebol.h, in preprocessing tokens:
`#define name body` when `variadic` is false, `#define name(...) body` when it
is true. -/
structure Define where
  name : String
  variadic : Bool
  body : List String
  deriving DecidableEq, Repr

/-- The replacement of the invocation `name(argTokens)`, where `argTokens` are
the tokens between the parentheses.  A `#define name(...) body` replaces the
whole invocation by `body` with `__VA_ARGS__` standing for `argTokens`; a
`#define name body` replaces the identifier alone, and the parenthesised
arguments stay behind it. -/
def Define.expandCall (m : Define) (argTokens : List String) : List String :=
  if m.variadic then
    m.body.flatMap (fun t => if t = "__VA_ARGS__" then argTokens else [t])
  else
    m.body ++ ["("] ++ argTokens ++ [")"]

/-- The tokens of an argument list, the arguments separated by commas. -/
def commaSep : List (List String) → List String
  | [] => []
  | [a] => a
  | a :: b :: more => a ++ "," :: commaSep (b :: more)

/-- The tokens of the call `f(a1, ..., aN)`. -/
def callTokens (f : String) (args : List (List String)) : List String :=
  [f, "("] ++ commaSep args ++ [")"]

/-- The accessor block of rebol.h for the default mode, lines 1327 to 1407, in the
order of the file. -/
def accessorsImplicitEnd : List Define :=
  [Define.mk "rebEnterApi_internal" false ["rebEnterApi_internal_inline"],
   Define.mk "rebMalloc" false ["rebMalloc_inline"],
   Define.mk "rebRealloc" false ["rebRealloc_inline"],
   Define.mk "rebFree" false ["rebFree_inline"],
   Define.mk "rebRepossess" false ["rebRepossess_inline"],
   Define.mk "rebStartup" false ["rebStartup_inline"],
   Define.mk "rebShutdown" false ["rebShutdown_inline"],
   Define.mk "rebTick" false ["rebTick_inline"],
   Define.mk "rebVoid" false ["rebVoid_inline"],
   Define.mk "rebBlank" false ["rebBlank_inline"],
   Define.mk "rebLogic" false ["rebLogic_inline"],
   Define.mk "rebChar" false ["rebChar_inline"],
   Define.mk "rebInteger" false ["rebInteger_inline"],
   Define.mk "rebDecimal" false ["rebDecimal_inline"],
   Define.mk "rebSizedBinary" false ["rebSizedBinary_inline"],
   Define.mk "rebUninitializedBinary_internal" false ["rebUninitializedBinary_internal_inline"],
   Define.mk "rebBinaryHead_internal" false ["rebBinaryHead_internal_inline"],
   Define.mk "rebBinaryAt_internal" false ["rebBinaryAt_internal_inline"],
   Define.mk "rebBinarySizeAt_internal" false ["rebBinarySizeAt_internal_inline"],
   Define.mk "rebSizedText" false ["rebSizedText_inline"],
   Define.mk "rebText" false ["rebText_inline"],
   Define.mk "rebLengthedTextWide" false ["rebLengthedTextWide_inline"],
   Define.mk "rebTextWide" false ["rebTextWide_inline"],
   Define.mk "rebHandle" false ["rebHandle_inline"],
   Define.mk "rebArgR" true ["rebArgR_inline", "(", "__VA_ARGS__", ",", "rebEND", ")"],
   Define.mk "rebArgRQ" true ["rebArgRQ_inline", "(", "__VA_ARGS__", ",", "rebEND", ")"],
   Define.mk "rebArg" true ["rebArg_inline", "(", "__VA_ARGS__", ",", "rebEND", ")"],
   Define.mk "rebArgQ" true ["rebArgQ_inline", "(", "__VA_ARGS__", ",", "rebEND", ")"],
   Define.mk "rebValue" true ["rebValue_inline", "(", "__VA_ARGS__", ",", "rebEND", ")"],
   Define.mk "rebValueQ" true ["rebValueQ_inline", "(", "__VA_ARGS__", ",", "rebEND", ")"],
   Define.mk "rebQuote" true ["rebQuote_inline", "(", "__VA_ARGS__", ",", "rebEND", ")"],
   Define.mk "rebQuoteQ" true ["rebQuoteQ_inline", "(", "__VA_ARGS__", ",", "rebEND", ")"],
   Define.mk "rebElide" true ["rebElide_inline", "(", "__VA_ARGS__", ",", "rebEND", ")"],
   Define.mk "rebElideQ" true ["rebElideQ_inline", "(", "__VA_ARGS__", ",", "rebEND", ")"],
   Define.mk "rebJumps" true ["rebJumps_inline", "(", "__VA_ARGS__", ",", "rebEND", ")"],
   Define.mk "rebJumpsQ" true ["rebJumpsQ_inline", "(", "__VA_ARGS__", ",", "rebEND", ")"],
   Define.mk "rebDid" true ["rebDid_inline", "(", "__VA_ARGS__", ",", "rebEND", ")"],
   Define.mk "rebDidQ" true ["rebDidQ_inline", "(", "__VA_ARGS__", ",", "rebEND", ")"],
   Define.mk "rebNot" true ["rebNot_inline", "(", "__VA_ARGS__", ",", "rebEND", ")"],
   Define.mk "rebNotQ" true ["rebNotQ_inline", "(", "__VA_ARGS__", ",", "rebEND", ")"],
   Define.mk "rebUnbox" true ["rebUnbox_inline", "(", "__VA_ARGS__", ",", "rebEND", ")"],
   Define.mk "rebUnboxQ" true ["rebUnboxQ_inline", "(", "__VA_ARGS__", ",", "rebEND", ")"],
   Define.mk "rebUnbox0" false ["rebUnbox0_inline"],
   Define.mk "rebUnboxInteger" true ["rebUnboxInteger_inline", "(", "__VA_ARGS__", ",", "rebEND", ")"],
   Define.mk "rebUnboxIntegerQ" true ["rebUnboxIntegerQ_inline", "(", "__VA_ARGS__", ",", "rebEND", ")"],
   Define.mk "rebUnboxInteger0" false ["rebUnboxInteger0_inline"],
   Define.mk "rebUnboxDecimal" true ["rebUnboxDecimal_inline", "(", "__VA_ARGS__", ",", "rebEND", ")"],
   Define.mk "rebUnboxDecimalQ" true ["rebUnboxDecimalQ_inline", "(", "__VA_ARGS__", ",", "rebEND", ")"],
   Define.mk "rebUnboxChar" true ["rebUnboxChar_inline", "(", "__VA_ARGS__", ",", "rebEND", ")"],
   Define.mk "rebUnboxCharQ" true ["rebUnboxCharQ_inline", "(", "__VA_ARGS__", ",", "rebEND", ")"],
   Define.mk "rebSpellInto" true ["rebSpellInto_inline", "(", "__VA_ARGS__", ",", "rebEND", ")"],
   Define.mk "rebSpellIntoQ" true ["rebSpellIntoQ_inline", "(", "__VA_ARGS__", ",", "rebEND", ")"],
   Define.mk "rebSpell" true ["rebSpell_inline", "(", "__VA_ARGS__", ",", "rebEND", ")"],
   Define.mk "rebSpellQ" true ["rebSpellQ_inline", "(", "__VA_ARGS__", ",", "rebEND", ")"],
   Define.mk "rebSpellIntoWide" true ["rebSpellIntoWide_inline", "(", "__VA_ARGS__", ",", "rebEND", ")"],
   Define.mk "rebSpellIntoWideQ" true ["rebSpellIntoWideQ_inline", "(", "__VA_ARGS__", ",", "rebEND", ")"],
   Define.mk "rebSpellWide" true ["rebSpellWide_inline", "(", "__VA_ARGS__", ",", "rebEND", ")"],
   Define.mk "rebSpellWideQ" true ["rebSpellWideQ_inline", "(", "__VA_ARGS__", ",", "rebEND", ")"],
   Define.mk "rebBytesInto" true ["rebBytesInto_inline", "(", "__VA_ARGS__", ",", "rebEND", ")"],
   Define.mk "rebBytesIntoQ" true ["rebBytesIntoQ_inline", "(", "__VA_ARGS__", ",", "rebEND", ")"],
   Define.mk "rebBytes" true ["rebBytes_inline", "(", "__VA_ARGS__", ",", "rebEND", ")"],
   Define.mk "rebBytesQ" true ["rebBytesQ_inline", "(", "__VA_ARGS__", ",", "rebEND", ")"],
   Define.mk "rebRescue" false ["rebRescue_inline"],
   Define.mk "rebRescueWith" false ["rebRescueWith_inline"],
   Define.mk "rebHalt" false ["rebHalt_inline"],
   Define.mk "rebQUOTING" true ["rebQUOTING_inline", "(", "__VA_ARGS__", ",", "rebEND", ")"],
   Define.mk "rebQUOTINGQ" true ["rebQUOTINGQ_inline", "(", "__VA_ARGS__", ",", "rebEND", ")"],
   Define.mk "rebUNQUOTING" true ["rebUNQUOTING_inline", "(", "__VA_ARGS__", ",", "rebEND", ")"],
   Define.mk "rebUNQUOTINGQ" true ["rebUNQUOTINGQ_inline", "(", "__VA_ARGS__", ",", "rebEND", ")"],
   Define.mk "rebRELEASING" false ["rebRELEASING_inline"],
   Define.mk "rebManage" false ["rebManage_inline"],
   Define.mk "rebUnmanage" false ["rebUnmanage_inline"],
   Define.mk "rebRelease" false ["rebRelease_inline"],
   Define.mk "rebDeflateAlloc" false ["rebDeflateAlloc_inline"],
   Define.mk "rebZdeflateAlloc" false ["rebZdeflateAlloc_inline"],
   Define.mk "rebGzipAlloc" false ["rebGzipAlloc_inline"],
   Define.mk "rebInflateAlloc" false ["rebInflateAlloc_inline"],
   Define.mk "rebZinflateAlloc" false ["rebZinflateAlloc_inline"],
   Define.mk "rebGunzipAlloc" false ["rebGunzipAlloc_inline"],
   Define.mk "rebDeflateDetectAlloc" false ["rebDeflateDetectAlloc_inline"],
   Define.mk "rebFail_OS" false ["rebFail_OS_inline"]]

/-- The accessor block of rebol.h under `REBOL_EXPLICIT_END`, lines 1419 to 1499,
in the order of the file. -/
def accessorsExplicitEnd : List Define :=
  [Define.mk "rebEnterApi_internal" false ["rebEnterApi_internal_inline"],
   Define.mk "rebMalloc" false ["rebMalloc_inline"],
   Define.mk "rebRealloc" false ["rebRealloc_inline"],
   Define.mk "rebFree" false ["rebFree_inline"],
   Define.mk "rebRepossess" false ["rebRepossess_inline"],
   Define.mk "rebStartup" false ["rebStartup_inline"],
   Define.mk "rebShutdown" false ["rebShutdown_inline"],
   Define.mk "rebTick" false ["rebTick_inline"],
   Define.mk "rebVoid" false ["rebVoid_inline"],
   Define.mk "rebBlank" false ["rebBlank_inline"],
   Define.mk "rebLogic" false ["rebLogic_inline"],
   Define.mk "rebChar" false ["rebChar_inline"],
   Define.mk "rebInteger" false ["rebInteger_inline"],
   Define.mk "rebDecimal" false ["rebDecimal_inline"],
   Define.mk "rebSizedBinary" false ["rebSizedBinary_inline"],
   Define.mk "rebUninitializedBinary_internal" false ["rebUninitializedBinary_internal_inline"],
   Define.mk "rebBinaryHead_internal" false ["rebBinaryHead_internal_inline"],
   Define.mk "rebBinaryAt_internal" false ["rebBinaryAt_internal_inline"],
   Define.mk "rebBinarySizeAt_internal" false ["rebBinarySizeAt_internal_inline"],
   Define.mk "rebSizedText" false ["rebSizedText_inline"],
   Define.mk "rebText" false ["rebText_inline"],
   Define.mk "rebLengthedTextWide" false ["rebLengthedTextWide_inline"],
   Define.mk "rebTextWide" false ["rebTextWide_inline"],
   Define.mk "rebHandle" false ["rebHandle_inline"],
   Define.mk "rebArgR" false ["rebArgR_inline"],
   Define.mk "rebArgRQ" false ["rebArgRQ_inline"],
   Define.mk "rebArg" false ["rebArg_inline"],
   Define.mk "rebArgQ" false ["rebArgQ_inline"],
   Define.mk "rebValue" false ["rebValue_inline"],
   Define.mk "rebValueQ" false ["rebValueQ_inline"],
   Define.mk "rebQuote" false ["rebQuote_inline"],
   Define.mk "rebQuoteQ" false ["rebQuoteQ_inline"],
   Define.mk "rebElide" false ["rebElide_inline"],
   Define.mk "rebElideQ" false ["rebElideQ_inline"],
   Define.mk "rebJumps" false ["rebJumps_inline"],
   Define.mk "rebJumpsQ" false ["rebJumpsQ_inline"],
   Define.mk "rebDid" false ["rebDid_inline"],
   Define.mk "rebDidQ" false ["rebDidQ_inline"],
   Define.mk "rebNot" false ["rebNot_inline"],
   Define.mk "rebNotQ" false ["rebNotQ_inline"],
   Define.mk "rebUnbox" false ["rebUnbox_inline"],
   Define.mk "rebUnboxQ" false ["rebUnboxQ_inline"],
   Define.mk "rebUnbox0" false ["rebUnbox0_inline"],
   Define.mk "rebUnboxInteger" false ["rebUnboxInteger_inline"],
   Define.mk "rebUnboxIntegerQ" false ["rebUnboxIntegerQ_inline"],
   Define.mk "rebUnboxInteger0" false ["rebUnboxInteger0_inline"],
   Define.mk "rebUnboxDecimal" false ["rebUnboxDecimal_inline"],
   Define.mk "rebUnboxDecimalQ" false ["rebUnboxDecimalQ_inline"],
   Define.mk "rebUnboxChar" false ["rebUnboxChar_inline"],
   Define.mk "rebUnboxCharQ" false ["rebUnboxCharQ_inline"],
   Define.mk "rebSpellInto" false ["rebSpellInto_inline"],
   Define.mk "rebSpellIntoQ" false ["rebSpellIntoQ_inline"],
   Define.mk "rebSpell" false ["rebSpell_inline"],
   Define.mk "rebSpellQ" false ["rebSpellQ_inline"],
   Define.mk "rebSpellIntoWide" false ["rebSpellIntoWide_inline"],
   Define.mk "rebSpellIntoWideQ" false ["rebSpellIntoWideQ_inline"],
   Define.mk "rebSpellWide" false ["rebSpellWide_inline"],
   Define.mk "rebSpellWideQ" false ["rebSpellWideQ_inline"],
   Define.mk "rebBytesInto" false ["rebBytesInto_inline"],
   Define.mk "rebBytesIntoQ" false ["rebBytesIntoQ_inline"],
   Define.mk "rebBytes" false ["rebBytes_inline"],
   Define.mk "rebBytesQ" false ["rebBytesQ_inline"],
   Define.mk "rebRescue" false ["rebRescue_inline"],
   Define.mk "rebRescueWith" false ["rebRescueWith_inline"],
   Define.mk "rebHalt" false ["rebHalt_inline"],
   Define.mk "rebQUOTING" false ["rebQUOTING_inline"],
   Define.mk "rebQUOTINGQ" false ["rebQUOTINGQ_inline"],
   Define.mk "rebUNQUOTING" false ["rebUNQUOTING_inline"],
   Define.mk "rebUNQUOTINGQ" false ["rebUNQUOTINGQ_inline"],
   Define.mk "rebRELEASING" false ["rebRELEASING_inline"],
   Define.mk "rebManage" false ["rebManage_inline"],
   Define.mk "rebUnmanage" false ["rebUnmanage_inline"],
   Define.mk "rebRelease" false ["rebRelease_inline"],
   Define.mk "rebDeflateAlloc" false ["rebDeflateAlloc_inline"],
   Define.mk "rebZdeflateAlloc" false ["rebZdeflateAlloc_inline"],
   Define.mk "rebGzipAlloc" false ["rebGzipAlloc_inline"],
   Define.mk "rebInflateAlloc" false ["rebInflateAlloc_inline"],
   Define.mk "rebZinflateAlloc" false ["rebZinflateAlloc_inline"],
   Define.mk "rebGunzipAlloc" false ["rebGunzipAlloc_inline"],
   Define.mk "rebDeflateDetectAlloc" false ["rebDeflateDetectAlloc_inline"],
   Define.mk "rebFail_OS" false ["rebFail_OS_inline"]]

/-- The accessor macros rebol.h defines (lines 1314 to 1502), by whether
`REBOL_EXPLICIT_END` and `REBOL_DISABLE_ACCESSOR_MACROS` are defined. -/
def accessorDefines (REBOL_EXPLICIT_END REBOL_DISABLE_ACCESSOR_MACROS : Bool) : List Define :=
  if REBOL_DISABLE_ACCESSOR_MACROS then []
  else if REBOL_EXPLICIT_END then accessorsExplicitEnd
  else accessorsImplicitEnd

/-! ## The declarations of the table and of the prototypes -/

/-- A function declaration of rebol.h: its return type, its name, and its
parameters as type and name, the types written with single blanks between
tokens. -/
structure Decl where
  ret : String
  name : String
  params : List (String × String)
  deriving DecidableEq, Repr

/-- The fields of `RL_LIB`, rebol.h lines 243 to 303, in the order of the struct:
for `ret (*name)(params);` the return type, the name and the parameters. -/
def RL_LIB_fields : List Decl :=
  [Decl.mk "void" "rebEnterApi_internal" [],
   Decl.mk "void *" "rebMalloc" [("size_t", "size")],
   Decl.mk "void *" "rebRealloc" [("void *", "ptr"), ("size_t", "new_size")],
   Decl.mk "void" "rebFree" [("void *", "ptr")],
   Decl.mk "REBVAL *" "rebRepossess" [("void *", "ptr"), ("size_t", "size")],
   Decl.mk "void" "rebStartup" [],
   Decl.mk "void" "rebShutdown" [("bool", "clean")],
   Decl.mk "uintptr_t" "rebTick" [],
   Decl.mk "REBVAL *" "rebVoid" [],
   Decl.mk "REBVAL *" "rebBlank" [],
   Decl.mk "REBVAL *" "rebLogic" [("bool", "logic")],
   Decl.mk "REBVAL *" "rebChar" [("uint32_t", "codepoint")],
   Decl.mk "REBVAL *" "rebInteger" [("int64_t", "i")],
   Decl.mk "REBVAL *" "rebDecimal" [("double", "dec")],
   Decl.mk "REBVAL *" "rebSizedBinary" [("const void *", "bytes"), ("size_t", "size")],
   Decl.mk "REBVAL *" "rebUninitializedBinary_internal" [("size_t", "size")],
   Decl.mk "unsigned char *" "rebBinaryHead_internal" [("const REBVAL *", "binary")],
   Decl.mk "unsigned char *" "rebBinaryAt_internal" [("const REBVAL *", "binary")],
   Decl.mk "unsigned int" "rebBinarySizeAt_internal" [("const REBVAL *", "binary")],
   Decl.mk "REBVAL *" "rebSizedText" [("const char *", "utf8"), ("size_t", "size")],
   Decl.mk "REBVAL *" "rebText" [("const char *", "utf8")],
   Decl.mk "REBVAL *" "rebLengthedTextWide" [("const REBWCHAR *", "wstr"), ("unsigned int", "num_chars")],
   Decl.mk "REBVAL *" "rebTextWide" [("const REBWCHAR *", "wstr")],
   Decl.mk "REBVAL *" "rebHandle" [("void *", "data"), ("size_t", "length"), ("CLEANUP_CFUNC *", "cleaner")],
   Decl.mk "const void *" "rebArgR" [("unsigned char", "quotes"), ("const void *", "p"), ("va_list *", "vaptr")],
   Decl.mk "REBVAL *" "rebArg" [("unsigned char", "quotes"), ("const void *", "p"), ("va_list *", "vaptr")],
   Decl.mk "REBVAL *" "rebValue" [("unsigned char", "quotes"), ("const void *", "p"), ("va_list *", "vaptr")],
   Decl.mk "REBVAL *" "rebQuote" [("unsigned char", "quotes"), ("const void *", "p"), ("va_list *", "vaptr")],
   Decl.mk "void" "rebElide" [("unsigned char", "quotes"), ("const void *", "p"), ("va_list *", "vaptr")],
   Decl.mk "void" "rebJumps" [("unsigned char", "quotes"), ("const void *", "p"), ("va_list *", "vaptr")],
   Decl.mk "bool" "rebDid" [("unsigned char", "quotes"), ("const void *", "p"), ("va_list *", "vaptr")],
   Decl.mk "bool" "rebNot" [("unsigned char", "quotes"), ("const void *", "p"), ("va_list *", "vaptr")],
   Decl.mk "intptr_t" "rebUnbox" [("unsigned char", "quotes"), ("const void *", "p"), ("va_list *", "vaptr")],
   Decl.mk "intptr_t" "rebUnbox0" [("const void *", "p")],
   Decl.mk "intptr_t" "rebUnboxInteger" [("unsigned char", "quotes"), ("const void *", "p"), ("va_list *", "vaptr")],
   Decl.mk "intptr_t" "rebUnboxInteger0" [("const void *", "p")],
   Decl.mk "double" "rebUnboxDecimal" [("unsigned char", "quotes"), ("const void *", "p"), ("va_list *", "vaptr")],
   Decl.mk "uint32_t" "rebUnboxChar" [("unsigned char", "quotes"), ("const void *", "p"), ("va_list *", "vaptr")],
   Decl.mk "size_t" "rebSpellInto" [("unsigned char", "quotes"), ("char *", "buf"), ("size_t", "buf_size"), ("const void *", "p"), ("va_list *", "vaptr")],
   Decl.mk "char *" "rebSpell" [("unsigned char", "quotes"), ("const void *", "p"), ("va_list *", "vaptr")],
   Decl.mk "unsigned int" "rebSpellIntoWide" [("unsigned char", "quotes"), ("REBWCHAR *", "buf"), ("unsigned int", "buf_chars"), ("const void *", "p"), ("va_list *", "vaptr")],
   Decl.mk "REBWCHAR *" "rebSpellWide" [("unsigned char", "quotes"), ("const void *", "p"), ("va_list *", "vaptr")],
   Decl.mk "size_t" "rebBytesInto" [("unsigned char", "quotes"), ("unsigned char *", "buf"), ("size_t", "buf_size"), ("const void *", "p"), ("va_list *", "vaptr")],
   Decl.mk "unsigned char *" "rebBytes" [("unsigned char", "quotes"), ("size_t *", "size_out"), ("const void *", "p"), ("va_list *", "vaptr")],
   Decl.mk "REBVAL *" "rebRescue" [("REBDNG *", "dangerous"), ("void *", "opaque")],
   Decl.mk "REBVAL *" "rebRescueWith" [("REBDNG *", "dangerous"), ("REBRSC *", "rescuer"), ("void *", "opaque")],
   Decl.mk "void" "rebHalt" [],
   Decl.mk "const void *" "rebQUOTING" [("unsigned char", "quotes"), ("const void *", "p"), ("va_list *", "vaptr")],
   Decl.mk "const void *" "rebUNQUOTING" [("unsigned char", "quotes"), ("const void *", "p"), ("va_list *", "vaptr")],
   Decl.mk "const void *" "rebRELEASING" [("REBVAL *", "v")],
   Decl.mk "REBVAL *" "rebManage" [("REBVAL *", "v")],
   Decl.mk "void" "rebUnmanage" [("void *", "p")],
   Decl.mk "void" "rebRelease" [("const REBVAL *", "v")],
   Decl.mk "void *" "rebDeflateAlloc" [("size_t *", "out_len"), ("const void *", "input"), ("size_t", "in_len")],
   Decl.mk "void *" "rebZdeflateAlloc" [("size_t *", "out_len"), ("const void *", "input"), ("size_t", "in_len")],
   Decl.mk "void *" "rebGzipAlloc" [("size_t *", "out_len"), ("const void *", "input"), ("size_t", "in_len")],
   Decl.mk "void *" "rebInflateAlloc" [("size_t *", "len_out"), ("const void *", "input"), ("size_t", "len_in"), ("int", "max")],
   Decl.mk "void *" "rebZinflateAlloc" [("size_t *", "len_out"), ("const void *", "input"), ("size_t", "len_in"), ("int", "max")],
   Decl.mk "void *" "rebGunzipAlloc" [("size_t *", "len_out"), ("const void *", "input"), ("size_t", "len_in"), ("int", "max")],
   Decl.mk "void *" "rebDeflateDetectAlloc" [("size_t *", "len_out"), ("const void *", "input"), ("size_t", "len_in"), ("int", "max")],
   Decl.mk "void" "rebFail_OS" [("int", "errnum")]]

/-- The prototypes `RL_API ret RL_name(params);` of rebol.h, lines 781 to 841, in
the order of the file. -/
def RL_prototypes : List Decl :=
  [Decl.mk "void" "RL_rebEnterApi_internal" [],
   Decl.mk "void *" "RL_rebMalloc" [("size_t", "size")],
   Decl.mk "void *" "RL_rebRealloc" [("void *", "ptr"), ("size_t", "new_size")],
   Decl.mk "void" "RL_rebFree" [("void *", "ptr")],
   Decl.mk "REBVAL *" "RL_rebRepossess" [("void *", "ptr"), ("size_t", "size")],
   Decl.mk "void" "RL_rebStartup" [],
   Decl.mk "void" "RL_rebShutdown" [("bool", "clean")],
   Decl.mk "uintptr_t" "RL_rebTick" [],
   Decl.mk "REBVAL *" "RL_rebVoid" [],
   Decl.mk "REBVAL *" "RL_rebBlank" [],
   Decl.mk "REBVAL *" "RL_rebLogic" [("bool", "logic")],
   Decl.mk "REBVAL *" "RL_rebChar" [("uint32_t", "codepoint")],
   Decl.mk "REBVAL *" "RL_rebInteger" [("int64_t", "i")],
   Decl.mk "REBVAL *" "RL_rebDecimal" [("double", "dec")],
   Decl.mk "REBVAL *" "RL_rebSizedBinary" [("const void *", "bytes"), ("size_t", "size")],
   Decl.mk "REBVAL *" "RL_rebUninitializedBinary_internal" [("size_t", "size")],
   Decl.mk "unsigned char *" "RL_rebBinaryHead_internal" [("const REBVAL *", "binary")],
   Decl.mk "unsigned char *" "RL_rebBinaryAt_internal" [("const REBVAL *", "binary")],
   Decl.mk "unsigned int" "RL_rebBinarySizeAt_internal" [("const REBVAL *", "binary")],
   Decl.mk "REBVAL *" "RL_rebSizedText" [("const char *", "utf8"), ("size_t", "size")],
   Decl.mk "REBVAL *" "RL_rebText" [("const char *", "utf8")],
   Decl.mk "REBVAL *" "RL_rebLengthedTextWide" [("const REBWCHAR *", "wstr"), ("unsigned int", "num_chars")],
   Decl.mk "REBVAL *" "RL_rebTextWide" [("const REBWCHAR *", "wstr")],
   Decl.mk "REBVAL *" "RL_rebHandle" [("void *", "data"), ("size_t", "length"), ("CLEANUP_CFUNC *", "cleaner")],
   Decl.mk "const void *" "RL_rebArgR" [("unsigned char", "quotes"), ("const void *", "p"), ("va_list *", "vaptr")],
   Decl.mk "REBVAL *" "RL_rebArg" [("unsigned char", "quotes"), ("const void *", "p"), ("va_list *", "vaptr")],
   Decl.mk "REBVAL *" "RL_rebValue" [("unsigned char", "quotes"), ("const void *", "p"), ("va_list *", "vaptr")],
   Decl.mk "REBVAL *" "RL_rebQuote" [("unsigned char", "quotes"), ("const void *", "p"), ("va_list *", "vaptr")],
   Decl.mk "void" "RL_rebElide" [("unsigned char", "quotes"), ("const void *", "p"), ("va_list *", "vaptr")],
   Decl.mk "void" "RL_rebJumps" [("unsigned char", "quotes"), ("const void *", "p"), ("va_list *", "vaptr")],
   Decl.mk "bool" "RL_rebDid" [("unsigned char", "quotes"), ("const void *", "p"), ("va_list *", "vaptr")],
   Decl.mk "bool" "RL_rebNot" [("unsigned char", "quotes"), ("const void *", "p"), ("va_list *", "vaptr")],
   Decl.mk "intptr_t" "RL_rebUnbox" [("unsigned char", "quotes"), ("const void *", "p"), ("va_list *", "vaptr")],
   Decl.mk "intptr_t" "RL_rebUnbox0" [("const void *", "p")],
   Decl.mk "intptr_t" "RL_rebUnboxInteger" [("unsigned char", "quotes"), ("const void *", "p"), ("va_list *", "vaptr")],
   Decl.mk "intptr_t" "RL_rebUnboxInteger0" [("const void *", "p")],
   Decl.mk "double" "RL_rebUnboxDecimal" [("unsigned char", "quotes"), ("const void *", "p"), ("va_list *", "vaptr")],
   Decl.mk "uint32_t" "RL_rebUnboxChar" [("unsigned char", "quotes"), ("const void *", "p"), ("va_list *", "vaptr")],
   Decl.mk "size_t" "RL_rebSpellInto" [("unsigned char", "quotes"), ("char *", "buf"), ("size_t", "buf_size"), ("const void *", "p"), ("va_list *", "vaptr")],
   Decl.mk "char *" "RL_rebSpell" [("unsigned char", "quotes"), ("const void *", "p"), ("va_list *", "vaptr")],
   Decl.mk "unsigned int" "RL_rebSpellIntoWide" [("unsigned char", "quotes"), ("REBWCHAR *", "buf"), ("unsigned int", "buf_chars"), ("const void *", "p"), ("va_list *", "vaptr")],
   Decl.mk "REBWCHAR *" "RL_rebSpellWide" [("unsigned char", "quotes"), ("const void *", "p"), ("va_list *", "vaptr")],
   Decl.mk "size_t" "RL_rebBytesInto" [("unsigned char", "quotes"), ("unsigned char *", "buf"), ("size_t", "buf_size"), ("const void *", "p"), ("va_list *", "vaptr")],
   Decl.mk "unsigned char *" "RL_rebBytes" [("unsigned char", "quotes"), ("size_t *", "size_out"), ("const void *", "p"), ("va_list *", "vaptr")],
   Decl.mk "REBVAL *" "RL_rebRescue" [("REBDNG *", "dangerous"), ("void *", "opaque")],
   Decl.mk "REBVAL *" "RL_rebRescueWith" [("REBDNG *", "dangerous"), ("REBRSC *", "rescuer"), ("void *", "opaque")],
   Decl.mk "void" "RL_rebHalt" [],
   Decl.mk "const void *" "RL_rebQUOTING" [("unsigned char", "quotes"), ("const void *", "p"), ("va_list *", "vaptr")],
   Decl.mk "const void *" "RL_rebUNQUOTING" [("unsigned char", "quotes"), ("const void *", "p"), ("va_list *", "vaptr")],
   Decl.mk "const void *" "RL_rebRELEASING" [("REBVAL *", "v")],
   Decl.mk "REBVAL *" "RL_rebManage" [("REBVAL *", "v")],
   Decl.mk "void" "RL_rebUnmanage" [("void *", "p")],
   Decl.mk "void" "RL_rebRelease" [("const REBVAL *", "v")],
   Decl.mk "void *" "RL_rebDeflateAlloc" [("size_t *", "out_len"), ("const void *", "input"), ("size_t", "in_len")],
   Decl.mk "void *" "RL_rebZdeflateAlloc" [("size_t *", "out_len"), ("const void *", "input"), ("size_t", "in_len")],
   Decl.mk "void *" "RL_rebGzipAlloc" [("size_t *", "out_len"), ("const void *", "input"), ("size_t", "in_len")],
   Decl.mk "void *" "RL_rebInflateAlloc" [("size_t *", "len_out"), ("const void *", "input"), ("size_t", "len_in"), ("int", "max")],
   Decl.mk "void *" "RL_rebZinflateAlloc" [("size_t *", "len_out"), ("const void *", "input"), ("size_t", "len_in"), ("int", "max")],
   Decl.mk "void *" "RL_rebGunzipAlloc" [("size_t *", "len_out"), ("const void *", "input"), ("size_t", "len_in"), ("int", "max")],
   Decl.mk "void *" "RL_rebDeflateDetectAlloc" [("size_t *", "len_out"), ("const void *", "input"), ("size_t", "len_in"), ("int", "max")],
   Decl.mk "void" "RL_rebFail_OS" [("int", "errnum")]]

/-! ## The function definitions as declared -/

/-- The head of a function definition of valist.c or rebol.h: whether
`ATTRIBUTE_NO_RETURN` stands before it, its return type, its name, its named
parameters as type and name, and whether the parameter list ends in `...`. -/
structure Definition where
  noReturn : Bool
  ret : String
  name : String
  params : List (String × String)
  variadic : Bool
  deriving DecidableEq, Repr

/-- The heads of the functions valist.c defines, lines 13 to 456, in the order of
the file. -/
def Valist.definitions : List Definition :=
  [Definition.mk false "void *" "rebMalloc" [("size_t", "size")] false,
   Definition.mk false "void *" "rebRealloc" [("void *", "ptr"), ("size_t", "new_size")] false,
   Definition.mk false "void" "rebFree" [("void *", "ptr")] false,
   Definition.mk false "REBVAL *" "rebRepossess" [("void *", "ptr"), ("size_t", "size")] false,
   Definition.mk false "void" "rebStartup" [] false,
   Definition.mk false "void" "rebShutdown" [("bool", "clean")] false,
   Definition.mk false "uintptr_t" "rebTick" [] false,
   Definition.mk false "REBVAL *" "rebVoid" [] false,
   Definition.mk false "REBVAL *" "rebBlank" [] false,
   Definition.mk false "REBVAL *" "rebLogic" [("bool", "logic")] false,
   Definition.mk false "REBVAL *" "rebChar" [("uint32_t", "codepoint")] false,
   Definition.mk false "REBVAL *" "rebInteger" [("int64_t", "i")] false,
   Definition.mk false "REBVAL *" "rebDecimal" [("double", "dec")] false,
   Definition.mk false "REBVAL *" "rebSizedBinary" [("const void *", "bytes"), ("size_t", "size")] false,
   Definition.mk false "REBVAL *" "rebUninitializedBinary_internal" [("size_t", "size")] false,
   Definition.mk false "unsigned char *" "rebBinaryHead_internal" [("const REBVAL *", "binary")] false,
   Definition.mk false "unsigned char *" "rebBinaryAt_internal" [("const REBVAL *", "binary")] false,
   Definition.mk false "unsigned int" "rebBinarySizeAt_internal" [("const REBVAL *", "binary")] false,
   Definition.mk false "REBVAL *" "rebSizedText" [("const char *", "utf8"), ("size_t", "size")] false,
   Definition.mk false "REBVAL *" "rebText" [("const char *", "utf8")] false,
   Definition.mk false "REBVAL *" "rebLengthedTextWide" [("const REBWCHAR *", "wstr"), ("unsigned int", "num_chars")] false,
   Definition.mk false "REBVAL *" "rebTextWide" [("const REBWCHAR *", "wstr")] false,
   Definition.mk false "REBVAL *" "rebHandle" [("void *", "data"), ("size_t", "length"), ("CLEANUP_CFUNC *", "cleaner")] false,
   Definition.mk false "const void *" "rebArgR" [("const void *", "p")] true,
   Definition.mk false "const void *" "rebArgRQ" [("const void *", "p")] true,
   Definition.mk false "REBVAL *" "rebArg" [("const void *", "p")] true,
   Definition.mk false "REBVAL *" "rebArgQ" [("const void *", "p")] true,
   Definition.mk false "REBVAL *" "rebValue" [("const void *", "p")] true,
   Definition.mk false "REBVAL *" "rebValueQ" [("const void *", "p")] true,
   Definition.mk false "REBVAL *" "rebQuote" [("const void *", "p")] true,
   Definition.mk false "REBVAL *" "rebQuoteQ" [("const void *", "p")] true,
   Definition.mk false "void" "rebElide" [("const void *", "p")] true,
   Definition.mk false "void" "rebElideQ" [("const void *", "p")] true,
   Definition.mk true "void" "rebJumps" [("const void *", "p")] true,
   Definition.mk true "void" "rebJumpsQ" [("const void *", "p")] true,
   Definition.mk false "bool" "rebDid" [("const void *", "p")] true,
   Definition.mk false "bool" "rebDidQ" [("const void *", "p")] true,
   Definition.mk false "bool" "rebNot" [("const void *", "p")] true,
   Definition.mk false "bool" "rebNotQ" [("const void *", "p")] true,
   Definition.mk false "intptr_t" "rebUnbox" [("const void *", "p")] true,
   Definition.mk false "intptr_t" "rebUnboxQ" [("const void *", "p")] true,
   Definition.mk false "intptr_t" "rebUnbox0" [("const void *", "p")] false,
   Definition.mk false "intptr_t" "rebUnboxInteger" [("const void *", "p")] true,
   Definition.mk false "intptr_t" "rebUnboxIntegerQ" [("const void *", "p")] true,
   Definition.mk false "intptr_t" "rebUnboxInteger0" [("const void *", "p")] false,
   Definition.mk false "double" "rebUnboxDecimal" [("const void *", "p")] true,
   Definition.mk false "double" "rebUnboxDecimalQ" [("const void *", "p")] true,
   Definition.mk false "uint32_t" "rebUnboxChar" [("const void *", "p")] true,
   Definition.mk false "uint32_t" "rebUnboxCharQ" [("const void *", "p")] true,
   Definition.mk false "size_t" "rebSpellInto" [("char *", "buf"), ("size_t", "buf_size"), ("const void *", "p")] true,
   Definition.mk false "size_t" "rebSpellIntoQ" [("char *", "buf"), ("size_t", "buf_size"), ("const void *", "p")] true,
   Definition.mk false "char *" "rebSpell" [("const void *", "p")] true,
   Definition.mk false "char *" "rebSpellQ" [("const void *", "p")] true,
   Definition.mk false "unsigned int" "rebSpellIntoWide" [("REBWCHAR *", "buf"), ("unsigned int", "buf_chars"), ("const void *", "p")] true,
   Definition.mk false "unsigned int" "rebSpellIntoWideQ" [("REBWCHAR *", "buf"), ("unsigned int", "buf_chars"), ("const void *", "p")] true,
   Definition.mk false "REBWCHAR *" "rebSpellWide" [("const void *", "p")] true,
   Definition.mk false "REBWCHAR *" "rebSpellWideQ" [("const void *", "p")] true,
   Definition.mk false "size_t" "rebBytesInto" [("unsigned char *", "buf"), ("size_t", "buf_size"), ("const void *", "p")] true,
   Definition.mk false "size_t" "rebBytesIntoQ" [("unsigned char *", "buf"), ("size_t", "buf_size"), ("const void *", "p")] true,
   Definition.mk false "unsigned char *" "rebBytes" [("size_t *", "size_out"), ("const void *", "p")] true,
   Definition.mk false "unsigned char *" "rebBytesQ" [("size_t *", "size_out"), ("const void *", "p")] true,
   Definition.mk false "REBVAL *" "rebRescue" [("REBDNG *", "dangerous"), ("void *", "opaque")] false,
   Definition.mk false "REBVAL *" "rebRescueWith" [("REBDNG *", "dangerous"), ("REBRSC *", "rescuer"), ("void *", "opaque")] false,
   Definition.mk false "void" "rebHalt" [] false,
   Definition.mk false "const void *" "rebQUOTING" [("const void *", "p")] true,
   Definition.mk false "const void *" "rebQUOTINGQ" [("const void *", "p")] true,
   Definition.mk false "const void *" "rebUNQUOTING" [("const void *", "p")] true,
   Definition.mk false "const void *" "rebUNQUOTINGQ" [("const void *", "p")] true,
   Definition.mk false "const void *" "rebRELEASING" [("REBVAL *", "v")] false,
   Definition.mk false "REBVAL *" "rebManage" [("REBVAL *", "v")] false,
   Definition.mk false "void" "rebUnmanage" [("void *", "p")] false,
   Definition.mk false "void" "rebRelease" [("const REBVAL *", "v")] false,
   Definition.mk false "void *" "rebDeflateAlloc" [("size_t *", "out_len"), ("const void *", "input"), ("size_t", "in_len")] false,
   Definition.mk false "void *" "rebZdeflateAlloc" [("size_t *", "out_len"), ("const void *", "input"), ("size_t", "in_len")] false,
   Definition.mk false "void *" "rebGzipAlloc" [("size_t *", "out_len"), ("const void *", "input"), ("size_t", "in_len")] false,
   Definition.mk false "void *" "rebInflateAlloc" [("size_t *", "len_out"), ("const void *", "input"), ("size_t", "len_in"), ("int", "max")] false,
   Definition.mk false "void *" "rebZinflateAlloc" [("size_t *", "len_out"), ("const void *", "input"), ("size_t", "len_in"), ("int", "max")] false,
   Definition.mk false "void *" "rebGunzipAlloc" [("size_t *", "len_out"), ("const void *", "input"), ("size_t", "len_in"), ("int", "max")] false,
   Definition.mk false "void *" "rebDeflateDetectAlloc" [("size_t *", "len_out"), ("const void *", "input"), ("size_t", "len_in"), ("int", "max")] false,
   Definition.mk true "void" "rebFail_OS" [("int", "errnum")] false]

/-- The heads of the inline functions of the `REB_EXT` branch of rebol.h, lines
316 to 759, in the order of the file. -/
def Ext.definitions : List Definition :=
  [Definition.mk false "void *" "rebMalloc_inline" [("size_t", "size")] false,
   Definition.mk false "void *" "rebRealloc_inline" [("void *", "ptr"), ("size_t", "new_size")] false,
   Definition.mk false "void" "rebFree_inline" [("void *", "ptr")] false,
   Definition.mk false "REBVAL *" "rebRepossess_inline" [("void *", "ptr"), ("size_t", "size")] false,
   Definition.mk false "void" "rebStartup_inline" [] false,
   Definition.mk false "void" "rebShutdown_inline" [("bool", "clean")] false,
   Definition.mk false "uintptr_t" "rebTick_inline" [] false,
   Definition.mk false "REBVAL *" "rebVoid_inline" [] false,
   Definition.mk false "REBVAL *" "rebBlank_inline" [] false,
   Definition.mk false "REBVAL *" "rebLogic_inline" [("bool", "logic")] false,
   Definition.mk false "REBVAL *" "rebChar_inline" [("uint32_t", "codepoint")] false,
   Definition.mk false "REBVAL *" "rebInteger_inline" [("int64_t", "i")] false,
   Definition.mk false "REBVAL *" "rebDecimal_inline" [("double", "dec")] false,
   Definition.mk false "REBVAL *" "rebSizedBinary_inline" [("const void *", "bytes"), ("size_t", "size")] false,
   Definition.mk false "REBVAL *" "rebUninitializedBinary_internal_inline" [("size_t", "size")] false,
   Definition.mk false "unsigned char *" "rebBinaryHead_internal_inline" [("const REBVAL *", "binary")] false,
   Definition.mk false "unsigned char *" "rebBinaryAt_internal_inline" [("const REBVAL *", "binary")] false,
   Definition.mk false "unsigned int" "rebBinarySizeAt_internal_inline" [("const REBVAL *", "binary")] false,
   Definition.mk false "REBVAL *" "rebSizedText_inline" [("const char *", "utf8"), ("size_t", "size")] false,
   Definition.mk false "REBVAL *" "rebText_inline" [("const char *", "utf8")] false,
   Definition.mk false "REBVAL *" "rebLengthedTextWide_inline" [("const REBWCHAR *", "wstr"), ("unsigned int", "num_chars")] false,
   Definition.mk false "REBVAL *" "rebTextWide_inline" [("const REBWCHAR *", "wstr")] false,
   Definition.mk false "REBVAL *" "rebHandle_inline" [("void *", "data"), ("size_t", "length"), ("CLEANUP_CFUNC *", "cleaner")] false,
   Definition.mk false "const void *" "rebArgR_inline" [("const void *", "p")] true,
   Definition.mk false "const void *" "rebArgRQ_inline" [("const void *", "p")] true,
   Definition.mk false "REBVAL *" "rebArg_inline" [("const void *", "p")] true,
   Definition.mk false "REBVAL *" "rebArgQ_inline" [("const void *", "p")] true,
   Definition.mk false "REBVAL *" "rebValue_inline" [("const void *", "p")] true,
   Definition.mk false "REBVAL *" "rebValueQ_inline" [("const void *", "p")] true,
   Definition.mk false "REBVAL *" "rebQuote_inline" [("const void *", "p")] true,
   Definition.mk false "REBVAL *" "rebQuoteQ_inline" [("const void *", "p")] true,
   Definition.mk false "void" "rebElide_inline" [("const void *", "p")] true,
   Definition.mk false "void" "rebElideQ_inline" [("const void *", "p")] true,
   Definition.mk true "void" "rebJumps_inline" [("const void *", "p")] true,
   Definition.mk true "void" "rebJumpsQ_inline" [("const void *", "p")] true,
   Definition.mk false "bool" "rebDid_inline" [("const void *", "p")] true,
   Definition.mk false "bool" "rebDidQ_inline" [("const void *", "p")] true,
   Definition.mk false "bool" "rebNot_inline" [("const void *", "p")] true,
   Definition.mk false "bool" "rebNotQ_inline" [("const void *", "p")] true,
   Definition.mk false "intptr_t" "rebUnbox_inline" [("const void *", "p")] true,
   Definition.mk false "intptr_t" "rebUnboxQ_inline" [("const void *", "p")] true,
   Definition.mk false "intptr_t" "rebUnbox0_inline" [("const void *", "p")] false,
   Definition.mk false "intptr_t" "rebUnboxInteger_inline" [("const void *", "p")] true,
   Definition.mk false "intptr_t" "rebUnboxIntegerQ_inline" [("const void *", "p")] true,
   Definition.mk false "intptr_t" "rebUnboxInteger0_inline" [("const void *", "p")] false,
   Definition.mk false "double" "rebUnboxDecimal_inline" [("const void *", "p")] true,
   Definition.mk false "double" "rebUnboxDecimalQ_inline" [("const void *", "p")] true,
   Definition.mk false "uint32_t" "rebUnboxChar_inline" [("const void *", "p")] true,
   Definition.mk false "uint32_t" "rebUnboxCharQ_inline" [("const void *", "p")] true,
   Definition.mk false "size_t" "rebSpellInto_inline" [("char *", "buf"), ("size_t", "buf_size"), ("const void *", "p")] true,
   Definition.mk false "size_t" "rebSpellIntoQ_inline" [("char *", "buf"), ("size_t", "buf_size"), ("const void *", "p")] true,
   Definition.mk false "char *" "rebSpell_inline" [("const void *", "p")] true,
   Definition.mk false "char *" "rebSpellQ_inline" [("const void *", "p")] true,
   Definition.mk false "unsigned int" "rebSpellIntoWide_inline" [("REBWCHAR *", "buf"), ("unsigned int", "buf_chars"), ("const void *", "p")] true,
   Definition.mk false "unsigned int" "rebSpellIntoWideQ_inline" [("REBWCHAR *", "buf"), ("unsigned int", "buf_chars"), ("const void *", "p")] true,
   Definition.mk false "REBWCHAR *" "rebSpellWide_inline" [("const void *", "p")] true,
   Definition.mk false "REBWCHAR *" "rebSpellWideQ_inline" [("const void *", "p")] true,
   Definition.mk false "size_t" "rebBytesInto_inline" [("unsigned char *", "buf"), ("size_t", "buf_size"), ("const void *", "p")] true,
   Definition.mk false "size_t" "rebBytesIntoQ_inline" [("unsigned char *", "buf"), ("size_t", "buf_size"), ("const void *", "p")] true,
   Definition.mk false "unsigned char *" "rebBytes_inline" [("size_t *", "size_out"), ("const void *", "p")] true,
   Definition.mk false "unsigned char *" "rebBytesQ_inline" [("size_t *", "size_out"), ("const void *", "p")] true,
   Definition.mk false "REBVAL *" "rebRescue_inline" [("REBDNG *", "dangerous"), ("void *", "opaque")] false,
   Definition.mk false "REBVAL *" "rebRescueWith_inline" [("REBDNG *", "dangerous"), ("REBRSC *", "rescuer"), ("void *", "opaque")] false,
   Definition.mk false "void" "rebHalt_inline" [] false,
   Definition.mk false "const void *" "rebQUOTING_inline" [("const void *", "p")] true,
   Definition.mk false "const void *" "rebQUOTINGQ_inline" [("const void *", "p")] true,
   Definition.mk false "const void *" "rebUNQUOTING_inline" [("const void *", "p")] true,
   Definition.mk false "const void *" "rebUNQUOTINGQ_inline" [("const void *", "p")] true,
   Definition.mk false "const void *" "rebRELEASING_inline" [("REBVAL *", "v")] false,
   Definition.mk false "REBVAL *" "rebManage_inline" [("REBVAL *", "v")] false,
   Definition.mk false "void" "rebUnmanage_inline" [("void *", "p")] false,
   Definition.mk false "void" "rebRelease_inline" [("const REBVAL *", "v")] false,
   Definition.mk false "void *" "rebDeflateAlloc_inline" [("size_t *", "out_len"), ("const void *", "input"), ("size_t", "in_len")] false,
   Definition.mk false "void *" "rebZdeflateAlloc_inline" [("size_t *", "out_len"), ("const void *", "input"), ("size_t", "in_len")] false,
   Definition.mk false "void *" "rebGzipAlloc_inline" [("size_t *", "out_len"), ("const void *", "input"), ("size_t", "in_len")] false,
   Definition.mk false "void *" "rebInflateAlloc_inline" [("size_t *", "len_out"), ("const void *", "input"), ("size_t", "len_in"), ("int", "max")] false,
   Definition.mk false "void *" "rebZinflateAlloc_inline" [("size_t *", "len_out"), ("const void *", "input"), ("size_t", "len_in"), ("int", "max")] false,
   Definition.mk false "void *" "rebGunzipAlloc_inline" [("size_t *", "len_out"), ("const void *", "input"), ("size_t", "len_in"), ("int", "max")] false,
   Definition.mk false "void *" "rebDeflateDetectAlloc_inline" [("size_t *", "len_out"), ("const void *", "input"), ("size_t", "len_in"), ("int", "max")] false,
   Definition.mk true "void" "rebFail_OS_inline" [("int", "errnum")] false]

/-- The heads of the inline functions of the directly linked branch of rebol.h,
lines 847 to 1290, in the order of the file. -/
def Direct.definitions : List Definition :=
  [Definition.mk false "void *" "rebMalloc_inline" [("size_t", "size")] false,
   Definition.mk false "void *" "rebRealloc_inline" [("void *", "ptr"), ("size_t", "new_size")] false,
   Definition.mk false "void" "rebFree_inline" [("void *", "ptr")] false,
   Definition.mk false "REBVAL *" "rebRepossess_inline" [("void *", "ptr"), ("size_t", "size")] false,
   Definition.mk false "void" "rebStartup_inline" [] false,
   Definition.mk false "void" "rebShutdown_inline" [("bool", "clean")] false,
   Definition.mk false "uintptr_t" "rebTick_inline" [] false,
   Definition.mk false "REBVAL *" "rebVoid_inline" [] false,
   Definition.mk false "REBVAL *" "rebBlank_inline" [] false,
   Definition.mk false "REBVAL *" "rebLogic_inline" [("bool", "logic")] false,
   Definition.mk false "REBVAL *" "rebChar_inline" [("uint32_t", "codepoint")] false,
   Definition.mk false "REBVAL *" "rebInteger_inline" [("int64_t", "i")] false,
   Definition.mk false "REBVAL *" "rebDecimal_inline" [("double", "dec")] false,
   Definition.mk false "REBVAL *" "rebSizedBinary_inline" [("const void *", "bytes"), ("size_t", "size")] false,
   Definition.mk false "REBVAL *" "rebUninitializedBinary_internal_inline" [("size_t", "size")] false,
   Definition.mk false "unsigned char *" "rebBinaryHead_internal_inline" [("const REBVAL *", "binary")] false,
   Definition.mk false "unsigned char *" "rebBinaryAt_internal_inline" [("const REBVAL *", "binary")] false,
   Definition.mk false "unsigned int" "rebBinarySizeAt_internal_inline" [("const REBVAL *", "binary")] false,
   Definition.mk false "REBVAL *" "rebSizedText_inline" [("const char *", "utf8"), ("size_t", "size")] false,
   Definition.mk false "REBVAL *" "rebText_inline" [("const char *", "utf8")] false,
   Definition.mk false "REBVAL *" "rebLengthedTextWide_inline" [("const REBWCHAR *", "wstr"), ("unsigned int", "num_chars")] false,
   Definition.mk false "REBVAL *" "rebTextWide_inline" [("const REBWCHAR *", "wstr")] false,
   Definition.mk false "REBVAL *" "rebHandle_inline" [("void *", "data"), ("size_t", "length"), ("CLEANUP_CFUNC *", "cleaner")] false,
   Definition.mk false "const void *" "rebArgR_inline" [("const void *", "p")] true,
   Definition.mk false "const void *" "rebArgRQ_inline" [("const void *", "p")] true,
   Definition.mk false "REBVAL *" "rebArg_inline" [("const void *", "p")] true,
   Definition.mk false "REBVAL *" "rebArgQ_inline" [("const void *", "p")] true,
   Definition.mk false "REBVAL *" "rebValue_inline" [("const void *", "p")] true,
   Definition.mk false "REBVAL *" "rebValueQ_inline" [("const void *", "p")] true,
   Definition.mk false "REBVAL *" "rebQuote_inline" [("const void *", "p")] true,
   Definition.mk false "REBVAL *" "rebQuoteQ_inline" [("const void *", "p")] true,
   Definition.mk false "void" "rebElide_inline" [("const void *", "p")] true,
   Definition.mk false "void" "rebElideQ_inline" [("const void *", "p")] true,
   Definition.mk true "void" "rebJumps_inline" [("const void *", "p")] true,
   Definition.mk true "void" "rebJumpsQ_inline" [("const void *", "p")] true,
   Definition.mk false "bool" "rebDid_inline" [("const void *", "p")] true,
   Definition.mk false "bool" "rebDidQ_inline" [("const void *", "p")] true,
   Definition.mk false "bool" "rebNot_inline" [("const void *", "p")] true,
   Definition.mk false "bool" "rebNotQ_inline" [("const void *", "p")] true,
   Definition.mk false "intptr_t" "rebUnbox_inline" [("const void *", "p")] true,
   Definition.mk false "intptr_t" "rebUnboxQ_inline" [("const void *", "p")] true,
   Definition.mk false "intptr_t" "rebUnbox0_inline" [("const void *", "p")] false,
   Definition.mk false "intptr_t" "rebUnboxInteger_inline" [("const void *", "p")] true,
   Definition.mk false "intptr_t" "rebUnboxIntegerQ_inline" [("const void *", "p")] true,
   Definition.mk false "intptr_t" "rebUnboxInteger0_inline" [("const void *", "p")] false,
   Definition.mk false "double" "rebUnboxDecimal_inline" [("const void *", "p")] true,
   Definition.mk false "double" "rebUnboxDecimalQ_inline" [("const void *", "p")] true,
   Definition.mk false "uint32_t" "rebUnboxChar_inline" [("const void *", "p")] true,
   Definition.mk false "uint32_t" "rebUnboxCharQ_inline" [("const void *", "p")] true,
   Definition.mk false "size_t" "rebSpellInto_inline" [("char *", "buf"), ("size_t", "buf_size"), ("const void *", "p")] true,
   Definition.mk false "size_t" "rebSpellIntoQ_inline" [("char *", "buf"), ("size_t", "buf_size"), ("const void *", "p")] true,
   Definition.mk false "char *" "rebSpell_inline" [("const void *", "p")] true,
   Definition.mk false "char *" "rebSpellQ_inline" [("const void *", "p")] true,
   Definition.mk false "unsigned int" "rebSpellIntoWide_inline" [("REBWCHAR *", "buf"), ("unsigned int", "buf_chars"), ("const void *", "p")] true,
   Definition.mk false "unsigned int" "rebSpellIntoWideQ_inline" [("REBWCHAR *", "buf"), ("unsigned int", "buf_chars"), ("const void *", "p")] true,
   Definition.mk false "REBWCHAR *" "rebSpellWide_inline" [("const void *", "p")] true,
   Definition.mk false "REBWCHAR *" "rebSpellWideQ_inline" [("const void *", "p")] true,
   Definition.mk false "size_t" "rebBytesInto_inline" [("unsigned char *", "buf"), ("size_t", "buf_size"), ("const void *", "p")] true,
   Definition.mk false "size_t" "rebBytesIntoQ_inline" [("unsigned char *", "buf"), ("size_t", "buf_size"), ("const void *", "p")] true,
   Definition.mk false "unsigned char *" "rebBytes_inline" [("size_t *", "size_out"), ("const void *", "p")] true,
   Definition.mk false "unsigned char *" "rebBytesQ_inline" [("size_t *", "size_out"), ("const void *", "p")] true,
   Definition.mk false "REBVAL *" "rebRescue_inline" [("REBDNG *", "dangerous"), ("void *", "opaque")] false,
   Definition.mk false "REBVAL *" "rebRescueWith_inline" [("REBDNG *", "dangerous"), ("REBRSC *", "rescuer"), ("void *", "opaque")] false,
   Definition.mk false "void" "rebHalt_inline" [] false,
   Definition.mk false "const void *" "rebQUOTING_inline" [("const void *", "p")] true,
   Definition.mk false "const void *" "rebQUOTINGQ_inline" [("const void *", "p")] true,
   Definition.mk false "const void *" "rebUNQUOTING_inline" [("const void *", "p")] true,
   Definition.mk false "const void *" "rebUNQUOTINGQ_inline" [("const void *", "p")] true,
   Definition.mk false "const void *" "rebRELEASING_inline" [("REBVAL *", "v")] false,
   Definition.mk false "REBVAL *" "rebManage_inline" [("REBVAL *", "v")] false,
   Definition.mk false "void" "rebUnmanage_inline" [("void *", "p")] false,
   Definition.mk false "void" "rebRelease_inline" [("const REBVAL *", "v")] false,
   Definition.mk false "void *" "rebDeflateAlloc_inline" [("size_t *", "out_len"), ("const void *", "input"), ("size_t", "in_len")] false,
   Definition.mk false "void *" "rebZdeflateAlloc_inline" [("size_t *", "out_len"), ("const void *", "input"), ("size_t", "in_len")] false,
   Definition.mk false "void *" "rebGzipAlloc_inline" [("size_t *", "out_len"), ("const void *", "input"), ("size_t", "in_len")] false,
   Definition.mk false "void *" "rebInflateAlloc_inline" [("size_t *", "len_out"), ("const void *", "input"), ("size_t", "len_in"), ("int", "max")] false,
   Definition.mk false "void *" "rebZinflateAlloc_inline" [("size_t *", "len_out"), ("const void *", "input"), ("size_t", "len_in"), ("int", "max")] false,
   Definition.mk false "void *" "rebGunzipAlloc_inline" [("size_t *", "len_out"), ("const void *", "input"), ("size_t", "len_in"), ("int", "max")] false,
   Definition.mk false "void *" "rebDeflateDetectAlloc_inline" [("size_t *", "len_out"), ("const void *", "input"), ("size_t", "len_in"), ("int", "max")] false,
   Definition.mk true "void" "rebFail_OS_inline" [("int", "errnum")] false]

/-- A host of which nothing is known: every call is undefined and leaves the
state as it was. -/
def Host.unmodelled {σ : Type} : Host σ where
  RL_rebEnterApi_internal := fun s => (Outcome.undefined, s)
  RL_rebMalloc := fun _ s => (Outcome.undefined, s)
  RL_rebRealloc := fun _ _ s => (Outcome.undefined, s)
  RL_rebFree := fun _ s => (Outcome.undefined, s)
  RL_rebRepossess := fun _ _ s => (Outcome.undefined, s)
  RL_rebStartup := fun s => (Outcome.undefined, s)
  RL_rebShutdown := fun _ s => (Outcome.undefined, s)
  RL_rebTick := fun s => (Outcome.undefined, s)
  RL_rebVoid := fun s => (Outcome.undefined, s)
  RL_rebBlank := fun s => (Outcome.undefined, s)
  RL_rebLogic := fun _ s => (Outcome.undefined, s)
  RL_rebChar := fun _ s => (Outcome.undefined, s)
  RL_rebInteger := fun _ s => (Outcome.undefined, s)
  RL_rebDecimal := fun _ s => (Outcome.undefined, s)
  RL_rebSizedBinary := fun _ _ s => (Outcome.undefined, s)
  RL_rebUninitializedBinary_internal := fun _ s => (Outcome.undefined, s)
  RL_rebBinaryHead_internal := fun _ s => (Outcome.undefined, s)
  RL_rebBinaryAt_internal := fun _ s => (Outcome.undefined, s)
  RL_rebBinarySizeAt_internal := fun _ s => (Outcome.undefined, s)
  RL_rebSizedText := fun _ _ s => (Outcome.undefined, s)
  RL_rebText := fun _ s => (Outcome.undefined, s)
  RL_rebLengthedTextWide := fun _ _ s => (Outcome.undefined, s)
  RL_rebTextWide := fun _ s => (Outcome.undefined, s)
  RL_rebHandle := fun _ _ _ s => (Outcome.undefined, s)
  RL_rebArgR := fun _ _ _ s => (Outcome.undefined, s)
  RL_rebArg := fun _ _ _ s => (Outcome.undefined, s)
  RL_rebValue := fun _ _ _ s => (Outcome.undefined, s)
  RL_rebQuote := fun _ _ _ s => (Outcome.undefined, s)
  RL_rebElide := fun _ _ _ s => (Outcome.undefined, s)
  RL_rebJumps := fun _ _ _ s => (Outcome.undefined, s)
  RL_rebDid := fun _ _ _ s => (Outcome.undefined, s)
  RL_rebNot := fun _ _ _ s => (Outcome.undefined, s)
  RL_rebUnbox := fun _ _ _ s => (Outcome.undefined, s)
  RL_rebUnbox0 := fun _ s => (Outcome.undefined, s)
  RL_rebUnboxInteger := fun _ _ _ s => (Outcome.undefined, s)
  RL_rebUnboxInteger0 := fun _ s => (Outcome.undefined, s)
  RL_rebUnboxDecimal := fun _ _ _ s => (Outcome.undefined, s)
  RL_rebUnboxChar := fun _ _ _ s => (Outcome.undefined, s)
  RL_rebSpellInto := fun _ _ _ _ _ s => (Outcome.undefined, s)
  RL_rebSpell := fun _ _ _ s => (Outcome.undefined, s)
  RL_rebSpellIntoWide := fun _ _ _ _ _ s => (Outcome.undefined, s)
  RL_rebSpellWide := fun _ _ _ s => (Outcome.undefined, s)
  RL_rebBytesInto := fun _ _ _ _ _ s => (Outcome.undefined, s)
  RL_rebBytes := fun _ _ _ _ s => (Outcome.undefined, s)
  RL_rebRescue := fun _ _ s => (Outcome.undefined, s)
  RL_rebRescueWith := fun _ _ _ s => (Outcome.undefined, s)
  RL_rebHalt := fun s => (Outcome.undefined, s)
  RL_rebQUOTING := fun _ _ _ s => (Outcome.undefined, s)
  RL_rebUNQUOTING := fun _ _ _ s => (Outcome.undefined, s)
  RL_rebRELEASING := fun _ s => (Outcome.undefined, s)
  RL_rebManage := fun _ s => (Outcome.undefined, s)
  RL_rebUnmanage := fun _ s => (Outcome.undefined, s)
  RL_rebRelease := fun _ s => (Outcome.undefined, s)
  RL_rebDeflateAlloc := fun _ _ _ s => (Outcome.undefined, s)
  RL_rebZdeflateAlloc := fun _ _ _ s => (Outcome.undefined, s)
  RL_rebGzipAlloc := fun _ _ _ s => (Outcome.undefined, s)
  RL_rebInflateAlloc := fun _ _ _ _ s => (Outcome.undefined, s)
  RL_rebZinflateAlloc := fun _ _ _ _ s => (Outcome.undefined, s)
  RL_rebGunzipAlloc := fun _ _ _ _ s => (Outcome.undefined, s)
  RL_rebDeflateDetectAlloc := fun _ _ _ _ s => (Outcome.undefined, s)
  RL_rebFail_OS := fun _ s => (Outcome.undefined, s)

/-- Answers under which every call leaves through the failure propagation,
carrying a null error. -/
def Answers.jumping : Answers where
  void := fun _ => Outcome.jump Ptr.null
  ptr := fun _ => Outcome.jump Ptr.null
  size_t := fun _ => Outcome.jump Ptr.null
  uintptr_t := fun _ => Outcome.jump Ptr.null
  intptr_t := fun _ => Outcome.jump Ptr.null
  uint32_t := fun _ => Outcome.jump Ptr.null
  unsigned_int := fun _ => Outcome.jump Ptr.null
  bool := fun _ => Outcome.jump Ptr.null
  double := fun _ => Outcome.jump Ptr.null

/-! ## The runtime behind the boundary, modelled from the spec

The bodies of the `RL_` functions are not in the sources.  Where a claim is
about what the runtime does, the runtime is modelled here from the words of
the spec, only as far as those words go; every case they leave open is passed
on to an arbitrary host `base`. -/

/-- The type `REBDNG` of rebol.h, line 139: `REBVAL* (REBDNG)(void *opaque)`. -/
abbrev REBDNG (σ : Type) := Ptr → Api σ Ptr

/-- The type `REBRSC` of rebol.h, line 148:
`REBVAL* (REBRSC)(REBVAL *error, void *opaque)`. -/
abbrev REBRSC (σ : Type) := Ptr → Ptr → Api σ Ptr

/-- Modelled from the spec: the ownership state of a handle (section 3), one of
Scope-Bound, Managed and Unmanaged. -/
inductive Ownership where
  | scopeBound
  | managed
  | unmanaged
  deriving DecidableEq, Repr

/-- Modelled from the spec: what a value handle holds, as far as the claims
tell values apart: an integer, an error, or another datum. -/
inductive Datum where
  | integer (i : Int)
  | error
  | other (tag : Nat)
  deriving DecidableEq, Repr

/-- Modelled from the spec: a live value, with its datum, its quote level and
its ownership state (section 3). -/
structure Cell where
  datum : Datum
  quotes : Nat
  owner : Ownership
  deriving DecidableEq, Repr

/-- Modelled from the spec: the state of the runtime, which is not in the
sources: the live handles by identifier, the identifier the next new handle
gets, and how many times the API state was entered. -/
structure Runtime where
  cells : Nat → Option Cell
  next : Nat
  enters : Nat

/-- Modelled from the spec: a runtime with no live handle. -/
def Runtime.empty : Runtime := ⟨fun _ => none, 0, 0⟩

/-- Modelled from the spec: the value a pointer is a live handle of, if any. -/
def Runtime.cell (s : Runtime) : Ptr → Option Cell
  | .obj id => s.cells id
  | .null => none
  | .strLit _ => none

/-- Modelled from the spec: the runtime with the handle `id` holding `c`, or
destroyed for `none`. -/
def Runtime.set (s : Runtime) (id : Nat) (c : Option Cell) : Runtime :=
  { s with cells := fun j => if j = id then c else s.cells j }

/-- Modelled from the spec: creation of a handle (section 3, lifecycle): a
fresh Value Handle holding `c`. -/
def allocate (c : Cell) : Api Runtime Ptr := fun s =>
  (Outcome.ret (Ptr.obj s.next), { s.set s.next (some c) with next := s.next + 1 })

/-- Modelled from the spec: failing loudly (sections 4.2 and 7): the failure
propagation leaves the call, carrying a new error value. -/
def failLoudly {α : Type} : Api Runtime α := fun s =>
  (Outcome.jump (Ptr.obj s.next),
   { s.set s.next (some ⟨Datum.error, 0, Ownership.scopeBound⟩) with next := s.next + 1 })

/-- Modelled from the spec: `RL_rebEnterApi_internal`, the bookkeeping step by
which an operation enters the API state (section 5); it returns and touches
no handle. -/
def specEnterApi : Api Runtime Unit := fun s =>
  (Outcome.ret (), { s with enters := s.enters + 1 })

/-- Modelled from the spec: the value of an integer as an `intptr_t` of `w`
bits, the integer reduced modulo `2^w` into the range from `-2^(w-1)` up to
`2^(w-1)`. -/
def toIntptr (w : Nat) (i : Int) : Int := (i + 2 ^ (w - 1)) % 2 ^ w - 2 ^ (w - 1)

/-- Modelled from the spec: `RL_rebInteger`, a constructor (section 6): it
returns a fresh Scope-Bound handle holding the integer. -/
def specInteger (i : int64_t) : Api Runtime Ptr :=
  allocate ⟨Datum.integer i, 0, Ownership.scopeBound⟩

/-- Modelled from the spec: `RL_rebUnboxInteger0`, unboxing one value (sections
4.2 and 7): an unquoted integer is extracted as an `intptr_t`; a live handle
of anything else fails loudly; a pointer that is no live handle is a use
outside the lifetime of a handle, which is undefined. -/
def specUnboxInteger0 (w : Nat) (p : Ptr) : Api Runtime intptr_t := fun s =>
  match s.cell p with
  | none => (Outcome.undefined, s)
  | some c =>
    match c.datum with
    | Datum.integer i => if c.quotes = 0 then (Outcome.ret (toIntptr w i), s) else failLoudly s
    | _ => failLoudly s

/-- Modelled from the spec: `RL_rebUnboxInteger` on a sequence of one argument
and the sentinel, at quote level 0: the argument evaluates to itself and is
unboxed.  Longer sequences need the evaluator and are left to `base`. -/
def specUnboxInteger (w : Nat) (mem : Memory) (base : Host Runtime)
    (quotes : unsigned_char) (p : Ptr) (va : va_list) : Api Runtime intptr_t :=
  if quotes = 0 ∧ readArgs mem p va = some [p] then specUnboxInteger0 w p
  else base.RL_rebUnboxInteger quotes p va

/-- Modelled from the spec: `RL_rebManage` (sections 3 and 4.3): the handle is
returned as it was given.  A Scope-Bound handle becomes Managed (section
4.3); an Unmanaged handle is transferred back and becomes Managed (section
3); a Managed handle stays Managed, the spec naming no transition of
`manage` out of that state.  A pointer that is no live handle is a use
outside the lifetime of a handle, which is undefined. -/
def specManage : Ptr → Api Runtime Ptr
  | .obj id => fun s =>
    match s.cells id with
    | some c =>
      match c.owner with
      | Ownership.scopeBound =>
        (Outcome.ret (Ptr.obj id), s.set id (some { c with owner := Ownership.managed }))
      | Ownership.unmanaged =>
        (Outcome.ret (Ptr.obj id), s.set id (some { c with owner := Ownership.managed }))
      | Ownership.managed => (Outcome.ret (Ptr.obj id), s)
    | none => (Outcome.undefined, s)
  | .null => fun s => (Outcome.undefined, s)
  | .strLit _ => fun s => (Outcome.undefined, s)

/-- Modelled from the spec: `RL_rebUnmanage` (section 4.3): a Managed handle
becomes Unmanaged; on anything else the call is a usage error. -/
def specUnmanage : Ptr → Api Runtime Unit
  | .obj id => fun s =>
    match s.cells id with
    | some c =>
      if c.owner = Ownership.managed then
        (Outcome.ret (), s.set id (some { c with owner := Ownership.unmanaged }))
      else (Outcome.undefined, s)
    | none => (Outcome.undefined, s)
  | .null => fun s => (Outcome.undefined, s)
  | .strLit _ => fun s => (Outcome.undefined, s)

/-- Modelled from the spec: `RL_rebRelease` (section 4.3): an Unmanaged handle
is destroyed at once; on a Managed or already destroyed handle the call is a
usage error. -/
def specRelease : Ptr → Api Runtime Unit
  | .obj id => fun s =>
    match s.cells id with
    | some c =>
      if c.owner = Ownership.unmanaged then (Outcome.ret (), s.set id none)
      else (Outcome.undefined, s)
    | none => (Outcome.undefined, s)
  | .null => fun s => (Outcome.undefined, s)
  | .strLit _ => fun s => (Outcome.undefined, s)

/-- Modelled from the spec: `RL_rebRescue`, whose body is not in the sources,
after section 4.4: it invokes `dangerous(opaque)`; if the callback returns
normally, its result, a handle or null, is returned unchanged; if it fails,
the failure is intercepted and the error value is returned in place of a
result.  `code` gives the function a function pointer points at; calling a
pointer that is no function is undefined. -/
def specRescue (code : Ptr → Option (REBDNG Runtime)) (dangerous opaq : Ptr) :
    Api Runtime Ptr := fun s =>
  match code dangerous with
  | none => (Outcome.undefined, s)
  | some callback =>
    match callback opaq s with
    | (Outcome.ret v, s1) => (Outcome.ret v, s1)
    | (Outcome.jump e, s1) => (Outcome.ret e, s1)
    | (Outcome.undefined, s1) => (Outcome.undefined, s1)
    | (Outcome.hang, s1) => (Outcome.hang, s1)

/-- Modelled from the spec: `RL_rebQUOTING` on one argument and the sentinel,
at quote level 0 (section 3, Quote Level): the result denotes the value of
the argument with its quote level raised by one, not a wrapper around it.
Longer sequences are left to `base`. -/
def specQUOTING (mem : Memory) (base : Host Runtime)
    (quotes : unsigned_char) (p : Ptr) (va : va_list) : Api Runtime Ptr :=
  if quotes = 0 ∧ readArgs mem p va = some [p] then fun s =>
    match s.cell p with
    | some c => allocate ⟨c.datum, c.quotes + 1, Ownership.scopeBound⟩ s
    | none => (Outcome.undefined, s)
  else base.RL_rebQUOTING quotes p va

/-- Modelled from the spec: `RL_rebUNQUOTING` on one argument and the sentinel,
at quote level 0: the result denotes the value of the argument with its quote
level lowered by one.  The spec does not say what unquoting a value of quote
level 0 does; that and longer sequences are left to `base`. -/
def specUNQUOTING (mem : Memory) (base : Host Runtime)
    (quotes : unsigned_char) (p : Ptr) (va : va_list) : Api Runtime Ptr :=
  if quotes = 0 ∧ readArgs mem p va = some [p] then fun s =>
    match s.cell p with
    | some c =>
      match c.quotes with
      | n + 1 => allocate ⟨c.datum, n, Ownership.scopeBound⟩ s
      | 0 => base.RL_rebUNQUOTING quotes p va s
    | none => (Outcome.undefined, s)
  else base.RL_rebUNQUOTING quotes p va

/-- Modelled from the spec: the runtime as a host: `base` with the modelled
functions in place of its own.  `w` is the width of `intptr_t` in bits,
`mem` the memory the marshaller reads, `code` the functions behind function
pointers. -/
def specHost (w : Nat) (mem : Memory) (code : Ptr → Option (REBDNG Runtime))
    (base : Host Runtime) : Host Runtime :=
  { base with
    RL_rebEnterApi_internal := specEnterApi
    RL_rebInteger := specInteger
    RL_rebUnboxInteger := specUnboxInteger w mem base
    RL_rebUnboxInteger0 := specUnboxInteger0 w
    RL_rebRescue := specRescue code
    RL_rebQUOTING := specQUOTING mem base
    RL_rebUNQUOTING := specUNQUOTING mem base
    RL_rebManage := specManage
    RL_rebUnmanage := specUnmanage
    RL_rebRelease := specRelease }

/-! ## Expressions over the shims -/

/-- The expression `rebUnboxInteger(rebInteger(i), rebEND)` over the shims of
valist.c. -/
def integerRoundTrip {σ : Type} (H : Host σ) (i : int64_t) : Api σ intptr_t := do
  let v ← Valist.rebInteger H i
  Valist.rebUnboxInteger H v [rebEND]

/-- The expression `rebUnboxInteger0(rebInteger(i))` over the shims of
valist.c. -/
def integerRoundTrip0 {σ : Type} (H : Host σ) (i : int64_t) : Api σ intptr_t := do
  let v ← Valist.rebInteger H i
  Valist.rebUnboxInteger0 H v

/-- The statements `rebUnmanage(rebManage(h)); rebRelease(h);` over the shims
of valist.c: `rebUnmanage` returns nothing, so `rebRelease` is given `h`. -/
def manageUnmanageRelease {σ : Type} (H : Host σ) (h : Ptr) : Api σ Unit := do
  let m ← Valist.rebManage H h
  Valist.rebUnmanage H m
  Valist.rebRelease H h

/-- A unary operation applied `n` times, each time to the result of the time
before. -/
def applyTimes {σ : Type} (f : Ptr → Api σ Ptr) : Nat → Ptr → Api σ Ptr
  | 0, h => pure h
  | n + 1, h => do
    let h1 ← f h
    applyTimes f n h1

/-- The call `rebQ(v, rebEND)`, with `rebQ` the alias of `rebQUOTING` (rebol.h
line 217), over the shim of valist.c. -/
def rebQ {σ : Type} (H : Host σ) (v : Ptr) : Api σ Ptr := Valist.rebQUOTING H v [rebEND]

/-- The call `rebU(v, rebEND)`, with `rebU` the alias of `rebUNQUOTING`
(rebol.h line 218), over the shim of valist.c. -/
def rebU {σ : Type} (H : Host σ) (v : Ptr) : Api σ Ptr := Valist.rebUNQUOTING H v [rebEND]

/-- Quoting `n` times and then unquoting the result `n` times. -/
def quoteThenUnquote {σ : Type} (H : Host σ) (n : Nat) (h : Ptr) : Api σ Ptr := do
  let q ← applyTimes (rebQ H) n h
  applyTimes (rebU H) n q

/-! ## The shorthand macros -/

/-- A `#define` of the shorthand block of rebol.h (lines 216 to 233), in
preprocessing tokens: `params` is `none` for `#define name body` and the
parameter names for `#define name(params) body`. -/
structure Shorthand where
  name : String
  params : Option (List String)
  body : List String
  deriving DecidableEq, Repr

/-- The shorthand block of rebol.h, lines 216 to 233, in the order of the
file. -/
def shorthands : List Shorthand :=
  [Shorthand.mk "rebR" none ["rebRELEASING"],
   Shorthand.mk "rebQ" none ["rebQUOTING"],
   Shorthand.mk "rebU" none ["rebUNQUOTING"],
   Shorthand.mk "rebQ1" (some ["v"]) ["rebQ", "(", "(", "v", ")", ",", "rebEND", ")"],
   Shorthand.mk "rebU1" (some ["v"]) ["rebU", "(", "(", "v", ")", ",", "rebEND", ")"],
   Shorthand.mk "rebT" (some ["utf8"]) ["rebR", "(", "rebText", "(", "utf8", ")", ")"],
   Shorthand.mk "rebI" (some ["int64"]) ["rebR", "(", "rebInteger", "(", "int64", ")", ")"],
   Shorthand.mk "rebL" (some ["flag"]) ["rebR", "(", "rebLogic", "(", "flag", ")", ")"]]

/-- The tokens a token stands for when it names a `#define name body` of the
list: that body; any other token stands for itself. -/
def aliasOf (defs : List Shorthand) (token : String) : List String :=
  match defs.find? (fun m => decide (m.name = token ∧ m.params = none)) with
  | some m => m.body
  | none => [token]

/-- The replacement of the invocation `name(arg)` of a shorthand with one
parameter: the body with the parameter standing for the tokens of the
argument, and in the result every alias replaced by what it stands for.
Shorthands with parameters and accessor macros in the result are left as they
are. -/
def Shorthand.expand (defs : List Shorthand) (m : Shorthand) (arg : List String) :
    List String :=
  match m.params with
  | some [param] =>
    (m.body.flatMap (fun t => if t = param then arg else [t])).flatMap (aliasOf defs)
  | _ => m.body.flatMap (aliasOf defs)

/-- The expression `rebRELEASING(rebText(utf8))` over the shims of valist.c:
the argument is evaluated, then the call is made. -/
def rebT {σ : Type} (H : Host σ) (utf8 : Ptr) : Api σ Ptr := do
  let v ← Valist.rebText H utf8
  Valist.rebRELEASING H v

/-- The expression `rebRELEASING(rebInteger(int64))` over the shims of
valist.c. -/
def rebI {σ : Type} (H : Host σ) (int64 : int64_t) : Api σ Ptr := do
  let v ← Valist.rebInteger H int64
  Valist.rebRELEASING H v

/-- The expression `rebRELEASING(rebLogic(flag))` over the shims of valist.c. -/
def rebL {σ : Type} (H : Host σ) (flag : Bool) : Api σ Ptr := do
  let v ← Valist.rebLogic H flag
  Valist.rebRELEASING H v

/-- A callback that returns null. -/
def callbackReturningNull : REBDNG Runtime := fun _ s => (Outcome.ret Ptr.null, s)

/-- A callback that makes an error value and returns it. -/
def callbackReturningError : REBDNG Runtime := fun _ =>
  allocate ⟨Datum.error, 0, Ownership.scopeBound⟩

/-- A callback that makes the integer 42 and returns it. -/
def callbackReturningInteger : REBDNG Runtime := fun _ =>
  allocate ⟨Datum.integer 42, 0, Ownership.scopeBound⟩

/-! ## Shorthands through the accessor macros, allocation macros, and the gate -/

/-- The expansion, by a list of accessor defines, of an invocation given as
the tokens `name ( args )`: the define of that name applied to the tokens
between the parentheses; tokens of any other shape, or with a name that has
no define, stay as they are. -/
def expandAccessorCall (defs : List Define) (tokens : List String) : List String :=
  match tokens with
  | name :: "(" :: more =>
    match defs.find? (fun m => decide (m.name = name)) with
    | some m => m.expandCall more.dropLast
    | none => tokens
  | _ => tokens

/-- The call that `rebQ1(v)` becomes through the accessor macros, over the
directly linked inline function: `rebQUOTING_inline((v), rebEND, rebEND)` in
default mode, `rebQUOTING_inline((v), rebEND)` under `REBOL_EXPLICIT_END`. -/
def rebQ1 {σ : Type} (REBOL_EXPLICIT_END : Bool) (H : Host σ) (v : Ptr) : Api σ Ptr :=
  if REBOL_EXPLICIT_END then Direct.rebQUOTING_inline H v [rebEND]
  else Direct.rebQUOTING_inline H v [rebEND, rebEND]

/-- The call that `rebU1(v)` becomes through the accessor macros, over the
directly linked inline function: `rebUNQUOTING_inline((v), rebEND, rebEND)` in
default mode, `rebUNQUOTING_inline((v), rebEND)` under `REBOL_EXPLICIT_END`. -/
def rebU1 {σ : Type} (REBOL_EXPLICIT_END : Bool) (H : Host σ) (v : Ptr) : Api σ Ptr :=
  if REBOL_EXPLICIT_END then Direct.rebUNQUOTING_inline H v [rebEND]
  else Direct.rebUNQUOTING_inline H v [rebEND, rebEND]

/-- Whether a field of the table takes a quote level: its first parameter is
`unsigned char quotes`. -/
def takesQuotes (f : Decl) : Bool :=
  f.params.head? == some ("unsigned char", "quotes")

/-- The heads of the shims that cover a field of the table, as return type,
name, named parameters and whether variadic: for a field that takes a quote
level, `rebX` and `rebXQ`, variadic after the parameters that stand between
`quotes` and `vaptr`; for any other field, the one function of its name and
parameters. -/
def shimsFor (f : Decl) : List (String × String × List (String × String) × Bool) :=
  if takesQuotes f then
    [(f.ret, f.name, f.params.tail.dropLast, true),
     (f.ret, f.name ++ "Q", f.params.tail.dropLast, true)]
  else [(f.ret, f.name, f.params, false)]

/-- The head of a definition as return type, name, named parameters and
whether variadic. -/
def Definition.head (d : Definition) : String × String × List (String × String) × Bool :=
  (d.ret, d.name, d.params, d.variadic)

/-- The allocation macros of rebol.h, lines 1532 to 1535, in preprocessing
tokens. -/
def allocators : List Shorthand :=
  [Shorthand.mk "rebAlloc" (some ["t"])
     ["cast", "(", "t", "*", ",", "rebMalloc", "(", "sizeof", "(", "t", ")", ")", ")"],
   Shorthand.mk "rebAllocN" (some ["t", "n"])
     ["cast", "(", "t", "*", ",", "rebMalloc", "(", "sizeof", "(", "t", ")", "*",
      "(", "n", ")", ")", ")"]]

/-- The product `sizeof(t) * (n)` in a `size_t` of `w` bits, for an element of
`s` bytes: unsigned arithmetic wraps modulo `2^w`. -/
def sizeofTimes (w : Nat) (s n : Nat) : size_t := (s * n) % 2 ^ w

/-- The call `rebMalloc(sizeof(t))` inside `rebAlloc(t)`, for a type of `s`
bytes, over the shim of valist.c.  The `cast` around it is not defined by
rebol.h; it converts the type of the pointer returned. -/
def rebAlloc {σ : Type} (H : Host σ) (s : size_t) : Api σ Ptr :=
  Valist.rebMalloc H s

/-- The call `rebMalloc(sizeof(t) * (n))` inside `rebAllocN(t, n)`, for a type
of `s` bytes and a `size_t` of `w` bits, over the shim of valist.c. -/
def rebAllocN {σ : Type} (w : Nat) (H : Host σ) (s n : size_t) : Api σ Ptr :=
  Valist.rebMalloc H (sizeofTimes w s n)

/-- What the conditions of rebol.h, lines 1314 to 1324, look at: whether
`REBOL_EXPLICIT_END` is defined, the values of `__STDC_VERSION__` and
`__cplusplus` where they are defined, and whether `CPLUSPLUS_11` is
defined. -/
structure Compiler where
  REBOL_EXPLICIT_END : Bool
  STDC_VERSION : Option Nat
  cplusplus : Option Nat
  CPLUSPLUS_11 : Bool
  deriving DecidableEq, Repr

/-- Whether the `#error` of rebol.h, line 1323, is reached: the conditional
chain of lines 1314 to 1324. -/
def errorRaised (c : Compiler) : Bool :=
  if !c.REBOL_EXPLICIT_END then
    if (match c.STDC_VERSION with | some v => decide (v ≥ 199901) | none => false) then false
    else if (match c.cplusplus with | some v => decide (v ≥ 201103) | none => false) then false
    else if c.CPLUSPLUS_11 then false
    else true
  else false

/-! ## Lemmas on the recording host -/

theorem answered_thenDeadEnd (d : DeadEnd) (answer : Event → Outcome Unit) (ev : Event)
    (log : List Event) :
    Api.bind (answered answer ev) (fun _ => DEAD_END d) log
      = ((answer ev).thenDeadEnd d, log ++ [ev]) := by
  unfold Api.bind answered
  cases h : answer ev <;> cases d <;> simp [Outcome.thenDeadEnd, DEAD_END]
theorem observe_Valist_rebJumps (d : DeadEnd) (ans : Answers) (p : Ptr) (rest : List Ptr) :
    observe (Valist.rebJumps d (recorder ans) p rest)
      = ((ans.void (Event.call "RL_rebJumps" [CVal.unsigned_char 0, CVal.ptr p, CVal.va_list (va_start rest)])).thenDeadEnd d,
         [Event.enter, Event.call "RL_rebJumps" [CVal.unsigned_char 0, CVal.ptr p, CVal.va_list (va_start rest)]]) :=
  answered_thenDeadEnd d ans.void _ _

theorem observe_Valist_rebJumpsQ (d : DeadEnd) (ans : Answers) (p : Ptr) (rest : List Ptr) :
    observe (Valist.rebJumpsQ d (recorder ans) p rest)
      = ((ans.void (Event.call "RL_rebJumps" [CVal.unsigned_char 1, CVal.ptr p, CVal.va_list (va_start rest)])).thenDeadEnd d,
         [Event.enter, Event.call "RL_rebJumps" [CVal.unsigned_char 1, CVal.ptr p, CVal.va_list (va_start rest)]]) :=
  answered_thenDeadEnd d ans.void _ _

theorem observe_Valist_rebFail_OS (d : DeadEnd) (ans : Answers) (errnum : int) :
    observe (Valist.rebFail_OS d (recorder ans) errnum)
      = ((ans.void (Event.call "RL_rebFail_OS" [CVal.int errnum])).thenDeadEnd d,
         [Event.enter, Event.call "RL_rebFail_OS" [CVal.int errnum]]) :=
  answered_thenDeadEnd d ans.void _ _

theorem observe_Ext_rebJumps_inline (d : DeadEnd) (ans : Answers) (p : Ptr) (rest : List Ptr) :
    observe (Ext.rebJumps_inline d (tableOf (recorder ans)) p rest)
      = ((ans.void (Event.call "RL_rebJumps" [CVal.unsigned_char 0, CVal.ptr p, CVal.va_list (va_start rest)])).thenDeadEnd d,
         [Event.enter, Event.call "RL_rebJumps" [CVal.unsigned_char 0, CVal.ptr p, CVal.va_list (va_start rest)]]) :=
  answered_thenDeadEnd d ans.void _ _

theorem observe_Ext_rebJumpsQ_inline (d : DeadEnd) (ans : Answers) (p : Ptr) (rest : List Ptr) :
    observe (Ext.rebJumpsQ_inline d (tableOf (recorder ans)) p rest)
      = ((ans.void (Event.call "RL_rebJumps" [CVal.unsigned_char 1, CVal.ptr p, CVal.va_list (va_start rest)])).thenDeadEnd d,
         [Event.enter, Event.call "RL_rebJumps" [CVal.unsigned_char 1, CVal.ptr p, CVal.va_list (va_start rest)]]) :=
  answered_thenDeadEnd d ans.void _ _

theorem observe_Ext_rebFail_OS_inline (d : DeadEnd) (ans : Answers) (errnum : int) :
    observe (Ext.rebFail_OS_inline d (tableOf (recorder ans)) errnum)
      = ((ans.void (Event.call "RL_rebFail_OS" [CVal.int errnum])).thenDeadEnd d,
         [Event.enter, Event.call "RL_rebFail_OS" [CVal.int errnum]]) :=
  answered_thenDeadEnd d ans.void _ _

theorem observe_Direct_rebJumps_inline (d : DeadEnd) (ans : Answers) (p : Ptr) (rest : List Ptr) :
    observe (Direct.rebJumps_inline d (recorder ans) p rest)
      = ((ans.void (Event.call "RL_rebJumps" [CVal.unsigned_char 0, CVal.ptr p, CVal.va_list (va_start rest)])).thenDeadEnd d,
         [Event.enter, Event.call "RL_rebJumps" [CVal.unsigned_char 0, CVal.ptr p, CVal.va_list (va_start rest)]]) :=
  answered_thenDeadEnd d ans.void _ _

theorem observe_Direct_rebJumpsQ_inline (d : DeadEnd) (ans : Answers) (p : Ptr) (rest : List Ptr) :
    observe (Direct.rebJumpsQ_inline d (recorder ans) p rest)
      = ((ans.void (Event.call "RL_rebJumps" [CVal.unsigned_char 1, CVal.ptr p, CVal.va_list (va_start rest)])).thenDeadEnd d,
         [Event.enter, Event.call "RL_rebJumps" [CVal.unsigned_char 1, CVal.ptr p, CVal.va_list (va_start rest)]]) :=
  answered_thenDeadEnd d ans.void _ _

theorem observe_Direct_rebFail_OS_inline (d : DeadEnd) (ans : Answers) (errnum : int) :
    observe (Direct.rebFail_OS_inline d (recorder ans) errnum)
      = ((ans.void (Event.call "RL_rebFail_OS" [CVal.int errnum])).thenDeadEnd d,
         [Event.enter, Event.call "RL_rebFail_OS" [CVal.int errnum]]) :=
  answered_thenDeadEnd d ans.void _ _


theorem isEND_rebEND (mem : Memory) : isEND mem rebEND = true := rfl

theorem isEND_rebNull (mem : Memory) : isEND mem rebNull = false := rfl

theorem readFrom_to_END (mem : Memory) (more : List Ptr) :
    ∀ a : Ptr, (∀ b ∈ a :: more, isEND mem b = false) →
      readFrom mem a (more ++ [rebEND]) = some (a :: more) := by
  induction more with
  | nil =>
    intro a h
    have ha : isEND mem a = false := h a (List.mem_cons_self _ _)
    simp [readFrom, ha, isEND_rebEND]
  | cons b more ih =>
    intro a h
    have ha : isEND mem a = false := h a (List.mem_cons_self _ _)
    have hb : ∀ c ∈ b :: more, isEND mem c = false :=
      fun c hc => h c (List.mem_cons_of_mem _ hc)
    simp [readFrom, ha, ih b hb]

theorem readSeq_to_END (mem : Memory) (as : List Ptr) (h : ∀ a ∈ as, isEND mem a = false) :
    readSeq mem (as ++ [rebEND]) = some as := by
  cases as with
  | nil => rfl
  | cons a more => exact readFrom_to_END mem more a h

theorem variadicPart_snoc (pre : List CVal) (p : Ptr) (va : va_list) :
    variadicPart (pre ++ [CVal.ptr p, CVal.va_list va]) = some (p, va) := by
  simp [variadicPart]

theorem handsOver_callWithEND {α : Type} (mem : Memory) (as : List Ptr)
    (h : ∀ a ∈ as, isEND mem a = false) (fn : String) (pre : List CVal)
    (f : Ptr → List Ptr → Api (List Event) α)
    (hf : ∀ p rest, logOf (f p rest)
      = [Event.enter, Event.call fn (pre ++ [CVal.ptr p, CVal.va_list (va_start rest)])]) :
    HandsOver mem as (logOf (callWithEND f as)) := by
  cases as with
  | nil =>
    exact ⟨fn, _, rebEND, va_start [], hf rebEND [], variadicPart_snoc _ _ _, rfl, rfl⟩
  | cons a more =>
    exact ⟨fn, _, a, va_start (more ++ [rebEND]), hf a _, variadicPart_snoc _ _ _, rfl,
      readFrom_to_END mem more a h⟩

theorem takeWhile_to_END (mem : Memory) (s t : List Ptr) :
    (s ++ rebEND :: t).takeWhile (fun a => !isEND mem a)
      = s.takeWhile (fun a => !isEND mem a) := by
  induction s with
  | nil => simp [List.takeWhile, isEND_rebEND]
  | cons a s ih =>
    cases ha : isEND mem a
    · simp [List.takeWhile, ha, ih]
    · simp [List.takeWhile, ha]

theorem readFrom_stops_at_END (mem : Memory) (s t : List Ptr) :
    ∀ a : Ptr, readFrom mem a (s ++ rebEND :: t)
      = some ((a :: s).takeWhile (fun b => !isEND mem b)) := by
  induction s with
  | nil =>
    intro a
    cases ha : isEND mem a
    · cases t <;> simp [readFrom, ha, isEND_rebEND, List.takeWhile]
    · simp [readFrom, ha, List.takeWhile]
  | cons b s ih =>
    intro a
    cases ha : isEND mem a
    · simp [readFrom, ha, ih b, List.takeWhile]
    · simp [readFrom, ha, List.takeWhile]

theorem readSeq_stops_at_END (mem : Memory) (s t : List Ptr) :
    readSeq mem (s ++ rebEND :: t) = some (s.takeWhile (fun a => !isEND mem a)) := by
  cases s with
  | nil => cases t <;> simp [readSeq, readArgs, va_start, readFrom, isEND_rebEND]
  | cons a s => exact readFrom_stops_at_END mem s t a

theorem commaSep_snoc (a : List String) :
    ∀ args : List (List String), args ≠ [] →
      commaSep (args ++ [a]) = commaSep args ++ "," :: a := by
  intro args
  induction args with
  | nil => intro h; exact absurd rfl h
  | cons b more ih =>
    intro _
    cases more with
    | nil => simp [commaSep]
    | cons c more =>
      have ih2 := ih (List.cons_ne_nil c more)
      calc commaSep (b :: c :: more ++ [a])
          = b ++ "," :: commaSep (c :: more ++ [a]) := rfl
        _ = b ++ "," :: (commaSep (c :: more) ++ "," :: a) := by rw [ih2]
        _ = commaSep (b :: c :: more) ++ "," :: a := by simp [commaSep]

theorem expandCall_appending (name fn : String) (hfn : fn ≠ "__VA_ARGS__")
    (argTokens : List String) :
    (Define.mk name true [fn, "(", "__VA_ARGS__", ",", "rebEND", ")"]).expandCall argTokens
      = [fn, "("] ++ argTokens ++ [",", "rebEND", ")"] := by
  simp [Define.expandCall, List.flatMap, hfn]

theorem implicitEnd_variadic_shape :
    ∀ m ∈ accessorsImplicitEnd, m.variadic = true →
      m.body = [m.name ++ "_inline", "(", "__VA_ARGS__", ",", "rebEND", ")"] ∧
      m.name ++ "_inline" ≠ "__VA_ARGS__" ∧
      Define.mk m.name false [m.name ++ "_inline"] ∈ accessorsExplicitEnd := by
  decide

theorem expandCall_implicitEnd (m : Define) (hm : m ∈ accessorsImplicitEnd)
    (hv : m.variadic = true) (args : List (List String)) (hargs : args ≠ []) :
    m.expandCall (commaSep args) = callTokens (m.name ++ "_inline") (args ++ [["rebEND"]]) := by
  obtain ⟨hbody, hne, _⟩ := implicitEnd_variadic_shape m hm hv
  obtain ⟨name, variadic, body⟩ := m
  simp only at hbody hne hv
  subst hbody hv
  rw [expandCall_appending name _ hne, callTokens, commaSep_snoc _ _ hargs]
  simp

/-! ## Theorems -/

/-- C1: each variadic shim `rebX` of valist.c makes, after
`RL_rebEnterApi_internal`, the one call `RL_rebX` with quote level 0, and
`rebXQ` the same `RL_rebX` with quote level 1; the leading fixed arguments,
`p` and the `va_list` standing right after `p` are passed as received, and the
shim ends the way the backend call ended (for `rebJumps` and `rebJumpsQ`, whose
backend call is followed by `DEAD_END`, a backend call that did not return is
passed on unchanged).  No shim of valist.c passes a quote level other than 0
or 1. -/
theorem variadic_shims_forward_quote_level (d : DeadEnd) (ans : Answers) (x : Actuals)
    (p : Ptr) (rest : List Ptr) (buf : Ptr) (buf_size : size_t)
    (buf_chars : unsigned_int) (size_out : Ptr) :
    Forwards (Valist.rebArgR (recorder ans) p rest) ans.ptr
        (Event.call "RL_rebArgR" [CVal.unsigned_char 0, CVal.ptr p, CVal.va_list (va_start rest)]) ∧
    Forwards (Valist.rebArgRQ (recorder ans) p rest) ans.ptr
        (Event.call "RL_rebArgR" [CVal.unsigned_char 1, CVal.ptr p, CVal.va_list (va_start rest)]) ∧
    Forwards (Valist.rebArg (recorder ans) p rest) ans.ptr
        (Event.call "RL_rebArg" [CVal.unsigned_char 0, CVal.ptr p, CVal.va_list (va_start rest)]) ∧
    Forwards (Valist.rebArgQ (recorder ans) p rest) ans.ptr
        (Event.call "RL_rebArg" [CVal.unsigned_char 1, CVal.ptr p, CVal.va_list (va_start rest)]) ∧
    Forwards (Valist.rebValue (recorder ans) p rest) ans.ptr
        (Event.call "RL_rebValue" [CVal.unsigned_char 0, CVal.ptr p, CVal.va_list (va_start rest)]) ∧
    Forwards (Valist.rebValueQ (recorder ans) p rest) ans.ptr
        (Event.call "RL_rebValue" [CVal.unsigned_char 1, CVal.ptr p, CVal.va_list (va_start rest)]) ∧
    Forwards (Valist.rebQuote (recorder ans) p rest) ans.ptr
        (Event.call "RL_rebQuote" [CVal.unsigned_char 0, CVal.ptr p, CVal.va_list (va_start rest)]) ∧
    Forwards (Valist.rebQuoteQ (recorder ans) p rest) ans.ptr
        (Event.call "RL_rebQuote" [CVal.unsigned_char 1, CVal.ptr p, CVal.va_list (va_start rest)]) ∧
    Forwards (Valist.rebElide (recorder ans) p rest) ans.void
        (Event.call "RL_rebElide" [CVal.unsigned_char 0, CVal.ptr p, CVal.va_list (va_start rest)]) ∧
    Forwards (Valist.rebElideQ (recorder ans) p rest) ans.void
        (Event.call "RL_rebElide" [CVal.unsigned_char 1, CVal.ptr p, CVal.va_list (va_start rest)]) ∧
    Forwards (Valist.rebJumps d (recorder ans) p rest) (fun ev => (ans.void ev).thenDeadEnd d)
        (Event.call "RL_rebJumps" [CVal.unsigned_char 0, CVal.ptr p, CVal.va_list (va_start rest)]) ∧
    Forwards (Valist.rebJumpsQ d (recorder ans) p rest) (fun ev => (ans.void ev).thenDeadEnd d)
        (Event.call "RL_rebJumps" [CVal.unsigned_char 1, CVal.ptr p, CVal.va_list (va_start rest)]) ∧
    Forwards (Valist.rebDid (recorder ans) p rest) ans.bool
        (Event.call "RL_rebDid" [CVal.unsigned_char 0, CVal.ptr p, CVal.va_list (va_start rest)]) ∧
    Forwards (Valist.rebDidQ (recorder ans) p rest) ans.bool
        (Event.call "RL_rebDid" [CVal.unsigned_char 1, CVal.ptr p, CVal.va_list (va_start rest)]) ∧
    Forwards (Valist.rebNot (recorder ans) p rest) ans.bool
        (Event.call "RL_rebNot" [CVal.unsigned_char 0, CVal.ptr p, CVal.va_list (va_start rest)]) ∧
    Forwards (Valist.rebNotQ (recorder ans) p rest) ans.bool
        (Event.call "RL_rebNot" [CVal.unsigned_char 1, CVal.ptr p, CVal.va_list (va_start rest)]) ∧
    Forwards (Valist.rebUnbox (recorder ans) p rest) ans.intptr_t
        (Event.call "RL_rebUnbox" [CVal.unsigned_char 0, CVal.ptr p, CVal.va_list (va_start rest)]) ∧
    Forwards (Valist.rebUnboxQ (recorder ans) p rest) ans.intptr_t
        (Event.call "RL_rebUnbox" [CVal.unsigned_char 1, CVal.ptr p, CVal.va_list (va_start rest)]) ∧
    Forwards (Valist.rebUnboxInteger (recorder ans) p rest) ans.intptr_t
        (Event.call "RL_rebUnboxInteger" [CVal.unsigned_char 0, CVal.ptr p, CVal.va_list (va_start rest)]) ∧
    Forwards (Valist.rebUnboxIntegerQ (recorder ans) p rest) ans.intptr_t
        (Event.call "RL_rebUnboxInteger" [CVal.unsigned_char 1, CVal.ptr p, CVal.va_list (va_start rest)]) ∧
    Forwards (Valist.rebUnboxDecimal (recorder ans) p rest) ans.double
        (Event.call "RL_rebUnboxDecimal" [CVal.unsigned_char 0, CVal.ptr p, CVal.va_list (va_start rest)]) ∧
    Forwards (Valist.rebUnboxDecimalQ (recorder ans) p rest) ans.double
        (Event.call "RL_rebUnboxDecimal" [CVal.unsigned_char 1, CVal.ptr p, CVal.va_list (va_start rest)]) ∧
    Forwards (Valist.rebUnboxChar (recorder ans) p rest) ans.uint32_t
        (Event.call "RL_rebUnboxChar" [CVal.unsigned_char 0, CVal.ptr p, CVal.va_list (va_start rest)]) ∧
    Forwards (Valist.rebUnboxCharQ (recorder ans) p rest) ans.uint32_t
        (Event.call "RL_rebUnboxChar" [CVal.unsigned_char 1, CVal.ptr p, CVal.va_list (va_start rest)]) ∧
    Forwards (Valist.rebSpellInto (recorder ans) buf buf_size p rest) ans.size_t
        (Event.call "RL_rebSpellInto" [CVal.unsigned_char 0, CVal.ptr buf, CVal.size_t buf_size, CVal.ptr p, CVal.va_list (va_start rest)]) ∧
    Forwards (Valist.rebSpellIntoQ (recorder ans) buf buf_size p rest) ans.size_t
        (Event.call "RL_rebSpellInto" [CVal.unsigned_char 1, CVal.ptr buf, CVal.size_t buf_size, CVal.ptr p, CVal.va_list (va_start rest)]) ∧
    Forwards (Valist.rebSpell (recorder ans) p rest) ans.ptr
        (Event.call "RL_rebSpell" [CVal.unsigned_char 0, CVal.ptr p, CVal.va_list (va_start rest)]) ∧
    Forwards (Valist.rebSpellQ (recorder ans) p rest) ans.ptr
        (Event.call "RL_rebSpell" [CVal.unsigned_char 1, CVal.ptr p, CVal.va_list (va_start rest)]) ∧
    Forwards (Valist.rebSpellIntoWide (recorder ans) buf buf_chars p rest) ans.unsigned_int
        (Event.call "RL_rebSpellIntoWide" [CVal.unsigned_char 0, CVal.ptr buf, CVal.unsigned_int buf_chars, CVal.ptr p, CVal.va_list (va_start rest)]) ∧
    Forwards (Valist.rebSpellIntoWideQ (recorder ans) buf buf_chars p rest) ans.unsigned_int
        (Event.call "RL_rebSpellIntoWide" [CVal.unsigned_char 1, CVal.ptr buf, CVal.unsigned_int buf_chars, CVal.ptr p, CVal.va_list (va_start rest)]) ∧
    Forwards (Valist.rebSpellWide (recorder ans) p rest) ans.ptr
        (Event.call "RL_rebSpellWide" [CVal.unsigned_char 0, CVal.ptr p, CVal.va_list (va_start rest)]) ∧
    Forwards (Valist.rebSpellWideQ (recorder ans) p rest) ans.ptr
        (Event.call "RL_rebSpellWide" [CVal.unsigned_char 1, CVal.ptr p, CVal.va_list (va_start rest)]) ∧
    Forwards (Valist.rebBytesInto (recorder ans) buf buf_size p rest) ans.size_t
        (Event.call "RL_rebBytesInto" [CVal.unsigned_char 0, CVal.ptr buf, CVal.size_t buf_size, CVal.ptr p, CVal.va_list (va_start rest)]) ∧
    Forwards (Valist.rebBytesIntoQ (recorder ans) buf buf_size p rest) ans.size_t
        (Event.call "RL_rebBytesInto" [CVal.unsigned_char 1, CVal.ptr buf, CVal.size_t buf_size, CVal.ptr p, CVal.va_list (va_start rest)]) ∧
    Forwards (Valist.rebBytes (recorder ans) size_out p rest) ans.ptr
        (Event.call "RL_rebBytes" [CVal.unsigned_char 0, CVal.ptr size_out, CVal.ptr p, CVal.va_list (va_start rest)]) ∧
    Forwards (Valist.rebBytesQ (recorder ans) size_out p rest) ans.ptr
        (Event.call "RL_rebBytes" [CVal.unsigned_char 1, CVal.ptr size_out, CVal.ptr p, CVal.va_list (va_start rest)]) ∧
    Forwards (Valist.rebQUOTING (recorder ans) p rest) ans.ptr
        (Event.call "RL_rebQUOTING" [CVal.unsigned_char 0, CVal.ptr p, CVal.va_list (va_start rest)]) ∧
    Forwards (Valist.rebQUOTINGQ (recorder ans) p rest) ans.ptr
        (Event.call "RL_rebQUOTING" [CVal.unsigned_char 1, CVal.ptr p, CVal.va_list (va_start rest)]) ∧
    Forwards (Valist.rebUNQUOTING (recorder ans) p rest) ans.ptr
        (Event.call "RL_rebUNQUOTING" [CVal.unsigned_char 0, CVal.ptr p, CVal.va_list (va_start rest)]) ∧
    Forwards (Valist.rebUNQUOTINGQ (recorder ans) p rest) ans.ptr
        (Event.call "RL_rebUNQUOTING" [CVal.unsigned_char 1, CVal.ptr p, CVal.va_list (va_start rest)]) ∧
    ∀ o ∈ Valist.logs d ans x, ∀ q ∈ quoteLevels o.log, q = 0 ∨ q = 1 := by
  refine ⟨rfl, rfl, rfl, rfl, rfl, rfl, rfl, rfl, rfl, rfl, observe_Valist_rebJumps d ans p rest,
    observe_Valist_rebJumpsQ d ans p rest, rfl, rfl, rfl, rfl, rfl, rfl, rfl, rfl, rfl, rfl,
    rfl, rfl, rfl, rfl, rfl, rfl, rfl, rfl, rfl, rfl, rfl, rfl, rfl, rfl, rfl, rfl, rfl, rfl,
    ?_⟩
  intro o ho
  simp only [Valist.logs, logOf, observe_Valist_rebJumps, observe_Valist_rebJumpsQ, observe_Valist_rebFail_OS, List.mem_cons,
    List.mem_singleton, List.not_mem_nil, or_false] at ho
  rcases ho with
      rfl | rfl | rfl | rfl | rfl | rfl | rfl | rfl | rfl | rfl | rfl | rfl | rfl | rfl | rfl | rfl | rfl | rfl | rfl | rfl
      | rfl | rfl | rfl | rfl | rfl | rfl | rfl | rfl | rfl | rfl | rfl | rfl | rfl | rfl | rfl | rfl | rfl | rfl | rfl | rfl
      | rfl | rfl | rfl | rfl | rfl | rfl | rfl | rfl | rfl | rfl | rfl | rfl | rfl | rfl | rfl | rfl | rfl | rfl | rfl | rfl
      | rfl | rfl | rfl | rfl | rfl | rfl | rfl | rfl | rfl | rfl | rfl | rfl | rfl | rfl | rfl | rfl | rfl | rfl | rfl | rfl
  all_goals intro q hq
  all_goals first
    | exact absurd hq (List.not_mem_nil q)
    | exact Or.inl (List.mem_singleton.mp hq)
    | exact Or.inr (List.mem_singleton.mp hq)

/-- C2: each fixed-arity shim `rebX` of valist.c makes exactly one backend
call, `RL_rebX`, with exactly the arguments the shim received, in the same
order, and ends the way that call ended, returning its result unchanged (for
`rebFail_OS`, whose backend call is followed by `DEAD_END`, a backend call that
did not return is passed on unchanged). -/
theorem fixed_arity_shims_call_once (d : DeadEnd) (ans : Answers)
    (size : size_t) (ptr : Ptr) (new_size : size_t) (clean : Bool) (logic : Bool)
    (codepoint : uint32_t) (i : int64_t) (dec : double) (bytes : Ptr) (binary : Ptr)
    (utf8 : Ptr) (wstr : Ptr) (num_chars : unsigned_int) (data : Ptr) (length : size_t)
    (cleaner : Ptr) (p : Ptr) (dangerous : Ptr) (opaq : Ptr) (rescuer : Ptr) (v : Ptr)
    (out_len : Ptr) (input : Ptr) (in_len : size_t) (len_out : Ptr) (len_in : size_t)
    (max : int) (errnum : int) :
    CallsOnce (Valist.rebMalloc (recorder ans) size) ans.ptr
        (Event.call "RL_rebMalloc" [CVal.size_t size]) ∧
    CallsOnce (Valist.rebRealloc (recorder ans) ptr new_size) ans.ptr
        (Event.call "RL_rebRealloc" [CVal.ptr ptr, CVal.size_t new_size]) ∧
    CallsOnce (Valist.rebFree (recorder ans) ptr) ans.void
        (Event.call "RL_rebFree" [CVal.ptr ptr]) ∧
    CallsOnce (Valist.rebRepossess (recorder ans) ptr size) ans.ptr
        (Event.call "RL_rebRepossess" [CVal.ptr ptr, CVal.size_t size]) ∧
    CallsOnce (Valist.rebStartup (recorder ans)) ans.void
        (Event.call "RL_rebStartup" []) ∧
    CallsOnce (Valist.rebShutdown (recorder ans) clean) ans.void
        (Event.call "RL_rebShutdown" [CVal.bool clean]) ∧
    CallsOnce (Valist.rebTick (recorder ans)) ans.uintptr_t
        (Event.call "RL_rebTick" []) ∧
    CallsOnce (Valist.rebVoid (recorder ans)) ans.ptr
        (Event.call "RL_rebVoid" []) ∧
    CallsOnce (Valist.rebBlank (recorder ans)) ans.ptr
        (Event.call "RL_rebBlank" []) ∧
    CallsOnce (Valist.rebLogic (recorder ans) logic) ans.ptr
        (Event.call "RL_rebLogic" [CVal.bool logic]) ∧
    CallsOnce (Valist.rebChar (recorder ans) codepoint) ans.ptr
        (Event.call "RL_rebChar" [CVal.uint32_t codepoint]) ∧
    CallsOnce (Valist.rebInteger (recorder ans) i) ans.ptr
        (Event.call "RL_rebInteger" [CVal.int64_t i]) ∧
    CallsOnce (Valist.rebDecimal (recorder ans) dec) ans.ptr
        (Event.call "RL_rebDecimal" [CVal.double dec]) ∧
    CallsOnce (Valist.rebSizedBinary (recorder ans) bytes size) ans.ptr
        (Event.call "RL_rebSizedBinary" [CVal.ptr bytes, CVal.size_t size]) ∧
    CallsOnce (Valist.rebUninitializedBinary_internal (recorder ans) size) ans.ptr
        (Event.call "RL_rebUninitializedBinary_internal" [CVal.size_t size]) ∧
    CallsOnce (Valist.rebBinaryHead_internal (recorder ans) binary) ans.ptr
        (Event.call "RL_rebBinaryHead_internal" [CVal.ptr binary]) ∧
    CallsOnce (Valist.rebBinaryAt_internal (recorder ans) binary) ans.ptr
        (Event.call "RL_rebBinaryAt_internal" [CVal.ptr binary]) ∧
    CallsOnce (Valist.rebBinarySizeAt_internal (recorder ans) binary) ans.unsigned_int
        (Event.call "RL_rebBinarySizeAt_internal" [CVal.ptr binary]) ∧
    CallsOnce (Valist.rebSizedText (recorder ans) utf8 size) ans.ptr
        (Event.call "RL_rebSizedText" [CVal.ptr utf8, CVal.size_t size]) ∧
    CallsOnce (Valist.rebText (recorder ans) utf8) ans.ptr
        (Event.call "RL_rebText" [CVal.ptr utf8]) ∧
    CallsOnce (Valist.rebLengthedTextWide (recorder ans) wstr num_chars) ans.ptr
        (Event.call "RL_rebLengthedTextWide" [CVal.ptr wstr, CVal.unsigned_int num_chars]) ∧
    CallsOnce (Valist.rebTextWide (recorder ans) wstr) ans.ptr
        (Event.call "RL_rebTextWide" [CVal.ptr wstr]) ∧
    CallsOnce (Valist.rebHandle (recorder ans) data length cleaner) ans.ptr
        (Event.call "RL_rebHandle" [CVal.ptr data, CVal.size_t length, CVal.ptr cleaner]) ∧
    CallsOnce (Valist.rebUnbox0 (recorder ans) p) ans.intptr_t
        (Event.call "RL_rebUnbox0" [CVal.ptr p]) ∧
    CallsOnce (Valist.rebUnboxInteger0 (recorder ans) p) ans.intptr_t
        (Event.call "RL_rebUnboxInteger0" [CVal.ptr p]) ∧
    CallsOnce (Valist.rebRescue (recorder ans) dangerous opaq) ans.ptr
        (Event.call "RL_rebRescue" [CVal.ptr dangerous, CVal.ptr opaq]) ∧
    CallsOnce (Valist.rebRescueWith (recorder ans) dangerous rescuer opaq) ans.ptr
        (Event.call "RL_rebRescueWith" [CVal.ptr dangerous, CVal.ptr rescuer, CVal.ptr opaq]) ∧
    CallsOnce (Valist.rebHalt (recorder ans)) ans.void
        (Event.call "RL_rebHalt" []) ∧
    CallsOnce (Valist.rebRELEASING (recorder ans) v) ans.ptr
        (Event.call "RL_rebRELEASING" [CVal.ptr v]) ∧
    CallsOnce (Valist.rebManage (recorder ans) v) ans.ptr
        (Event.call "RL_rebManage" [CVal.ptr v]) ∧
    CallsOnce (Valist.rebUnmanage (recorder ans) p) ans.void
        (Event.call "RL_rebUnmanage" [CVal.ptr p]) ∧
    CallsOnce (Valist.rebRelease (recorder ans) v) ans.void
        (Event.call "RL_rebRelease" [CVal.ptr v]) ∧
    CallsOnce (Valist.rebDeflateAlloc (recorder ans) out_len input in_len) ans.ptr
        (Event.call "RL_rebDeflateAlloc" [CVal.ptr out_len, CVal.ptr input, CVal.size_t in_len]) ∧
    CallsOnce (Valist.rebZdeflateAlloc (recorder ans) out_len input in_len) ans.ptr
        (Event.call "RL_rebZdeflateAlloc" [CVal.ptr out_len, CVal.ptr input, CVal.size_t in_len]) ∧
    CallsOnce (Valist.rebGzipAlloc (recorder ans) out_len input in_len) ans.ptr
        (Event.call "RL_rebGzipAlloc" [CVal.ptr out_len, CVal.ptr input, CVal.size_t in_len]) ∧
    CallsOnce (Valist.rebInflateAlloc (recorder ans) len_out input len_in max) ans.ptr
        (Event.call "RL_rebInflateAlloc" [CVal.ptr len_out, CVal.ptr input, CVal.size_t len_in, CVal.int max]) ∧
    CallsOnce (Valist.rebZinflateAlloc (recorder ans) len_out input len_in max) ans.ptr
        (Event.call "RL_rebZinflateAlloc" [CVal.ptr len_out, CVal.ptr input, CVal.size_t len_in, CVal.int max]) ∧
    CallsOnce (Valist.rebGunzipAlloc (recorder ans) len_out input len_in max) ans.ptr
        (Event.call "RL_rebGunzipAlloc" [CVal.ptr len_out, CVal.ptr input, CVal.size_t len_in, CVal.int max]) ∧
    CallsOnce (Valist.rebDeflateDetectAlloc (recorder ans) len_out input len_in max) ans.ptr
        (Event.call "RL_rebDeflateDetectAlloc" [CVal.ptr len_out, CVal.ptr input, CVal.size_t len_in, CVal.int max]) ∧
    CallsOnce (Valist.rebFail_OS d (recorder ans) errnum) (fun ev => (ans.void ev).thenDeadEnd d)
        (Event.call "RL_rebFail_OS" [CVal.int errnum]) := by
  refine ⟨⟨rfl, rfl⟩, ⟨rfl, rfl⟩, ⟨rfl, rfl⟩, ⟨rfl, rfl⟩, ⟨rfl, rfl⟩, ⟨rfl, rfl⟩, ⟨rfl, rfl⟩,
    ⟨rfl, rfl⟩, ⟨rfl, rfl⟩, ⟨rfl, rfl⟩, ⟨rfl, rfl⟩, ⟨rfl, rfl⟩, ⟨rfl, rfl⟩, ⟨rfl, rfl⟩,
    ⟨rfl, rfl⟩, ⟨rfl, rfl⟩, ⟨rfl, rfl⟩, ⟨rfl, rfl⟩, ⟨rfl, rfl⟩, ⟨rfl, rfl⟩, ⟨rfl, rfl⟩,
    ⟨rfl, rfl⟩, ⟨rfl, rfl⟩, ⟨rfl, rfl⟩, ⟨rfl, rfl⟩, ⟨rfl, rfl⟩, ⟨rfl, rfl⟩, ⟨rfl, rfl⟩,
    ⟨rfl, rfl⟩, ⟨rfl, rfl⟩, ⟨rfl, rfl⟩, ⟨rfl, rfl⟩, ⟨rfl, rfl⟩, ⟨rfl, rfl⟩, ⟨rfl, rfl⟩,
    ⟨rfl, rfl⟩, ⟨rfl, rfl⟩, ⟨rfl, rfl⟩, ⟨rfl, rfl⟩, ?_⟩
  rw [CallsOnce, observe_Valist_rebFail_OS]
  exact ⟨rfl, rfl⟩

/-- C3, counterexample: `rebStartup` of valist.c and `rebStartup_inline` of both
branches of rebol.h call `RL_rebStartup` and nothing else, so the backend
call is not preceded by a call of `RL_rebEnterApi_internal`. -/
theorem rebStartup_reaches_backend_without_entering :
    logOf (Valist.rebStartup (recorder Answers.returning)) = [Event.call "RL_rebStartup" []] ∧
    logOf (Ext.rebStartup_inline (tableOf (recorder Answers.returning)))
      = [Event.call "RL_rebStartup" []] ∧
    logOf (Direct.rebStartup_inline (recorder Answers.returning))
      = [Event.call "RL_rebStartup" []] ∧
    entersBeforeBackend (logOf (Valist.rebStartup (recorder Answers.returning))) = false ∧
    entersBeforeBackend (logOf (Ext.rebStartup_inline (tableOf (recorder Answers.returning))))
      = false ∧
    entersBeforeBackend (logOf (Direct.rebStartup_inline (recorder Answers.returning))) = false :=
  ⟨rfl, rfl, rfl, rfl, rfl, rfl⟩

/-- C3, amended: every shim of valist.c other than `rebStartup`, and every
inline function of either branch of rebol.h other than `rebStartup_inline`,
calls `RL_rebEnterApi_internal` before its backend call: the log of a call is
`RL_rebEnterApi_internal` and then the backend call. -/
theorem enters_before_backend_except_rebStartup (d : DeadEnd) (ans : Answers) (x : Actuals)
    (o : Observed)
    (ho : o ∈ Valist.logs d ans x ++ Ext.logs d ans x ++ Direct.logs d ans x)
    (hname : o.name ≠ "rebStartup" ∧ o.name ≠ "rebStartup_inline") :
    entersBeforeBackend o.log = true ∧
    ∃ fn args, o.log = [Event.enter, Event.call fn args] := by
  simp only [Valist.logs, Ext.logs, Direct.logs, logOf, observe_Valist_rebJumps, observe_Valist_rebJumpsQ, observe_Valist_rebFail_OS,
    observe_Ext_rebJumps_inline, observe_Ext_rebJumpsQ_inline, observe_Ext_rebFail_OS_inline,
    observe_Direct_rebJumps_inline, observe_Direct_rebJumpsQ_inline, observe_Direct_rebFail_OS_inline,
    List.mem_append, List.mem_cons, List.mem_singleton, List.not_mem_nil, or_false] at ho
  rcases ho with (ho | ho) | ho
  · rcases ho with
      rfl | rfl | rfl | rfl | rfl | rfl | rfl | rfl | rfl | rfl | rfl | rfl | rfl | rfl | rfl | rfl | rfl | rfl | rfl | rfl
      | rfl | rfl | rfl | rfl | rfl | rfl | rfl | rfl | rfl | rfl | rfl | rfl | rfl | rfl | rfl | rfl | rfl | rfl | rfl | rfl
      | rfl | rfl | rfl | rfl | rfl | rfl | rfl | rfl | rfl | rfl | rfl | rfl | rfl | rfl | rfl | rfl | rfl | rfl | rfl | rfl
      | rfl | rfl | rfl | rfl | rfl | rfl | rfl | rfl | rfl | rfl | rfl | rfl | rfl | rfl | rfl | rfl | rfl | rfl | rfl | rfl
    all_goals first
      | exact ⟨rfl, _, _, rfl⟩
      | exact absurd rfl hname.1
  · rcases ho with
      rfl | rfl | rfl | rfl | rfl | rfl | rfl | rfl | rfl | rfl | rfl | rfl | rfl | rfl | rfl | rfl | rfl | rfl | rfl | rfl
      | rfl | rfl | rfl | rfl | rfl | rfl | rfl | rfl | rfl | rfl | rfl | rfl | rfl | rfl | rfl | rfl | rfl | rfl | rfl | rfl
      | rfl | rfl | rfl | rfl | rfl | rfl | rfl | rfl | rfl | rfl | rfl | rfl | rfl | rfl | rfl | rfl | rfl | rfl | rfl | rfl
      | rfl | rfl | rfl | rfl | rfl | rfl | rfl | rfl | rfl | rfl | rfl | rfl | rfl | rfl | rfl | rfl | rfl | rfl | rfl | rfl
    all_goals first
      | exact ⟨rfl, _, _, rfl⟩
      | exact absurd rfl hname.2
  · rcases ho with
      rfl | rfl | rfl | rfl | rfl | rfl | rfl | rfl | rfl | rfl | rfl | rfl | rfl | rfl | rfl | rfl | rfl | rfl | rfl | rfl
      | rfl | rfl | rfl | rfl | rfl | rfl | rfl | rfl | rfl | rfl | rfl | rfl | rfl | rfl | rfl | rfl | rfl | rfl | rfl | rfl
      | rfl | rfl | rfl | rfl | rfl | rfl | rfl | rfl | rfl | rfl | rfl | rfl | rfl | rfl | rfl | rfl | rfl | rfl | rfl | rfl
      | rfl | rfl | rfl | rfl | rfl | rfl | rfl | rfl | rfl | rfl | rfl | rfl | rfl | rfl | rfl | rfl | rfl | rfl | rfl | rfl
    all_goals first
      | exact ⟨rfl, _, _, rfl⟩
      | exact absurd rfl hname.2

/-- C3, witness: `rebMalloc` of valist.c, called with size 1 against a host
whose calls all return. -/
theorem enters_before_backend_except_rebStartup_witness :
    entersBeforeBackend (logOf (Valist.rebMalloc (recorder Answers.returning) 1)) = true ∧
    ∃ fn args, logOf (Valist.rebMalloc (recorder Answers.returning) 1)
      = [Event.enter, Event.call fn args] :=
  enters_before_backend_except_rebStartup DeadEnd.empty Answers.returning Actuals.sample
    (Observed.mk "rebMalloc" (logOf (Valist.rebMalloc (recorder Answers.returning) 1)))
    (List.mem_append_left _ (List.mem_append_left _ (List.Mem.head _)))
    ⟨by decide, by decide⟩

/-- C4: for every variadic shim of valist.c and arguments `as`, none of which
is the sentinel, the call `rebX(as..., rebEND)` hands the backend a `p` and a
`va_list` whose contents, in order, are exactly `as` and then `rebEND`, so the
reader that stops at the first sentinel consumes exactly `as` (for no
arguments, `p` is `rebEND` and nothing is consumed). -/
theorem variadic_shims_hand_over_arguments_then_END (d : DeadEnd) (ans : Answers)
    (x : Actuals) (mem : Memory) (as : List Ptr) (h : ∀ a ∈ as, isEND mem a = false) :
    HandsOver mem as (logOf (callWithEND (Valist.rebArgR (recorder ans)) as)) ∧
    HandsOver mem as (logOf (callWithEND (Valist.rebArgRQ (recorder ans)) as)) ∧
    HandsOver mem as (logOf (callWithEND (Valist.rebArg (recorder ans)) as)) ∧
    HandsOver mem as (logOf (callWithEND (Valist.rebArgQ (recorder ans)) as)) ∧
    HandsOver mem as (logOf (callWithEND (Valist.rebValue (recorder ans)) as)) ∧
    HandsOver mem as (logOf (callWithEND (Valist.rebValueQ (recorder ans)) as)) ∧
    HandsOver mem as (logOf (callWithEND (Valist.rebQuote (recorder ans)) as)) ∧
    HandsOver mem as (logOf (callWithEND (Valist.rebQuoteQ (recorder ans)) as)) ∧
    HandsOver mem as (logOf (callWithEND (Valist.rebElide (recorder ans)) as)) ∧
    HandsOver mem as (logOf (callWithEND (Valist.rebElideQ (recorder ans)) as)) ∧
    HandsOver mem as (logOf (callWithEND (Valist.rebJumps d (recorder ans)) as)) ∧
    HandsOver mem as (logOf (callWithEND (Valist.rebJumpsQ d (recorder ans)) as)) ∧
    HandsOver mem as (logOf (callWithEND (Valist.rebDid (recorder ans)) as)) ∧
    HandsOver mem as (logOf (callWithEND (Valist.rebDidQ (recorder ans)) as)) ∧
    HandsOver mem as (logOf (callWithEND (Valist.rebNot (recorder ans)) as)) ∧
    HandsOver mem as (logOf (callWithEND (Valist.rebNotQ (recorder ans)) as)) ∧
    HandsOver mem as (logOf (callWithEND (Valist.rebUnbox (recorder ans)) as)) ∧
    HandsOver mem as (logOf (callWithEND (Valist.rebUnboxQ (recorder ans)) as)) ∧
    HandsOver mem as (logOf (callWithEND (Valist.rebUnboxInteger (recorder ans)) as)) ∧
    HandsOver mem as (logOf (callWithEND (Valist.rebUnboxIntegerQ (recorder ans)) as)) ∧
    HandsOver mem as (logOf (callWithEND (Valist.rebUnboxDecimal (recorder ans)) as)) ∧
    HandsOver mem as (logOf (callWithEND (Valist.rebUnboxDecimalQ (recorder ans)) as)) ∧
    HandsOver mem as (logOf (callWithEND (Valist.rebUnboxChar (recorder ans)) as)) ∧
    HandsOver mem as (logOf (callWithEND (Valist.rebUnboxCharQ (recorder ans)) as)) ∧
    HandsOver mem as (logOf (callWithEND (Valist.rebSpellInto (recorder ans) x.buf x.buf_size) as)) ∧
    HandsOver mem as (logOf (callWithEND (Valist.rebSpellIntoQ (recorder ans) x.buf x.buf_size) as)) ∧
    HandsOver mem as (logOf (callWithEND (Valist.rebSpell (recorder ans)) as)) ∧
    HandsOver mem as (logOf (callWithEND (Valist.rebSpellQ (recorder ans)) as)) ∧
    HandsOver mem as (logOf (callWithEND (Valist.rebSpellIntoWide (recorder ans) x.buf x.buf_chars) as)) ∧
    HandsOver mem as (logOf (callWithEND (Valist.rebSpellIntoWideQ (recorder ans) x.buf x.buf_chars) as)) ∧
    HandsOver mem as (logOf (callWithEND (Valist.rebSpellWide (recorder ans)) as)) ∧
    HandsOver mem as (logOf (callWithEND (Valist.rebSpellWideQ (recorder ans)) as)) ∧
    HandsOver mem as (logOf (callWithEND (Valist.rebBytesInto (recorder ans) x.buf x.buf_size) as)) ∧
    HandsOver mem as (logOf (callWithEND (Valist.rebBytesIntoQ (recorder ans) x.buf x.buf_size) as)) ∧
    HandsOver mem as (logOf (callWithEND (Valist.rebBytes (recorder ans) x.size_out) as)) ∧
    HandsOver mem as (logOf (callWithEND (Valist.rebBytesQ (recorder ans) x.size_out) as)) ∧
    HandsOver mem as (logOf (callWithEND (Valist.rebQUOTING (recorder ans)) as)) ∧
    HandsOver mem as (logOf (callWithEND (Valist.rebQUOTINGQ (recorder ans)) as)) ∧
    HandsOver mem as (logOf (callWithEND (Valist.rebUNQUOTING (recorder ans)) as)) ∧
    HandsOver mem as (logOf (callWithEND (Valist.rebUNQUOTINGQ (recorder ans)) as)) :=
  ⟨handsOver_callWithEND mem as h "RL_rebArgR" [CVal.unsigned_char 0] _ (fun _ _ => rfl),
   handsOver_callWithEND mem as h "RL_rebArgR" [CVal.unsigned_char 1] _ (fun _ _ => rfl),
   handsOver_callWithEND mem as h "RL_rebArg" [CVal.unsigned_char 0] _ (fun _ _ => rfl),
   handsOver_callWithEND mem as h "RL_rebArg" [CVal.unsigned_char 1] _ (fun _ _ => rfl),
   handsOver_callWithEND mem as h "RL_rebValue" [CVal.unsigned_char 0] _ (fun _ _ => rfl),
   handsOver_callWithEND mem as h "RL_rebValue" [CVal.unsigned_char 1] _ (fun _ _ => rfl),
   handsOver_callWithEND mem as h "RL_rebQuote" [CVal.unsigned_char 0] _ (fun _ _ => rfl),
   handsOver_callWithEND mem as h "RL_rebQuote" [CVal.unsigned_char 1] _ (fun _ _ => rfl),
   handsOver_callWithEND mem as h "RL_rebElide" [CVal.unsigned_char 0] _ (fun _ _ => rfl),
   handsOver_callWithEND mem as h "RL_rebElide" [CVal.unsigned_char 1] _ (fun _ _ => rfl),
   handsOver_callWithEND mem as h "RL_rebJumps" [CVal.unsigned_char 0] _ (fun p rest => congrArg Prod.snd (observe_Valist_rebJumps d ans p rest)),
   handsOver_callWithEND mem as h "RL_rebJumps" [CVal.unsigned_char 1] _ (fun p rest => congrArg Prod.snd (observe_Valist_rebJumpsQ d ans p rest)),
   handsOver_callWithEND mem as h "RL_rebDid" [CVal.unsigned_char 0] _ (fun _ _ => rfl),
   handsOver_callWithEND mem as h "RL_rebDid" [CVal.unsigned_char 1] _ (fun _ _ => rfl),
   handsOver_callWithEND mem as h "RL_rebNot" [CVal.unsigned_char 0] _ (fun _ _ => rfl),
   handsOver_callWithEND mem as h "RL_rebNot" [CVal.unsigned_char 1] _ (fun _ _ => rfl),
   handsOver_callWithEND mem as h "RL_rebUnbox" [CVal.unsigned_char 0] _ (fun _ _ => rfl),
   handsOver_callWithEND mem as h "RL_rebUnbox" [CVal.unsigned_char 1] _ (fun _ _ => rfl),
   handsOver_callWithEND mem as h "RL_rebUnboxInteger" [CVal.unsigned_char 0] _ (fun _ _ => rfl),
   handsOver_callWithEND mem as h "RL_rebUnboxInteger" [CVal.unsigned_char 1] _ (fun _ _ => rfl),
   handsOver_callWithEND mem as h "RL_rebUnboxDecimal" [CVal.unsigned_char 0] _ (fun _ _ => rfl),
   handsOver_callWithEND mem as h "RL_rebUnboxDecimal" [CVal.unsigned_char 1] _ (fun _ _ => rfl),
   handsOver_callWithEND mem as h "RL_rebUnboxChar" [CVal.unsigned_char 0] _ (fun _ _ => rfl),
   handsOver_callWithEND mem as h "RL_rebUnboxChar" [CVal.unsigned_char 1] _ (fun _ _ => rfl),
   handsOver_callWithEND mem as h "RL_rebSpellInto" [CVal.unsigned_char 0, CVal.ptr x.buf, CVal.size_t x.buf_size] _ (fun _ _ => rfl),
   handsOver_callWithEND mem as h "RL_rebSpellInto" [CVal.unsigned_char 1, CVal.ptr x.buf, CVal.size_t x.buf_size] _ (fun _ _ => rfl),
   handsOver_callWithEND mem as h "RL_rebSpell" [CVal.unsigned_char 0] _ (fun _ _ => rfl),
   handsOver_callWithEND mem as h "RL_rebSpell" [CVal.unsigned_char 1] _ (fun _ _ => rfl),
   handsOver_callWithEND mem as h "RL_rebSpellIntoWide" [CVal.unsigned_char 0, CVal.ptr x.buf, CVal.unsigned_int x.buf_chars] _ (fun _ _ => rfl),
   handsOver_callWithEND mem as h "RL_rebSpellIntoWide" [CVal.unsigned_char 1, CVal.ptr x.buf, CVal.unsigned_int x.buf_chars] _ (fun _ _ => rfl),
   handsOver_callWithEND mem as h "RL_rebSpellWide" [CVal.unsigned_char 0] _ (fun _ _ => rfl),
   handsOver_callWithEND mem as h "RL_rebSpellWide" [CVal.unsigned_char 1] _ (fun _ _ => rfl),
   handsOver_callWithEND mem as h "RL_rebBytesInto" [CVal.unsigned_char 0, CVal.ptr x.buf, CVal.size_t x.buf_size] _ (fun _ _ => rfl),
   handsOver_callWithEND mem as h "RL_rebBytesInto" [CVal.unsigned_char 1, CVal.ptr x.buf, CVal.size_t x.buf_size] _ (fun _ _ => rfl),
   handsOver_callWithEND mem as h "RL_rebBytes" [CVal.unsigned_char 0, CVal.ptr x.size_out] _ (fun _ _ => rfl),
   handsOver_callWithEND mem as h "RL_rebBytes" [CVal.unsigned_char 1, CVal.ptr x.size_out] _ (fun _ _ => rfl),
   handsOver_callWithEND mem as h "RL_rebQUOTING" [CVal.unsigned_char 0] _ (fun _ _ => rfl),
   handsOver_callWithEND mem as h "RL_rebQUOTING" [CVal.unsigned_char 1] _ (fun _ _ => rfl),
   handsOver_callWithEND mem as h "RL_rebUNQUOTING" [CVal.unsigned_char 0] _ (fun _ _ => rfl),
   handsOver_callWithEND mem as h "RL_rebUNQUOTING" [CVal.unsigned_char 1] _ (fun _ _ => rfl)⟩

/-- C4, witness: `rebArgR` called with a text argument, a null and a handle,
then `rebEND`. -/
theorem variadic_shims_hand_over_arguments_then_END_witness :
    (∀ a ∈ [Ptr.strLit [0x31], rebNull, Ptr.obj 3], isEND (fun _ => none) a = false) ∧
    HandsOver (fun _ => none) [Ptr.strLit [0x31], rebNull, Ptr.obj 3]
      (logOf (callWithEND (Valist.rebArgR (recorder Answers.returning))
        [Ptr.strLit [0x31], rebNull, Ptr.obj 3])) :=
  ⟨by decide,
   (variadic_shims_hand_over_arguments_then_END DeadEnd.empty Answers.returning Actuals.sample
      (fun _ => none) [Ptr.strLit [0x31], rebNull, Ptr.obj 3] (by decide)).1⟩

/-- C5: `rebNull` is the zero pointer and `rebEND`, the address of a string
literal, is not, so the two differ; the sentinel test rejects `rebNull`, and a
null argument inside a variadic sequence is read as an argument, not as the
end of input. -/
theorem rebEND_differs_from_rebNull (mem : Memory) (as bs : List Ptr)
    (h : ∀ a ∈ as ++ bs, isEND mem a = false) :
    rebNull = Ptr.null ∧ rebNull.isZero = true ∧
    rebEND = Ptr.strLit [0x80] ∧ rebEND.isZero = false ∧
    rebEND ≠ rebNull ∧
    isEND mem rebEND = true ∧ isEND mem rebNull = false ∧
    readSeq mem ((as ++ rebNull :: bs) ++ [rebEND]) = some (as ++ rebNull :: bs) := by
  refine ⟨rfl, rfl, rfl, rfl, by decide, rfl, rfl, readSeq_to_END mem _ ?_⟩
  intro a ha
  rcases List.mem_append.mp ha with ha | ha
  · exact h a (List.mem_append_left _ ha)
  · rcases List.mem_cons.mp ha with rfl | ha
    · rfl
    · exact h a (List.mem_append_right _ ha)

/-- C5, witness: a null argument between a text argument and a handle. -/
theorem rebEND_differs_from_rebNull_witness :
    (∀ a ∈ [Ptr.strLit [0x31]] ++ [Ptr.obj 3], isEND (fun _ => none) a = false) ∧
    rebEND ≠ rebNull ∧
    readSeq (fun _ => none) [Ptr.strLit [0x31], rebNull, Ptr.obj 3, rebEND]
      = some [Ptr.strLit [0x31], rebNull, Ptr.obj 3] :=
  ⟨by decide,
   (rebEND_differs_from_rebNull (fun _ => none) [Ptr.strLit [0x31]] [Ptr.obj 3]
      (by decide)).2.2.2.2.1,
   (rebEND_differs_from_rebNull (fun _ => none) [Ptr.strLit [0x31]] [Ptr.obj 3]
      (by decide)).2.2.2.2.2.2.2⟩

/-- C6: `rebEND` points at the bytes 0x80 and 0x00; 0x80 has its top bit set and
its second-highest and lowest bits clear, and is a UTF-8 continuation byte.
No zero-terminated well-formed UTF-8 string, the empty one included, starts
with 0x80, so a pointer to such a string has a first byte other than that of
`rebEND` and fails the sentinel test. -/
theorem rebEND_bytes_start_no_utf8 (mem : Memory) (p : Ptr) (text : List Nat)
    (hwf : wellFormedUtf8 text = true) (hp : p.pointee mem = some (text ++ [0])) :
    rebEND.pointee mem = some [0x80, 0x00] ∧
    Nat.testBit 0x80 7 = true ∧ Nat.testBit 0x80 6 = false ∧ Nat.testBit 0x80 0 = false ∧
    isContinuation 0x80 = true ∧
    (text ++ [0]).head? ≠ some 0x80 ∧
    (p.pointee mem).bind List.head? ≠ (rebEND.pointee mem).bind List.head? ∧
    isEND mem p = false := by
  have hhead : (text ++ [0]).head? ≠ some 0x80 := by
    cases text with
    | nil => decide
    | cons b rest =>
      intro hb
      have hb80 : b = 0x80 := by simpa using hb
      subst hb80
      simp [wellFormedUtf8, wellFormedUtf8Fuel, utf8SequenceLength] at hwf
  refine ⟨rfl, by decide, by decide, by decide, by decide, hhead, ?_, ?_⟩
  · rw [hp]
    exact hhead
  · unfold isEND
    rw [hp]
    cases text with
    | nil => rfl
    | cons b rest =>
      have hb : b ≠ 0x80 := fun hb => hhead (by simp [hb])
      cases rest <;> simp [hb]

/-- C6, witness: the two-byte UTF-8 string 0xC3 0xA9 as a string literal. -/
theorem rebEND_bytes_start_no_utf8_witness :
    wellFormedUtf8 [0xC3, 0xA9] = true ∧
    isEND (fun _ => none) (Ptr.strLit [0xC3, 0xA9]) = false :=
  ⟨by decide,
   (rebEND_bytes_start_no_utf8 (fun _ => none) (Ptr.strLit [0xC3, 0xA9]) [0xC3, 0xA9]
      (by decide) rfl).2.2.2.2.2.2.2⟩

/-- C7: with `REBOL_EXPLICIT_END` undefined and the accessor macros enabled,
every variadic accessor `rebX(a1, ..., aN)` with at least one argument expands
to `rebX_inline(a1, ..., aN, rebEND)`: the arguments in order and one sentinel
after them.  With `REBOL_EXPLICIT_END` defined every accessor is a plain alias
`rebX_inline`, so `rebX(a1, ..., aN, rebEND)` there expands to the same call.
The fixed-arity accessors are the same aliases in both modes, and both modes
define the same names. -/
theorem accessors_append_one_END (m : Define) (args : List (List String))
    (hm : m ∈ accessorDefines false false) (hv : m.variadic = true) (hargs : args ≠ []) :
    m.expandCall (commaSep args) = callTokens (m.name ++ "_inline") (args ++ [["rebEND"]]) ∧
    Define.mk m.name false [m.name ++ "_inline"] ∈ accessorDefines true false ∧
    (Define.mk m.name false [m.name ++ "_inline"]).expandCall (commaSep (args ++ [["rebEND"]]))
      = m.expandCall (commaSep args) ∧
    (∀ e ∈ accessorDefines true false, e.variadic = false ∧ e.body = [e.name ++ "_inline"]) ∧
    (∀ f ∈ accessorDefines false false, f.variadic = false →
      f ∈ accessorDefines true false ∧ f.body = [f.name ++ "_inline"]) ∧
    (accessorDefines false false).map Define.name
      = (accessorDefines true false).map Define.name := by
  have hexp := expandCall_implicitEnd m hm hv args hargs
  refine ⟨hexp, (implicitEnd_variadic_shape m hm hv).2.2, ?_, by decide, by decide, by decide⟩
  rw [hexp]
  rfl

/-- C7, witness: `rebValue(x, v)` in default mode. -/
theorem accessors_append_one_END_witness :
    Define.mk "rebValue" true ["rebValue_inline", "(", "__VA_ARGS__", ",", "rebEND", ")"]
      ∈ accessorDefines false false ∧
    (Define.mk "rebValue" true
        ["rebValue_inline", "(", "__VA_ARGS__", ",", "rebEND", ")"]).expandCall
        ["x", ",", "v"]
      = ["rebValue_inline", "(", "x", ",", "v", ",", "rebEND", ")"] :=
  ⟨by decide,
   (accessors_append_one_END
      (Define.mk "rebValue" true ["rebValue_inline", "(", "__VA_ARGS__", ",", "rebEND", ")"])
      [["x"], ["v"]] (by decide) rfl (by decide)).1⟩

/-- C8: for every argument sequence `s`, the part of `s` followed by two
sentinels that precedes the first sentinel is the part of `s` followed by one
sentinel that precedes the first sentinel, and it is what the reader consumes
from either.  In default mode a variadic accessor call that writes `rebEND`
itself, `rebX(a1, ..., aN, rebEND)`, expands to the call with two trailing
sentinels. -/
theorem redundant_END_is_a_no_op (mem : Memory) (s : List Ptr) (m : Define)
    (args : List (List String))
    (hm : m ∈ accessorDefines false false) (hv : m.variadic = true) :
    (s ++ [rebEND, rebEND]).takeWhile (fun a => !isEND mem a)
      = (s ++ [rebEND]).takeWhile (fun a => !isEND mem a) ∧
    readSeq mem (s ++ [rebEND]) = some ((s ++ [rebEND]).takeWhile (fun a => !isEND mem a)) ∧
    readSeq mem (s ++ [rebEND, rebEND]) = readSeq mem (s ++ [rebEND]) ∧
    m.expandCall (commaSep (args ++ [["rebEND"]]))
      = callTokens (m.name ++ "_inline") (args ++ [["rebEND"], ["rebEND"]]) := by
  refine ⟨?_, ?_, ?_, ?_⟩
  · rw [takeWhile_to_END, takeWhile_to_END]
  · rw [takeWhile_to_END, readSeq_stops_at_END]
  · rw [readSeq_stops_at_END, readSeq_stops_at_END]
  · have h := expandCall_implicitEnd m hm hv (args ++ [["rebEND"]]) (by simp)
    simpa using h

/-- C8, witness: a text argument and a handle, and `rebValue(x, v, rebEND)` in
default mode. -/
theorem redundant_END_is_a_no_op_witness :
    readSeq (fun _ => none) [Ptr.strLit [0x31], Ptr.obj 3, rebEND, rebEND]
      = readSeq (fun _ => none) [Ptr.strLit [0x31], Ptr.obj 3, rebEND] ∧
    readSeq (fun _ => none) [Ptr.strLit [0x31], Ptr.obj 3, rebEND]
      = some [Ptr.strLit [0x31], Ptr.obj 3] ∧
    (Define.mk "rebValue" true
        ["rebValue_inline", "(", "__VA_ARGS__", ",", "rebEND", ")"]).expandCall
        ["x", ",", "v", ",", "rebEND"]
      = ["rebValue_inline", "(", "x", ",", "v", ",", "rebEND", ",", "rebEND", ")"] :=
  ⟨(redundant_END_is_a_no_op (fun _ => none) [Ptr.strLit [0x31], Ptr.obj 3]
      (Define.mk "rebValue" true ["rebValue_inline", "(", "__VA_ARGS__", ",", "rebEND", ")"])
      [["x"], ["v"]] (by decide) rfl).2.2.1,
   by decide,
   (redundant_END_is_a_no_op (fun _ => none) [Ptr.strLit [0x31], Ptr.obj 3]
      (Define.mk "rebValue" true ["rebValue_inline", "(", "__VA_ARGS__", ",", "rebEND", ")"])
      [["x"], ["v"]] (by decide) rfl).2.2.2⟩

/-- C9: when every field of the table `RL` holds the `RL_` function of the same
name (`RL = tableOf H`), each `rebX_inline` of the `REB_EXT` branch, which
calls through `RL`, is the same state transformer as the `rebX_inline` of the
directly linked branch: for every host, state and arguments it makes the same
calls with the same arguments and ends the same way with the same result.  In
particular the recording host logs the same calls for both branches. -/
theorem table_inlines_agree_with_direct_inlines {σ : Type} (d : DeadEnd) (H : Host σ)
    (RL : RL_LIB σ) (x : Actuals) (ans : Answers) (hRL : RL = tableOf H) :
    Ext.rebMalloc_inline RL x.size
      = Direct.rebMalloc_inline H x.size ∧
    Ext.rebRealloc_inline RL x.ptr x.new_size
      = Direct.rebRealloc_inline H x.ptr x.new_size ∧
    Ext.rebFree_inline RL x.ptr
      = Direct.rebFree_inline H x.ptr ∧
    Ext.rebRepossess_inline RL x.ptr x.size
      = Direct.rebRepossess_inline H x.ptr x.size ∧
    Ext.rebStartup_inline RL
      = Direct.rebStartup_inline H ∧
    Ext.rebShutdown_inline RL x.clean
      = Direct.rebShutdown_inline H x.clean ∧
    Ext.rebTick_inline RL
      = Direct.rebTick_inline H ∧
    Ext.rebVoid_inline RL
      = Direct.rebVoid_inline H ∧
    Ext.rebBlank_inline RL
      = Direct.rebBlank_inline H ∧
    Ext.rebLogic_inline RL x.logic
      = Direct.rebLogic_inline H x.logic ∧
    Ext.rebChar_inline RL x.codepoint
      = Direct.rebChar_inline H x.codepoint ∧
    Ext.rebInteger_inline RL x.i
      = Direct.rebInteger_inline H x.i ∧
    Ext.rebDecimal_inline RL x.dec
      = Direct.rebDecimal_inline H x.dec ∧
    Ext.rebSizedBinary_inline RL x.bytes x.size
      = Direct.rebSizedBinary_inline H x.bytes x.size ∧
    Ext.rebUninitializedBinary_internal_inline RL x.size
      = Direct.rebUninitializedBinary_internal_inline H x.size ∧
    Ext.rebBinaryHead_internal_inline RL x.binary
      = Direct.rebBinaryHead_internal_inline H x.binary ∧
    Ext.rebBinaryAt_internal_inline RL x.binary
      = Direct.rebBinaryAt_internal_inline H x.binary ∧
    Ext.rebBinarySizeAt_internal_inline RL x.binary
      = Direct.rebBinarySizeAt_internal_inline H x.binary ∧
    Ext.rebSizedText_inline RL x.utf8 x.size
      = Direct.rebSizedText_inline H x.utf8 x.size ∧
    Ext.rebText_inline RL x.utf8
      = Direct.rebText_inline H x.utf8 ∧
    Ext.rebLengthedTextWide_inline RL x.wstr x.num_chars
      = Direct.rebLengthedTextWide_inline H x.wstr x.num_chars ∧
    Ext.rebTextWide_inline RL x.wstr
      = Direct.rebTextWide_inline H x.wstr ∧
    Ext.rebHandle_inline RL x.data x.length x.cleaner
      = Direct.rebHandle_inline H x.data x.length x.cleaner ∧
    Ext.rebArgR_inline RL x.p x.rest
      = Direct.rebArgR_inline H x.p x.rest ∧
    Ext.rebArgRQ_inline RL x.p x.rest
      = Direct.rebArgRQ_inline H x.p x.rest ∧
    Ext.rebArg_inline RL x.p x.rest
      = Direct.rebArg_inline H x.p x.rest ∧
    Ext.rebArgQ_inline RL x.p x.rest
      = Direct.rebArgQ_inline H x.p x.rest ∧
    Ext.rebValue_inline RL x.p x.rest
      = Direct.rebValue_inline H x.p x.rest ∧
    Ext.rebValueQ_inline RL x.p x.rest
      = Direct.rebValueQ_inline H x.p x.rest ∧
    Ext.rebQuote_inline RL x.p x.rest
      = Direct.rebQuote_inline H x.p x.rest ∧
    Ext.rebQuoteQ_inline RL x.p x.rest
      = Direct.rebQuoteQ_inline H x.p x.rest ∧
    Ext.rebElide_inline RL x.p x.rest
      = Direct.rebElide_inline H x.p x.rest ∧
    Ext.rebElideQ_inline RL x.p x.rest
      = Direct.rebElideQ_inline H x.p x.rest ∧
    Ext.rebJumps_inline d RL x.p x.rest
      = Direct.rebJumps_inline d H x.p x.rest ∧
    Ext.rebJumpsQ_inline d RL x.p x.rest
      = Direct.rebJumpsQ_inline d H x.p x.rest ∧
    Ext.rebDid_inline RL x.p x.rest
      = Direct.rebDid_inline H x.p x.rest ∧
    Ext.rebDidQ_inline RL x.p x.rest
      = Direct.rebDidQ_inline H x.p x.rest ∧
    Ext.rebNot_inline RL x.p x.rest
      = Direct.rebNot_inline H x.p x.rest ∧
    Ext.rebNotQ_inline RL x.p x.rest
      = Direct.rebNotQ_inline H x.p x.rest ∧
    Ext.rebUnbox_inline RL x.p x.rest
      = Direct.rebUnbox_inline H x.p x.rest ∧
    Ext.rebUnboxQ_inline RL x.p x.rest
      = Direct.rebUnboxQ_inline H x.p x.rest ∧
    Ext.rebUnbox0_inline RL x.p
      = Direct.rebUnbox0_inline H x.p ∧
    Ext.rebUnboxInteger_inline RL x.p x.rest
      = Direct.rebUnboxInteger_inline H x.p x.rest ∧
    Ext.rebUnboxIntegerQ_inline RL x.p x.rest
      = Direct.rebUnboxIntegerQ_inline H x.p x.rest ∧
    Ext.rebUnboxInteger0_inline RL x.p
      = Direct.rebUnboxInteger0_inline H x.p ∧
    Ext.rebUnboxDecimal_inline RL x.p x.rest
      = Direct.rebUnboxDecimal_inline H x.p x.rest ∧
    Ext.rebUnboxDecimalQ_inline RL x.p x.rest
      = Direct.rebUnboxDecimalQ_inline H x.p x.rest ∧
    Ext.rebUnboxChar_inline RL x.p x.rest
      = Direct.rebUnboxChar_inline H x.p x.rest ∧
    Ext.rebUnboxCharQ_inline RL x.p x.rest
      = Direct.rebUnboxCharQ_inline H x.p x.rest ∧
    Ext.rebSpellInto_inline RL x.buf x.buf_size x.p x.rest
      = Direct.rebSpellInto_inline H x.buf x.buf_size x.p x.rest ∧
    Ext.rebSpellIntoQ_inline RL x.buf x.buf_size x.p x.rest
      = Direct.rebSpellIntoQ_inline H x.buf x.buf_size x.p x.rest ∧
    Ext.rebSpell_inline RL x.p x.rest
      = Direct.rebSpell_inline H x.p x.rest ∧
    Ext.rebSpellQ_inline RL x.p x.rest
      = Direct.rebSpellQ_inline H x.p x.rest ∧
    Ext.rebSpellIntoWide_inline RL x.buf x.buf_chars x.p x.rest
      = Direct.rebSpellIntoWide_inline H x.buf x.buf_chars x.p x.rest ∧
    Ext.rebSpellIntoWideQ_inline RL x.buf x.buf_chars x.p x.rest
      = Direct.rebSpellIntoWideQ_inline H x.buf x.buf_chars x.p x.rest ∧
    Ext.rebSpellWide_inline RL x.p x.rest
      = Direct.rebSpellWide_inline H x.p x.rest ∧
    Ext.rebSpellWideQ_inline RL x.p x.rest
      = Direct.rebSpellWideQ_inline H x.p x.rest ∧
    Ext.rebBytesInto_inline RL x.buf x.buf_size x.p x.rest
      = Direct.rebBytesInto_inline H x.buf x.buf_size x.p x.rest ∧
    Ext.rebBytesIntoQ_inline RL x.buf x.buf_size x.p x.rest
      = Direct.rebBytesIntoQ_inline H x.buf x.buf_size x.p x.rest ∧
    Ext.rebBytes_inline RL x.size_out x.p x.rest
      = Direct.rebBytes_inline H x.size_out x.p x.rest ∧
    Ext.rebBytesQ_inline RL x.size_out x.p x.rest
      = Direct.rebBytesQ_inline H x.size_out x.p x.rest ∧
    Ext.rebRescue_inline RL x.dangerous x.opaq
      = Direct.rebRescue_inline H x.dangerous x.opaq ∧
    Ext.rebRescueWith_inline RL x.dangerous x.rescuer x.opaq
      = Direct.rebRescueWith_inline H x.dangerous x.rescuer x.opaq ∧
    Ext.rebHalt_inline RL
      = Direct.rebHalt_inline H ∧
    Ext.rebQUOTING_inline RL x.p x.rest
      = Direct.rebQUOTING_inline H x.p x.rest ∧
    Ext.rebQUOTINGQ_inline RL x.p x.rest
      = Direct.rebQUOTINGQ_inline H x.p x.rest ∧
    Ext.rebUNQUOTING_inline RL x.p x.rest
      = Direct.rebUNQUOTING_inline H x.p x.rest ∧
    Ext.rebUNQUOTINGQ_inline RL x.p x.rest
      = Direct.rebUNQUOTINGQ_inline H x.p x.rest ∧
    Ext.rebRELEASING_inline RL x.v
      = Direct.rebRELEASING_inline H x.v ∧
    Ext.rebManage_inline RL x.v
      = Direct.rebManage_inline H x.v ∧
    Ext.rebUnmanage_inline RL x.p
      = Direct.rebUnmanage_inline H x.p ∧
    Ext.rebRelease_inline RL x.v
      = Direct.rebRelease_inline H x.v ∧
    Ext.rebDeflateAlloc_inline RL x.out_len x.input x.in_len
      = Direct.rebDeflateAlloc_inline H x.out_len x.input x.in_len ∧
    Ext.rebZdeflateAlloc_inline RL x.out_len x.input x.in_len
      = Direct.rebZdeflateAlloc_inline H x.out_len x.input x.in_len ∧
    Ext.rebGzipAlloc_inline RL x.out_len x.input x.in_len
      = Direct.rebGzipAlloc_inline H x.out_len x.input x.in_len ∧
    Ext.rebInflateAlloc_inline RL x.len_out x.input x.len_in x.max
      = Direct.rebInflateAlloc_inline H x.len_out x.input x.len_in x.max ∧
    Ext.rebZinflateAlloc_inline RL x.len_out x.input x.len_in x.max
      = Direct.rebZinflateAlloc_inline H x.len_out x.input x.len_in x.max ∧
    Ext.rebGunzipAlloc_inline RL x.len_out x.input x.len_in x.max
      = Direct.rebGunzipAlloc_inline H x.len_out x.input x.len_in x.max ∧
    Ext.rebDeflateDetectAlloc_inline RL x.len_out x.input x.len_in x.max
      = Direct.rebDeflateDetectAlloc_inline H x.len_out x.input x.len_in x.max ∧
    Ext.rebFail_OS_inline d RL x.errnum
      = Direct.rebFail_OS_inline d H x.errnum ∧
    Ext.logs d ans x = Direct.logs d ans x := by
  subst hRL
  exact ⟨rfl, rfl, rfl, rfl, rfl, rfl, rfl, rfl, rfl, rfl, rfl, rfl, rfl, rfl, rfl, rfl, rfl, rfl,
    rfl, rfl, rfl, rfl, rfl, rfl, rfl, rfl, rfl, rfl, rfl, rfl, rfl, rfl, rfl, rfl, rfl, rfl,
    rfl, rfl, rfl, rfl, rfl, rfl, rfl, rfl, rfl, rfl, rfl, rfl, rfl, rfl, rfl, rfl, rfl, rfl,
    rfl, rfl, rfl, rfl, rfl, rfl, rfl, rfl, rfl, rfl, rfl, rfl, rfl, rfl, rfl, rfl, rfl, rfl,
    rfl, rfl, rfl, rfl, rfl, rfl, rfl, rfl, rfl⟩

/-- C9, witness: `rebMalloc_inline` of both branches on the recording host and
its table. -/
theorem table_inlines_agree_with_direct_inlines_witness :
    Ext.rebMalloc_inline (tableOf (recorder Answers.returning)) 1 []
      = (Outcome.ret Ptr.null, [Event.enter, Event.call "RL_rebMalloc" [CVal.size_t 1]]) ∧
    Direct.rebMalloc_inline (recorder Answers.returning) 1 []
      = (Outcome.ret Ptr.null, [Event.enter, Event.call "RL_rebMalloc" [CVal.size_t 1]]) :=
  ⟨rfl, (table_inlines_agree_with_direct_inlines DeadEnd.empty (recorder Answers.returning)
    (tableOf (recorder Answers.returning)) Actuals.sample Answers.returning rfl).1 ▸ rfl⟩

/-- C10: `RL_LIB` has 61 fields and rebol.h 61 `RL_` prototypes, and the list
of prototypes is the list of fields with `RL_` put before each name: at every
position the prototype names the field's operation and has the same return
type and the same parameters in the same order.  The first field is
`rebEnterApi_internal`. -/
theorem table_fields_match_prototypes :
    RL_LIB_fields.length = 61 ∧ RL_prototypes.length = 61 ∧
    RL_prototypes = RL_LIB_fields.map (fun f => Decl.mk f.ret ("RL_" ++ f.name) f.params) ∧
    (∀ i, i < 61 →
      (RL_LIB_fields[i]?).isSome = true ∧
      (RL_prototypes[i]?).map Decl.name = (RL_LIB_fields[i]?).map (fun f => "RL_" ++ f.name) ∧
      (RL_prototypes[i]?).map Decl.ret = (RL_LIB_fields[i]?).map Decl.ret ∧
      (RL_prototypes[i]?).map (fun p => p.params.map Prod.fst)
        = (RL_LIB_fields[i]?).map (fun f => f.params.map Prod.fst)) ∧
    RL_LIB_fields.head?.map Decl.name = some "rebEnterApi_internal" := by
  refine ⟨rfl, rfl, by decide, by decide, rfl⟩

theorem bind_call_then_DEAD_END {σ : Type} (d : DeadEnd) (enter call : Api σ Unit) (s : σ)
    (hcall : ∀ s1, (call s1).1 ≠ Outcome.ret ()) :
    (do enter; call; DEAD_END d : Api σ Unit) s = Api.bind enter (fun _ => call) s ∧
    ((do enter; call; DEAD_END d : Api σ Unit) s).1 ≠ Outcome.ret () := by
  show Api.bind enter (fun _ => Api.bind call (fun _ => DEAD_END d)) s
      = Api.bind enter (fun _ => call) s ∧
    (Api.bind enter (fun _ => Api.bind call (fun _ => DEAD_END d)) s).1 ≠ Outcome.ret ()
  unfold Api.bind
  rcases he : enter s with ⟨oe, s1⟩
  cases oe with
  | ret u =>
    have hc := hcall s1
    rcases hcs : call s1 with ⟨oc, s2⟩
    rw [hcs] at hc
    cases oc with
    | ret v => exact absurd rfl hc
    | jump e => simp [hcs]
    | undefined => simp [hcs]
    | hang => simp [hcs]
  | jump e => simp
  | undefined => simp
  | hang => simp

theorem readArgs_single (mem : Memory) (p : Ptr) (h : isEND mem p = false) :
    readArgs mem p (va_start [rebEND]) = some [p] := by
  simp [readArgs, va_start, readFrom, h, isEND_rebEND]

theorem toIntptr_of_fits (w : Nat) (i : Int) (hw : 0 < w)
    (hfit : -(2 : Int) ^ (w - 1) ≤ i ∧ i < 2 ^ (w - 1)) : toIntptr w i = i := by
  unfold toIntptr
  have hpow : (2 : Int) ^ w = 2 * 2 ^ (w - 1) := by
    obtain ⟨k, rfl⟩ : ∃ k, w = k + 1 := ⟨w - 1, by omega⟩
    simp [pow_succ, mul_comm]
  rw [hpow, Int.emod_eq_of_lt (by omega) (by omega)]
  omega

theorem toIntptr_range (w : Nat) (i : Int) (hw : 0 < w) :
    -(2 : Int) ^ (w - 1) ≤ toIntptr w i ∧ toIntptr w i < 2 ^ (w - 1) := by
  unfold toIntptr
  have hpow : (2 : Int) ^ w = 2 * 2 ^ (w - 1) := by
    obtain ⟨k, rfl⟩ : ∃ k, w = k + 1 := ⟨w - 1, by omega⟩
    simp [pow_succ, mul_comm]
  have hpos : (0 : Int) < 2 ^ (w - 1) := by positivity
  rw [hpow]
  have h1 := Int.emod_nonneg (i + 2 ^ (w - 1)) (by omega : (2 : Int) * 2 ^ (w - 1) ≠ 0)
  have h2 := Int.emod_lt_of_pos (i + 2 ^ (w - 1)) (by omega : (0 : Int) < 2 * 2 ^ (w - 1))
  omega

theorem toIntptr_ne_of_not_fits (w : Nat) (i : Int) (hw : 0 < w)
    (hfit : ¬ (-(2 : Int) ^ (w - 1) ≤ i ∧ i < 2 ^ (w - 1))) : toIntptr w i ≠ i := by
  intro heq
  have hr := toIntptr_range w i hw
  rw [heq] at hr
  exact hfit hr

theorem integerRoundTrip_spec (w : Nat) (mem : Memory) (code : Ptr → Option (REBDNG Runtime))
    (base : Host Runtime) (i : Int) (s : Runtime)
    (hmem : isEND mem (Ptr.obj s.next) = false) :
    (integerRoundTrip (specHost w mem code base) i s).1 = Outcome.ret (toIntptr w i) := by
  have hr := readArgs_single mem (Ptr.obj s.next) hmem
  simp [integerRoundTrip, Valist.rebInteger, Valist.rebUnboxInteger, specHost, bind, Api.bind,
    specEnterApi, specInteger, allocate, specUnboxInteger, hr, specUnboxInteger0,
    Runtime.cell, Runtime.set]

theorem integerRoundTrip0_spec (w : Nat) (mem : Memory) (code : Ptr → Option (REBDNG Runtime))
    (base : Host Runtime) (i : Int) (s : Runtime) :
    (integerRoundTrip0 (specHost w mem code base) i s).1 = Outcome.ret (toIntptr w i) := by
  simp [integerRoundTrip0, Valist.rebInteger, Valist.rebUnboxInteger0, specHost, bind, Api.bind,
    specEnterApi, specInteger, allocate, specUnboxInteger0, Runtime.cell, Runtime.set]

theorem cell_is_of_object (s : Runtime) (h : Ptr) (c : Cell) (hc : s.cell h = some c) :
    ∃ id, h = Ptr.obj id ∧ s.cells id = some c := by
  cases h with
  | null => simp [Runtime.cell] at hc
  | strLit chars => simp [Runtime.cell] at hc
  | obj id => exact ⟨id, rfl, hc⟩

theorem rebQ_step (w : Nat) (mem : Memory) (code : Ptr → Option (REBDNG Runtime))
    (base : Host Runtime) (hmem : ∀ id, isEND mem (Ptr.obj id) = false)
    (s : Runtime) (h : Ptr) (c : Cell) (hc : s.cell h = some c) :
    ∃ h1 s1, rebQ (specHost w mem code base) h s = (Outcome.ret h1, s1) ∧
      s1.cell h1 = some ⟨c.datum, c.quotes + 1, Ownership.scopeBound⟩ := by
  obtain ⟨id, rfl, hid⟩ := cell_is_of_object s h c hc
  have hr := readArgs_single mem (Ptr.obj id) (hmem id)
  refine ⟨Ptr.obj s.next,
    (allocate ⟨c.datum, c.quotes + 1, Ownership.scopeBound⟩ (specEnterApi s).2).2, ?_, ?_⟩
  · simp [rebQ, Valist.rebQUOTING, specHost, bind, Api.bind, specEnterApi, specQUOTING,
      hr, Runtime.cell, hid, allocate]
  · simp [Runtime.cell, Runtime.set, allocate, specEnterApi]

theorem rebU_step (w : Nat) (mem : Memory) (code : Ptr → Option (REBDNG Runtime))
    (base : Host Runtime) (hmem : ∀ id, isEND mem (Ptr.obj id) = false)
    (s : Runtime) (h : Ptr) (c : Cell) (n : Nat) (hc : s.cell h = some c)
    (hq : c.quotes = n + 1) :
    ∃ h1 s1, rebU (specHost w mem code base) h s = (Outcome.ret h1, s1) ∧
      s1.cell h1 = some ⟨c.datum, n, Ownership.scopeBound⟩ := by
  obtain ⟨id, rfl, hid⟩ := cell_is_of_object s h c hc
  have hr := readArgs_single mem (Ptr.obj id) (hmem id)
  refine ⟨Ptr.obj s.next,
    (allocate ⟨c.datum, n, Ownership.scopeBound⟩ (specEnterApi s).2).2, ?_, ?_⟩
  · simp [rebU, Valist.rebUNQUOTING, specHost, bind, Api.bind, specEnterApi,
      specUNQUOTING, hr, Runtime.cell, hid, hq, allocate]
  · simp [Runtime.cell, Runtime.set, allocate, specEnterApi]

theorem applyTimes_rebQ (w : Nat) (mem : Memory) (code : Ptr → Option (REBDNG Runtime))
    (base : Host Runtime) (hmem : ∀ id, isEND mem (Ptr.obj id) = false) (n : Nat) :
    ∀ (s : Runtime) (h : Ptr) (c : Cell), s.cell h = some c →
      ∃ h1 s1 c1, applyTimes (rebQ (specHost w mem code base)) n h s = (Outcome.ret h1, s1) ∧
        s1.cell h1 = some c1 ∧ c1.datum = c.datum ∧ c1.quotes = c.quotes + n := by
  induction n with
  | zero => intro s h c hc; exact ⟨h, s, c, rfl, hc, rfl, rfl⟩
  | succ n ih =>
    intro s h c hc
    obtain ⟨h1, s1, hstep, hc1⟩ := rebQ_step w mem code base hmem s h c hc
    obtain ⟨h2, s2, c2, hrun, hc2, hd, hq⟩ := ih s1 h1 _ hc1
    refine ⟨h2, s2, c2, ?_, hc2, hd, ?_⟩
    · show Api.bind (rebQ (specHost w mem code base) h) _ s = _
      unfold Api.bind
      rw [hstep]
      exact hrun
    · rw [hq]
      show c.quotes + 1 + n = c.quotes + (n + 1)
      omega

theorem applyTimes_rebU (w : Nat) (mem : Memory) (code : Ptr → Option (REBDNG Runtime))
    (base : Host Runtime) (hmem : ∀ id, isEND mem (Ptr.obj id) = false) (n : Nat) :
    ∀ (s : Runtime) (h : Ptr) (c : Cell) (k : Nat), s.cell h = some c → c.quotes = k + n →
      ∃ h1 s1 c1, applyTimes (rebU (specHost w mem code base)) n h s = (Outcome.ret h1, s1) ∧
        s1.cell h1 = some c1 ∧ c1.datum = c.datum ∧ c1.quotes = k := by
  induction n with
  | zero => intro s h c k hc hq; exact ⟨h, s, c, rfl, hc, rfl, hq⟩
  | succ n ih =>
    intro s h c k hc hq
    obtain ⟨h1, s1, hstep, hc1⟩ := rebU_step w mem code base hmem s h c (k + n) hc hq
    obtain ⟨h2, s2, c2, hrun, hc2, hd, hq2⟩ := ih s1 h1 _ k hc1 rfl
    refine ⟨h2, s2, c2, ?_, hc2, hd, hq2⟩
    show Api.bind (rebU (specHost w mem code base) h) _ s = _
    unfold Api.bind
    rw [hstep]
    exact hrun

/-- C11, counterexample: with an `intptr_t` of 32 bits, `INT64_MAX` given to
`rebInteger` comes back from `rebUnboxInteger` and from `rebUnboxInteger0` as
-1. -/
theorem integer_round_trip_fails_at_width_32 :
    (integerRoundTrip (specHost 32 (fun _ => none) (fun _ => none) Host.unmodelled)
      (2 ^ 63 - 1) Runtime.empty).1 = Outcome.ret (-1) ∧
    (integerRoundTrip0 (specHost 32 (fun _ => none) (fun _ => none) Host.unmodelled)
      (2 ^ 63 - 1) Runtime.empty).1 = Outcome.ret (-1) ∧
    toIntptr 32 (2 ^ 63 - 1) ≠ 2 ^ 63 - 1 := by
  decide

/-- C11, amended: for an `intptr_t` of `w` bits and every `i` from `-2^(w-1)` up
to `2^(w-1)`, which is every `int64_t` when `w` is 64, `rebUnboxInteger` and
`rebUnboxInteger0` return `i` exactly for the handle `rebInteger(i)` returned;
for every other `i` they return `i` reduced to `w` bits, which differs from
`i`.  The table declares `rebInteger` to take an `int64_t` and both unboxing
functions to return an `intptr_t`. -/
theorem integer_round_trip_when_it_fits (w : Nat) (mem : Memory)
    (code : Ptr → Option (REBDNG Runtime)) (base : Host Runtime) (i : int64_t) (s : Runtime)
    (hw : 0 < w) (hfit : -(2 : Int) ^ (w - 1) ≤ i ∧ i < 2 ^ (w - 1))
    (hmem : isEND mem (Ptr.obj s.next) = false) :
    (integerRoundTrip (specHost w mem code base) i s).1 = Outcome.ret i ∧
    (integerRoundTrip0 (specHost w mem code base) i s).1 = Outcome.ret i ∧
    (∀ j : int64_t,
      (integerRoundTrip (specHost w mem code base) j s).1 = Outcome.ret (toIntptr w j) ∧
      (integerRoundTrip0 (specHost w mem code base) j s).1 = Outcome.ret (toIntptr w j)) ∧
    (∀ j : int64_t, ¬ (-(2 : Int) ^ (w - 1) ≤ j ∧ j < 2 ^ (w - 1)) →
      toIntptr w j ≠ j ∧
      (integerRoundTrip (specHost w mem code base) j s).1 ≠ Outcome.ret j ∧
      (integerRoundTrip0 (specHost w mem code base) j s).1 ≠ Outcome.ret j) ∧
    (w = 64 → ∀ j : int64_t, -(2 : Int) ^ 63 ≤ j → j < 2 ^ 63 →
      (integerRoundTrip (specHost w mem code base) j s).1 = Outcome.ret j ∧
      (integerRoundTrip0 (specHost w mem code base) j s).1 = Outcome.ret j) ∧
    (RL_LIB_fields.find? (fun f => f.name = "rebInteger")).map Decl.params
      = some [("int64_t", "i")] ∧
    (RL_LIB_fields.find? (fun f => f.name = "rebUnboxInteger")).map Decl.ret
      = some "intptr_t" ∧
    (RL_LIB_fields.find? (fun f => f.name = "rebUnboxInteger0")).map Decl.ret
      = some "intptr_t" := by
  have hi := toIntptr_of_fits w i hw hfit
  refine ⟨?_, ?_, fun j => ⟨integerRoundTrip_spec w mem code base j s hmem,
    integerRoundTrip0_spec w mem code base j s⟩, ?_, ?_, by decide, by decide, by decide⟩
  · rw [integerRoundTrip_spec w mem code base i s hmem, hi]
  · rw [integerRoundTrip0_spec w mem code base i s, hi]
  · intro j hj
    have hne := toIntptr_ne_of_not_fits w j hw hj
    refine ⟨hne, ?_, ?_⟩
    · rw [integerRoundTrip_spec w mem code base j s hmem]
      exact fun h => hne (Outcome.ret.inj h)
    · rw [integerRoundTrip0_spec w mem code base j s]
      exact fun h => hne (Outcome.ret.inj h)
  · intro hw64 j hlo hhi
    subst hw64
    have hj := toIntptr_of_fits 64 j (by decide) ⟨hlo, hhi⟩
    refine ⟨?_, ?_⟩
    · rw [integerRoundTrip_spec 64 mem code base j s hmem, hj]
    · rw [integerRoundTrip0_spec 64 mem code base j s, hj]

/-- C11, witness: `INT64_MIN` and `INT64_MAX` with an `intptr_t` of 64 bits, and
`INT64_MAX` with an `intptr_t` of 32 bits, which does not come back. -/
theorem integer_round_trip_when_it_fits_witness :
    (integerRoundTrip (specHost 64 (fun _ => none) (fun _ => none) Host.unmodelled)
      (-2 ^ 63) Runtime.empty).1 = Outcome.ret (-2 ^ 63) ∧
    (integerRoundTrip (specHost 64 (fun _ => none) (fun _ => none) Host.unmodelled)
      (2 ^ 63 - 1) Runtime.empty).1 = Outcome.ret (2 ^ 63 - 1) ∧
    (integerRoundTrip (specHost 32 (fun _ => none) (fun _ => none) Host.unmodelled)
      (2 ^ 63 - 1) Runtime.empty).1 ≠ Outcome.ret (2 ^ 63 - 1) :=
  ⟨(integer_round_trip_when_it_fits 64 (fun _ => none) (fun _ => none) Host.unmodelled
      (-2 ^ 63) Runtime.empty (by decide) (by decide) rfl).1,
   (integer_round_trip_when_it_fits 64 (fun _ => none) (fun _ => none) Host.unmodelled
      (2 ^ 63 - 1) Runtime.empty (by decide) (by decide) rfl).1,
   ((integer_round_trip_when_it_fits 32 (fun _ => none) (fun _ => none) Host.unmodelled
      0 Runtime.empty (by decide) (by decide) rfl).2.2.2.1 (2 ^ 63 - 1) (by decide)).2.1⟩

/-- C12: `rebRescue(dangerous, opaque)` invokes `dangerous(opaque)`, in the
state the runtime is in after the API was entered; when the callback returns
normally, its result `v`, a handle or null, is returned unchanged by
`rebRescue`, and the state is as the callback left it.  The shim itself, for
every host, enters the API and returns what `RL_rebRescue` returns for the
same `dangerous` and `opaque`. -/
theorem rebRescue_returns_callback_result (w : Nat) (mem : Memory)
    (code : Ptr → Option (REBDNG Runtime)) (base : Host Runtime)
    (dangerous opaq : Ptr) (callback : REBDNG Runtime) (s s1 : Runtime) (v : Ptr)
    (hcode : code dangerous = some callback)
    (hret : callback opaq (specEnterApi s).2 = (Outcome.ret v, s1)) :
    Valist.rebRescue (specHost w mem code base) dangerous opaq s = (Outcome.ret v, s1) ∧
    (∀ (σ : Type) (H : Host σ) (t : σ),
      Valist.rebRescue H dangerous opaq t
        = Api.bind H.RL_rebEnterApi_internal (fun _ => H.RL_rebRescue dangerous opaq) t) := by
  refine ⟨?_, fun σ H t => rfl⟩
  have hrun : Valist.rebRescue (specHost w mem code base) dangerous opaq s
      = specRescue code dangerous opaq (specEnterApi s).2 := rfl
  rw [hrun]
  unfold specRescue
  rw [hcode]
  simp only [hret]

/-- C12, witness: a callback that makes the integer 42 and returns its handle,
a callback that returns null, and a callback that makes an error value and
returns its handle normally; `rebRescue` returns each result as it is. -/
theorem rebRescue_returns_callback_result_witness :
    ((callbackReturningInteger (Ptr.obj 7) (specEnterApi Runtime.empty).2).1
      = Outcome.ret (Ptr.obj 0) ∧
     (Valist.rebRescue
      (specHost 64 (fun _ => none) (fun _ => some callbackReturningInteger) Host.unmodelled)
      (Ptr.obj 100) (Ptr.obj 7) Runtime.empty).1 = Outcome.ret (Ptr.obj 0)) ∧
    ((callbackReturningNull (Ptr.obj 7) (specEnterApi Runtime.empty).2).1
      = Outcome.ret Ptr.null ∧
     (Valist.rebRescue
      (specHost 64 (fun _ => none) (fun _ => some callbackReturningNull) Host.unmodelled)
      (Ptr.obj 100) (Ptr.obj 7) Runtime.empty).1 = Outcome.ret Ptr.null) ∧
    ((callbackReturningError (Ptr.obj 7) (specEnterApi Runtime.empty).2).1
      = Outcome.ret (Ptr.obj 0) ∧
     (Valist.rebRescue
      (specHost 64 (fun _ => none) (fun _ => some callbackReturningError) Host.unmodelled)
      (Ptr.obj 100) (Ptr.obj 7) Runtime.empty).1 = Outcome.ret (Ptr.obj 0)) :=
  ⟨⟨rfl, congrArg Prod.fst
    (rebRescue_returns_callback_result 64 (fun _ => none)
      (fun _ => some callbackReturningInteger) Host.unmodelled (Ptr.obj 100) (Ptr.obj 7)
      callbackReturningInteger Runtime.empty _ (Ptr.obj 0) rfl rfl).1⟩,
   ⟨rfl, congrArg Prod.fst
    (rebRescue_returns_callback_result 64 (fun _ => none)
      (fun _ => some callbackReturningNull) Host.unmodelled (Ptr.obj 100) (Ptr.obj 7)
      callbackReturningNull Runtime.empty _ Ptr.null rfl rfl).1⟩,
   ⟨rfl, congrArg Prod.fst
    (rebRescue_returns_callback_result 64 (fun _ => none)
      (fun _ => some callbackReturningError) Host.unmodelled (Ptr.obj 100) (Ptr.obj 7)
      callbackReturningError Runtime.empty _ (Ptr.obj 0) rfl rfl).1⟩⟩

/-- C13: `rebRescue` passes `dangerous` and `opaque`, and `rebRescueWith` passes
`dangerous`, `rescuer` and `opaque`, to the backend exactly as the caller
supplied them and in that order, after `RL_rebEnterApi_internal`.  For every
host the shim, and each inline form, is nothing but that sequence of two
calls: it has no state of its own, so whatever reaches the callbacks is what
the backend was handed. -/
theorem rescue_shims_thread_arguments_unchanged {σ : Type} (H : Host σ) (ans : Answers)
    (dangerous rescuer opaq : Ptr) :
    Valist.rebRescue H dangerous opaq
      = Api.bind H.RL_rebEnterApi_internal (fun _ => H.RL_rebRescue dangerous opaq) ∧
    Valist.rebRescueWith H dangerous rescuer opaq
      = Api.bind H.RL_rebEnterApi_internal
          (fun _ => H.RL_rebRescueWith dangerous rescuer opaq) ∧
    Direct.rebRescue_inline H dangerous opaq = Valist.rebRescue H dangerous opaq ∧
    Direct.rebRescueWith_inline H dangerous rescuer opaq
      = Valist.rebRescueWith H dangerous rescuer opaq ∧
    Ext.rebRescue_inline (tableOf H) dangerous opaq = Valist.rebRescue H dangerous opaq ∧
    Ext.rebRescueWith_inline (tableOf H) dangerous rescuer opaq
      = Valist.rebRescueWith H dangerous rescuer opaq ∧
    observe (Valist.rebRescue (recorder ans) dangerous opaq)
      = (ans.ptr (Event.call "RL_rebRescue" [CVal.ptr dangerous, CVal.ptr opaq]),
         [Event.enter, Event.call "RL_rebRescue" [CVal.ptr dangerous, CVal.ptr opaq]]) ∧
    observe (Valist.rebRescueWith (recorder ans) dangerous rescuer opaq)
      = (ans.ptr (Event.call "RL_rebRescueWith"
            [CVal.ptr dangerous, CVal.ptr rescuer, CVal.ptr opaq]),
         [Event.enter, Event.call "RL_rebRescueWith"
            [CVal.ptr dangerous, CVal.ptr rescuer, CVal.ptr opaq]]) :=
  ⟨rfl, rfl, rfl, rfl, rfl, rfl, rfl, rfl⟩

/-- C15: for every live Scope-Bound handle `h`, the calls `rebManage(h)`,
`rebUnmanage` of its result and `rebRelease(h)`, in this order, all return,
and afterwards `h` is destroyed and every other handle is as it was.
`rebUnmanage` is declared to return `void`, so the sequence is these three
calls and `rebRelease` is given `h` itself. -/
theorem manage_unmanage_release_destroys (w : Nat) (mem : Memory)
    (code : Ptr → Option (REBDNG Runtime)) (base : Host Runtime)
    (s : Runtime) (id : Nat) (c : Cell)
    (hc : s.cells id = some c) (hown : c.owner = Ownership.scopeBound) :
    (manageUnmanageRelease (specHost w mem code base) (Ptr.obj id) s).1 = Outcome.ret () ∧
    (manageUnmanageRelease (specHost w mem code base) (Ptr.obj id) s).2.cells id = none ∧
    (∀ j, j ≠ id →
      (manageUnmanageRelease (specHost w mem code base) (Ptr.obj id) s).2.cells j
        = s.cells j) ∧
    (Valist.definitions.find? (fun f => f.name = "rebUnmanage")).map Definition.ret
      = some "void" := by
  have hrun : manageUnmanageRelease (specHost w mem code base) (Ptr.obj id) s
      = (Outcome.ret (),
         { cells := fun j => if j = id then none else s.cells j,
           next := s.next, enters := s.enters + 3 }) := by
    simp [manageUnmanageRelease, Valist.rebManage, Valist.rebUnmanage, Valist.rebRelease,
      specHost, bind, Api.bind, specEnterApi, specManage, specUnmanage, specRelease,
      Runtime.set, hc, hown]
    funext j
    by_cases hj : j = id <;> simp [hj]
  rw [hrun]
  refine ⟨rfl, by simp, fun j hj => by simp [hj], by decide⟩

/-- C15, witness: a new integer handle is managed, unmanaged and released. -/
theorem manage_unmanage_release_destroys_witness :
    (manageUnmanageRelease (specHost 64 (fun _ => none) (fun _ => none) Host.unmodelled)
      (Ptr.obj 0) (specInteger 5 Runtime.empty).2).1 = Outcome.ret () ∧
    (manageUnmanageRelease (specHost 64 (fun _ => none) (fun _ => none) Host.unmodelled)
      (Ptr.obj 0) (specInteger 5 Runtime.empty).2).2.cells 0 = none :=
  ⟨(manage_unmanage_release_destroys 64 (fun _ => none) (fun _ => none) Host.unmodelled
      (specInteger 5 Runtime.empty).2 0 ⟨Datum.integer 5, 0, Ownership.scopeBound⟩ rfl rfl).1,
   (manage_unmanage_release_destroys 64 (fun _ => none) (fun _ => none) Host.unmodelled
      (specInteger 5 Runtime.empty).2 0 ⟨Datum.integer 5, 0, Ownership.scopeBound⟩
      rfl rfl).2.1⟩

/-- C16: the definitions that carry `ATTRIBUTE_NO_RETURN` are `rebJumps`,
`rebJumpsQ` and `rebFail_OS` in valist.c and their `_inline` forms in both
branches of rebol.h.  When `RL_rebJumps` and `RL_rebFail_OS` never return
normally, each of the nine is the same as it would be without its `DEAD_END`
statement, whichever definition `DEAD_END` has, so the point after the backend
call is never reached, and none of them returns normally, for any arguments
and from any state. -/
theorem jump_family_never_returns {σ : Type} (d : DeadEnd) (H : Host σ)
    (p : Ptr) (rest : List Ptr) (errnum : int) (s : σ)
    (hJumps : ∀ quotes q va s1, (H.RL_rebJumps quotes q va s1).1 ≠ Outcome.ret ())
    (hFail : ∀ e s1, (H.RL_rebFail_OS e s1).1 ≠ Outcome.ret ()) :
    (Valist.definitions.filter Definition.noReturn).map Definition.name
      = ["rebJumps", "rebJumpsQ", "rebFail_OS"] ∧
    (Ext.definitions.filter Definition.noReturn).map Definition.name
      = ["rebJumps_inline", "rebJumpsQ_inline", "rebFail_OS_inline"] ∧
    (Direct.definitions.filter Definition.noReturn).map Definition.name
      = ["rebJumps_inline", "rebJumpsQ_inline", "rebFail_OS_inline"] ∧
    Valist.rebJumps d H p rest s
      = Api.bind H.RL_rebEnterApi_internal (fun _ => H.RL_rebJumps 0 p (va_start rest)) s ∧
    Valist.rebJumpsQ d H p rest s
      = Api.bind H.RL_rebEnterApi_internal (fun _ => H.RL_rebJumps 1 p (va_start rest)) s ∧
    Valist.rebFail_OS d H errnum s
      = Api.bind H.RL_rebEnterApi_internal (fun _ => H.RL_rebFail_OS errnum) s ∧
    (Valist.rebJumps d H p rest s).1 ≠ Outcome.ret () ∧
    (Valist.rebJumpsQ d H p rest s).1 ≠ Outcome.ret () ∧
    (Valist.rebFail_OS d H errnum s).1 ≠ Outcome.ret () ∧
    Direct.rebJumps_inline d H p rest s = Valist.rebJumps d H p rest s ∧
    Direct.rebJumpsQ_inline d H p rest s = Valist.rebJumpsQ d H p rest s ∧
    Direct.rebFail_OS_inline d H errnum s = Valist.rebFail_OS d H errnum s ∧
    Ext.rebJumps_inline d (tableOf H) p rest s = Valist.rebJumps d H p rest s ∧
    Ext.rebJumpsQ_inline d (tableOf H) p rest s = Valist.rebJumpsQ d H p rest s ∧
    Ext.rebFail_OS_inline d (tableOf H) errnum s = Valist.rebFail_OS d H errnum s := by
  have hJ0 := bind_call_then_DEAD_END d H.RL_rebEnterApi_internal
    (H.RL_rebJumps 0 p (va_start rest)) s (hJumps 0 p (va_start rest))
  have hJ1 := bind_call_then_DEAD_END d H.RL_rebEnterApi_internal
    (H.RL_rebJumps 1 p (va_start rest)) s (hJumps 1 p (va_start rest))
  have hF := bind_call_then_DEAD_END d H.RL_rebEnterApi_internal
    (H.RL_rebFail_OS errnum) s (hFail errnum)
  refine ⟨by decide, by decide, by decide, hJ0.1, hJ1.1, hF.1, hJ0.2, hJ1.2, hF.2,
    rfl, rfl, rfl, rfl, rfl, rfl⟩

/-- C16, witness: a recording host whose every call ends in a jump, and
`rebJumps` with `DEAD_END` defined as `__builtin_unreachable()`. -/
theorem jump_family_never_returns_witness :
    (Valist.rebJumps DeadEnd.builtin_unreachable (recorder Answers.jumping) (Ptr.obj 1)
        [rebEND] []).1 = Outcome.jump Ptr.null ∧
    (Valist.rebJumps DeadEnd.builtin_unreachable (recorder Answers.jumping) (Ptr.obj 1)
        [rebEND] []).1 ≠ Outcome.ret () :=
  ⟨rfl,
   (jump_family_never_returns DeadEnd.builtin_unreachable (recorder Answers.jumping)
      (Ptr.obj 1) [rebEND] 0 []
      (fun _ _ _ _ => by simp [recorder, answered, Answers.jumping])
      (fun _ _ => by simp [recorder, answered, Answers.jumping])).2.2.2.2.2.2.1⟩

/-- C17: for every live handle `h` and every `n`, quoting `h` `n` times with
`rebQ` and then unquoting the result `n` times with `rebU` returns a handle
of a value with the datum and the quote level of the value of `h`; for `n`
zero nothing is called and `h` itself comes back. -/
theorem quote_then_unquote_round_trip (w : Nat) (mem : Memory)
    (code : Ptr → Option (REBDNG Runtime)) (base : Host Runtime)
    (n : Nat) (h : Ptr) (s : Runtime) (c : Cell)
    (hmem : ∀ id, isEND mem (Ptr.obj id) = false) (hc : s.cell h = some c) :
    (∃ h1 s1 c1,
      quoteThenUnquote (specHost w mem code base) n h s = (Outcome.ret h1, s1) ∧
      s1.cell h1 = some c1 ∧ c1.datum = c.datum ∧ c1.quotes = c.quotes) ∧
    quoteThenUnquote (specHost w mem code base) 0 h s = (Outcome.ret h, s) := by
  refine ⟨?_, rfl⟩
  obtain ⟨q, s1, c1, hq, hc1, hd1, hq1⟩ := applyTimes_rebQ w mem code base hmem n s h c hc
  obtain ⟨u, s2, c2, hu, hc2, hd2, hq2⟩ :=
    applyTimes_rebU w mem code base hmem n s1 q c1 c.quotes hc1 hq1
  refine ⟨u, s2, c2, ?_, hc2, hd2.trans hd1, hq2⟩
  show Api.bind (applyTimes (rebQ (specHost w mem code base)) n h) _ s = _
  unfold Api.bind
  rw [hq]
  exact hu

/-- C17, witness: a value of quote level 2, quoted and unquoted three times. -/
theorem quote_then_unquote_round_trip_witness :
    (quoteThenUnquote (specHost 64 (fun _ => none) (fun _ => none) Host.unmodelled) 3
      (Ptr.obj 0) (allocate ⟨Datum.other 1, 2, Ownership.scopeBound⟩ Runtime.empty).2).1
      = Outcome.ret (Ptr.obj 6) ∧
    ∃ h1 s1 c1,
      quoteThenUnquote (specHost 64 (fun _ => none) (fun _ => none) Host.unmodelled) 3
        (Ptr.obj 0) (allocate ⟨Datum.other 1, 2, Ownership.scopeBound⟩ Runtime.empty).2
        = (Outcome.ret h1, s1) ∧
      s1.cell h1 = some c1 ∧ c1.datum = Datum.other 1 ∧ c1.quotes = 2 :=
  ⟨by decide,
   (quote_then_unquote_round_trip 64 (fun _ => none) (fun _ => none) Host.unmodelled 3
      (Ptr.obj 0) (allocate ⟨Datum.other 1, 2, Ownership.scopeBound⟩ Runtime.empty).2
      ⟨Datum.other 1, 2, Ownership.scopeBound⟩ (fun _ => rfl) rfl).1⟩

/-- C18: `rebR` is an alias of `rebRELEASING`, and `rebT(s)`, `rebI(i)` and
`rebL(b)` expand to `rebRELEASING(rebText(s))`, `rebRELEASING(rebInteger(i))`
and `rebRELEASING(rebLogic(b))`.  Each of these expressions, when its
constructor returns the handle `v`, makes the one constructor call and then
the one call `RL_rebRELEASING(v)`, each after `RL_rebEnterApi_internal`, and
ends the way `RL_rebRELEASING` ended, with its result; it is the same over
the inline functions the accessor macros put in place of the shims. -/
theorem releasing_shorthands_construct_then_tag (ans : Answers) (arg : List String)
    (utf8 : Ptr) (int64 : int64_t) (flag : Bool) (vT vI vL : Ptr)
    (hT : ans.ptr (Event.call "RL_rebText" [CVal.ptr utf8]) = Outcome.ret vT)
    (hI : ans.ptr (Event.call "RL_rebInteger" [CVal.int64_t int64]) = Outcome.ret vI)
    (hL : ans.ptr (Event.call "RL_rebLogic" [CVal.bool flag]) = Outcome.ret vL) :
    aliasOf shorthands "rebR" = ["rebRELEASING"] ∧
    (shorthands.find? (fun m => m.name = "rebT")).map (fun m => m.expand shorthands arg)
      = some (["rebRELEASING", "(", "rebText", "("] ++ arg.flatMap (aliasOf shorthands)
          ++ [")", ")"]) ∧
    (shorthands.find? (fun m => m.name = "rebI")).map (fun m => m.expand shorthands arg)
      = some (["rebRELEASING", "(", "rebInteger", "("] ++ arg.flatMap (aliasOf shorthands)
          ++ [")", ")"]) ∧
    (shorthands.find? (fun m => m.name = "rebL")).map (fun m => m.expand shorthands arg)
      = some (["rebRELEASING", "(", "rebLogic", "("] ++ arg.flatMap (aliasOf shorthands)
          ++ [")", ")"]) ∧
    observe (rebT (recorder ans) utf8)
      = (ans.ptr (Event.call "RL_rebRELEASING" [CVal.ptr vT]),
         [Event.enter, Event.call "RL_rebText" [CVal.ptr utf8],
          Event.enter, Event.call "RL_rebRELEASING" [CVal.ptr vT]]) ∧
    observe (rebI (recorder ans) int64)
      = (ans.ptr (Event.call "RL_rebRELEASING" [CVal.ptr vI]),
         [Event.enter, Event.call "RL_rebInteger" [CVal.int64_t int64],
          Event.enter, Event.call "RL_rebRELEASING" [CVal.ptr vI]]) ∧
    observe (rebL (recorder ans) flag)
      = (ans.ptr (Event.call "RL_rebRELEASING" [CVal.ptr vL]),
         [Event.enter, Event.call "RL_rebLogic" [CVal.bool flag],
          Event.enter, Event.call "RL_rebRELEASING" [CVal.ptr vL]]) ∧
    (∀ (σ : Type) (H : Host σ),
      rebT H utf8 = Api.bind (Direct.rebText_inline H utf8) (Direct.rebRELEASING_inline H) ∧
      rebI H int64
        = Api.bind (Direct.rebInteger_inline H int64) (Direct.rebRELEASING_inline H) ∧
      rebL H flag = Api.bind (Direct.rebLogic_inline H flag) (Direct.rebRELEASING_inline H)) := by
  have halias : ∀ t : String, t = "(" ∨ t = ")" ∨ t = "rebText" ∨ t = "rebInteger" ∨
      t = "rebLogic" → aliasOf shorthands t = [t] := by
    intro t ht
    rcases ht with rfl | rfl | rfl | rfl | rfl <;> decide
  have hR : aliasOf shorthands "rebR" = ["rebRELEASING"] := by decide
  have hfT : shorthands.find? (fun m => m.name = "rebT")
      = some (Shorthand.mk "rebT" (some ["utf8"])
          ["rebR", "(", "rebText", "(", "utf8", ")", ")"]) := by decide
  have hfI : shorthands.find? (fun m => m.name = "rebI")
      = some (Shorthand.mk "rebI" (some ["int64"])
          ["rebR", "(", "rebInteger", "(", "int64", ")", ")"]) := by decide
  have hfL : shorthands.find? (fun m => m.name = "rebL")
      = some (Shorthand.mk "rebL" (some ["flag"])
          ["rebR", "(", "rebLogic", "(", "flag", ")", ")"]) := by decide
  refine ⟨hR, ?_, ?_, ?_, ?_, ?_, ?_, fun _ _ => ⟨rfl, rfl, rfl⟩⟩
  · rw [hfT]
    simp [Shorthand.expand, List.flatMap_append, hR, halias]
  · rw [hfI]
    simp [Shorthand.expand, List.flatMap_append, hR, halias]
  · rw [hfL]
    simp [Shorthand.expand, List.flatMap_append, hR, halias]
  · simp [observe, rebT, Valist.rebText, Valist.rebRELEASING, recorder, bind, Api.bind,
      entered, answered, hT]
  · simp [observe, rebI, Valist.rebInteger, Valist.rebRELEASING, recorder, bind, Api.bind,
      entered, answered, hI]
  · simp [observe, rebL, Valist.rebLogic, Valist.rebRELEASING, recorder, bind, Api.bind,
      entered, answered, hL]

/-- C18, witness: `rebT(s)` against a host whose constructors return null. -/
theorem releasing_shorthands_construct_then_tag_witness :
    (shorthands.find? (fun m => m.name = "rebT")).map (fun m => m.expand shorthands ["s"])
      = some ["rebRELEASING", "(", "rebText", "(", "s", ")", ")"] ∧
    observe (rebT (recorder Answers.returning) (Ptr.strLit [0x31]))
      = (Outcome.ret Ptr.null,
         [Event.enter, Event.call "RL_rebText" [CVal.ptr (Ptr.strLit [0x31])],
          Event.enter, Event.call "RL_rebRELEASING" [CVal.ptr Ptr.null]]) :=
  ⟨(releasing_shorthands_construct_then_tag Answers.returning ["s"] (Ptr.strLit [0x31]) 1 true
      Ptr.null Ptr.null Ptr.null rfl rfl rfl).2.1,
   (releasing_shorthands_construct_then_tag Answers.returning ["s"] (Ptr.strLit [0x31]) 1 true
      Ptr.null Ptr.null Ptr.null rfl rfl rfl).2.2.2.2.1⟩

/-- C19: every shim of valist.c other than `rebStartup`, and every inline
function of either branch of rebol.h other than `rebStartup_inline`, calls
`RL_rebEnterApi_internal` exactly once, first, and then makes its single
backend call; `rebStartup` and `rebStartup_inline` call `RL_rebStartup` and
never `RL_rebEnterApi_internal`. -/
theorem enters_exactly_once_first_except_rebStartup (d : DeadEnd) (ans : Answers)
    (x : Actuals) (o : Observed)
    (ho : o ∈ Valist.logs d ans x ++ Ext.logs d ans x ++ Direct.logs d ans x) :
    (o.name ∈ ["rebStartup", "rebStartup_inline"] ∧
      o.log = [Event.call "RL_rebStartup" []] ∧ o.log.count Event.enter = 0) ∨
    (o.name ∉ ["rebStartup", "rebStartup_inline"] ∧
      o.log.count Event.enter = 1 ∧ o.log.head? = some Event.enter ∧
      ∃ fn args, backendCalls o.log = [Event.call fn args] ∧
        o.log = [Event.enter, Event.call fn args]) := by
  simp only [Valist.logs, Ext.logs, Direct.logs, logOf,
    observe_Valist_rebJumps, observe_Valist_rebJumpsQ, observe_Valist_rebFail_OS,
    observe_Ext_rebJumps_inline, observe_Ext_rebJumpsQ_inline, observe_Ext_rebFail_OS_inline,
    observe_Direct_rebJumps_inline, observe_Direct_rebJumpsQ_inline, observe_Direct_rebFail_OS_inline,
    List.mem_append, List.mem_cons, List.mem_singleton, List.not_mem_nil, or_false] at ho
  rcases ho with (ho | ho) | ho
  · rcases ho with
      rfl | rfl | rfl | rfl | rfl | rfl | rfl | rfl | rfl | rfl | rfl | rfl | rfl | rfl | rfl | rfl | rfl | rfl | rfl | rfl
      | rfl | rfl | rfl | rfl | rfl | rfl | rfl | rfl | rfl | rfl | rfl | rfl | rfl | rfl | rfl | rfl | rfl | rfl | rfl | rfl
      | rfl | rfl | rfl | rfl | rfl | rfl | rfl | rfl | rfl | rfl | rfl | rfl | rfl | rfl | rfl | rfl | rfl | rfl | rfl | rfl
      | rfl | rfl | rfl | rfl | rfl | rfl | rfl | rfl | rfl | rfl | rfl | rfl | rfl | rfl | rfl | rfl | rfl | rfl | rfl | rfl
    all_goals first
      | exact Or.inr ⟨by simp, rfl, rfl, _, _, rfl, rfl⟩
      | exact Or.inl ⟨by simp, rfl, rfl⟩
  · rcases ho with
      rfl | rfl | rfl | rfl | rfl | rfl | rfl | rfl | rfl | rfl | rfl | rfl | rfl | rfl | rfl | rfl | rfl | rfl | rfl | rfl
      | rfl | rfl | rfl | rfl | rfl | rfl | rfl | rfl | rfl | rfl | rfl | rfl | rfl | rfl | rfl | rfl | rfl | rfl | rfl | rfl
      | rfl | rfl | rfl | rfl | rfl | rfl | rfl | rfl | rfl | rfl | rfl | rfl | rfl | rfl | rfl | rfl | rfl | rfl | rfl | rfl
      | rfl | rfl | rfl | rfl | rfl | rfl | rfl | rfl | rfl | rfl | rfl | rfl | rfl | rfl | rfl | rfl | rfl | rfl | rfl | rfl
    all_goals first
      | exact Or.inr ⟨by simp, rfl, rfl, _, _, rfl, rfl⟩
      | exact Or.inl ⟨by simp, rfl, rfl⟩
  · rcases ho with
      rfl | rfl | rfl | rfl | rfl | rfl | rfl | rfl | rfl | rfl | rfl | rfl | rfl | rfl | rfl | rfl | rfl | rfl | rfl | rfl
      | rfl | rfl | rfl | rfl | rfl | rfl | rfl | rfl | rfl | rfl | rfl | rfl | rfl | rfl | rfl | rfl | rfl | rfl | rfl | rfl
      | rfl | rfl | rfl | rfl | rfl | rfl | rfl | rfl | rfl | rfl | rfl | rfl | rfl | rfl | rfl | rfl | rfl | rfl | rfl | rfl
      | rfl | rfl | rfl | rfl | rfl | rfl | rfl | rfl | rfl | rfl | rfl | rfl | rfl | rfl | rfl | rfl | rfl | rfl | rfl | rfl
    all_goals first
      | exact Or.inr ⟨by simp, rfl, rfl, _, _, rfl, rfl⟩
      | exact Or.inl ⟨by simp, rfl, rfl⟩

/-- C19, witness: `rebMalloc_inline` of the `REB_EXT` branch, which enters once
and first. -/
theorem enters_exactly_once_first_except_rebStartup_witness :
    (logOf (Ext.rebMalloc_inline (tableOf (recorder Answers.returning)) 1)).count
        Event.enter = 1 ∧
    (logOf (Ext.rebMalloc_inline (tableOf (recorder Answers.returning)) 1)).head?
      = some Event.enter :=
  (enters_exactly_once_first_except_rebStartup DeadEnd.empty Answers.returning Actuals.sample
    (Observed.mk "rebMalloc_inline"
      (logOf (Ext.rebMalloc_inline (tableOf (recorder Answers.returning)) 1)))
    (List.mem_append_left _ (List.mem_append_right _ (List.Mem.head _)))).elim
    (fun h => absurd h.1 (by decide))
    (fun h => ⟨h.2.1, h.2.2.1⟩)

/-- C20: each of the 80 functions `rebX` of valist.c is the same state
transformer as the directly linked `rebX_inline` of rebol.h: for every host,
state and arguments it makes the same calls (`RL_rebEnterApi_internal`, then
`RL_rebX` with the same quote level and arguments) and ends the same way with
the same result.  In particular the recording host logs the same calls for
`rebX` as for `rebX_inline`. -/
theorem shims_agree_with_direct_inlines {σ : Type} (d : DeadEnd) (H : Host σ)
    (x : Actuals) (ans : Answers) :
    Valist.rebMalloc H x.size
      = Direct.rebMalloc_inline H x.size ∧
    Valist.rebRealloc H x.ptr x.new_size
      = Direct.rebRealloc_inline H x.ptr x.new_size ∧
    Valist.rebFree H x.ptr
      = Direct.rebFree_inline H x.ptr ∧
    Valist.rebRepossess H x.ptr x.size
      = Direct.rebRepossess_inline H x.ptr x.size ∧
    Valist.rebStartup H
      = Direct.rebStartup_inline H ∧
    Valist.rebShutdown H x.clean
      = Direct.rebShutdown_inline H x.clean ∧
    Valist.rebTick H
      = Direct.rebTick_inline H ∧
    Valist.rebVoid H
      = Direct.rebVoid_inline H ∧
    Valist.rebBlank H
      = Direct.rebBlank_inline H ∧
    Valist.rebLogic H x.logic
      = Direct.rebLogic_inline H x.logic ∧
    Valist.rebChar H x.codepoint
      = Direct.rebChar_inline H x.codepoint ∧
    Valist.rebInteger H x.i
      = Direct.rebInteger_inline H x.i ∧
    Valist.rebDecimal H x.dec
      = Direct.rebDecimal_inline H x.dec ∧
    Valist.rebSizedBinary H x.bytes x.size
      = Direct.rebSizedBinary_inline H x.bytes x.size ∧
    Valist.rebUninitializedBinary_internal H x.size
      = Direct.rebUninitializedBinary_internal_inline H x.size ∧
    Valist.rebBinaryHead_internal H x.binary
      = Direct.rebBinaryHead_internal_inline H x.binary ∧
    Valist.rebBinaryAt_internal H x.binary
      = Direct.rebBinaryAt_internal_inline H x.binary ∧
    Valist.rebBinarySizeAt_internal H x.binary
      = Direct.rebBinarySizeAt_internal_inline H x.binary ∧
    Valist.rebSizedText H x.utf8 x.size
      = Direct.rebSizedText_inline H x.utf8 x.size ∧
    Valist.rebText H x.utf8
      = Direct.rebText_inline H x.utf8 ∧
    Valist.rebLengthedTextWide H x.wstr x.num_chars
      = Direct.rebLengthedTextWide_inline H x.wstr x.num_chars ∧
    Valist.rebTextWide H x.wstr
      = Direct.rebTextWide_inline H x.wstr ∧
    Valist.rebHandle H x.data x.length x.cleaner
      = Direct.rebHandle_inline H x.data x.length x.cleaner ∧
    Valist.rebArgR H x.p x.rest
      = Direct.rebArgR_inline H x.p x.rest ∧
    Valist.rebArgRQ H x.p x.rest
      = Direct.rebArgRQ_inline H x.p x.rest ∧
    Valist.rebArg H x.p x.rest
      = Direct.rebArg_inline H x.p x.rest ∧
    Valist.rebArgQ H x.p x.rest
      = Direct.rebArgQ_inline H x.p x.rest ∧
    Valist.rebValue H x.p x.rest
      = Direct.rebValue_inline H x.p x.rest ∧
    Valist.rebValueQ H x.p x.rest
      = Direct.rebValueQ_inline H x.p x.rest ∧
    Valist.rebQuote H x.p x.rest
      = Direct.rebQuote_inline H x.p x.rest ∧
    Valist.rebQuoteQ H x.p x.rest
      = Direct.rebQuoteQ_inline H x.p x.rest ∧
    Valist.rebElide H x.p x.rest
      = Direct.rebElide_inline H x.p x.rest ∧
    Valist.rebElideQ H x.p x.rest
      = Direct.rebElideQ_inline H x.p x.rest ∧
    Valist.rebJumps d H x.p x.rest
      = Direct.rebJumps_inline d H x.p x.rest ∧
    Valist.rebJumpsQ d H x.p x.rest
      = Direct.rebJumpsQ_inline d H x.p x.rest ∧
    Valist.rebDid H x.p x.rest
      = Direct.rebDid_inline H x.p x.rest ∧
    Valist.rebDidQ H x.p x.rest
      = Direct.rebDidQ_inline H x.p x.rest ∧
    Valist.rebNot H x.p x.rest
      = Direct.rebNot_inline H x.p x.rest ∧
    Valist.rebNotQ H x.p x.rest
      = Direct.rebNotQ_inline H x.p x.rest ∧
    Valist.rebUnbox H x.p x.rest
      = Direct.rebUnbox_inline H x.p x.rest ∧
    Valist.rebUnboxQ H x.p x.rest
      = Direct.rebUnboxQ_inline H x.p x.rest ∧
    Valist.rebUnbox0 H x.p
      = Direct.rebUnbox0_inline H x.p ∧
    Valist.rebUnboxInteger H x.p x.rest
      = Direct.rebUnboxInteger_inline H x.p x.rest ∧
    Valist.rebUnboxIntegerQ H x.p x.rest
      = Direct.rebUnboxIntegerQ_inline H x.p x.rest ∧
    Valist.rebUnboxInteger0 H x.p
      = Direct.rebUnboxInteger0_inline H x.p ∧
    Valist.rebUnboxDecimal H x.p x.rest
      = Direct.rebUnboxDecimal_inline H x.p x.rest ∧
    Valist.rebUnboxDecimalQ H x.p x.rest
      = Direct.rebUnboxDecimalQ_inline H x.p x.rest ∧
    Valist.rebUnboxChar H x.p x.rest
      = Direct.rebUnboxChar_inline H x.p x.rest ∧
    Valist.rebUnboxCharQ H x.p x.rest
      = Direct.rebUnboxCharQ_inline H x.p x.rest ∧
    Valist.rebSpellInto H x.buf x.buf_size x.p x.rest
      = Direct.rebSpellInto_inline H x.buf x.buf_size x.p x.rest ∧
    Valist.rebSpellIntoQ H x.buf x.buf_size x.p x.rest
      = Direct.rebSpellIntoQ_inline H x.buf x.buf_size x.p x.rest ∧
    Valist.rebSpell H x.p x.rest
      = Direct.rebSpell_inline H x.p x.rest ∧
    Valist.rebSpellQ H x.p x.rest
      = Direct.rebSpellQ_inline H x.p x.rest ∧
    Valist.rebSpellIntoWide H x.buf x.buf_chars x.p x.rest
      = Direct.rebSpellIntoWide_inline H x.buf x.buf_chars x.p x.rest ∧
    Valist.rebSpellIntoWideQ H x.buf x.buf_chars x.p x.rest
      = Direct.rebSpellIntoWideQ_inline H x.buf x.buf_chars x.p x.rest ∧
    Valist.rebSpellWide H x.p x.rest
      = Direct.rebSpellWide_inline H x.p x.rest ∧
    Valist.rebSpellWideQ H x.p x.rest
      = Direct.rebSpellWideQ_inline H x.p x.rest ∧
    Valist.rebBytesInto H x.buf x.buf_size x.p x.rest
      = Direct.rebBytesInto_inline H x.buf x.buf_size x.p x.rest ∧
    Valist.rebBytesIntoQ H x.buf x.buf_size x.p x.rest
      = Direct.rebBytesIntoQ_inline H x.buf x.buf_size x.p x.rest ∧
    Valist.rebBytes H x.size_out x.p x.rest
      = Direct.rebBytes_inline H x.size_out x.p x.rest ∧
    Valist.rebBytesQ H x.size_out x.p x.rest
      = Direct.rebBytesQ_inline H x.size_out x.p x.rest ∧
    Valist.rebRescue H x.dangerous x.opaq
      = Direct.rebRescue_inline H x.dangerous x.opaq ∧
    Valist.rebRescueWith H x.dangerous x.rescuer x.opaq
      = Direct.rebRescueWith_inline H x.dangerous x.rescuer x.opaq ∧
    Valist.rebHalt H
      = Direct.rebHalt_inline H ∧
    Valist.rebQUOTING H x.p x.rest
      = Direct.rebQUOTING_inline H x.p x.rest ∧
    Valist.rebQUOTINGQ H x.p x.rest
      = Direct.rebQUOTINGQ_inline H x.p x.rest ∧
    Valist.rebUNQUOTING H x.p x.rest
      = Direct.rebUNQUOTING_inline H x.p x.rest ∧
    Valist.rebUNQUOTINGQ H x.p x.rest
      = Direct.rebUNQUOTINGQ_inline H x.p x.rest ∧
    Valist.rebRELEASING H x.v
      = Direct.rebRELEASING_inline H x.v ∧
    Valist.rebManage H x.v
      = Direct.rebManage_inline H x.v ∧
    Valist.rebUnmanage H x.p
      = Direct.rebUnmanage_inline H x.p ∧
    Valist.rebRelease H x.v
      = Direct.rebRelease_inline H x.v ∧
    Valist.rebDeflateAlloc H x.out_len x.input x.in_len
      = Direct.rebDeflateAlloc_inline H x.out_len x.input x.in_len ∧
    Valist.rebZdeflateAlloc H x.out_len x.input x.in_len
      = Direct.rebZdeflateAlloc_inline H x.out_len x.input x.in_len ∧
    Valist.rebGzipAlloc H x.out_len x.input x.in_len
      = Direct.rebGzipAlloc_inline H x.out_len x.input x.in_len ∧
    Valist.rebInflateAlloc H x.len_out x.input x.len_in x.max
      = Direct.rebInflateAlloc_inline H x.len_out x.input x.len_in x.max ∧
    Valist.rebZinflateAlloc H x.len_out x.input x.len_in x.max
      = Direct.rebZinflateAlloc_inline H x.len_out x.input x.len_in x.max ∧
    Valist.rebGunzipAlloc H x.len_out x.input x.len_in x.max
      = Direct.rebGunzipAlloc_inline H x.len_out x.input x.len_in x.max ∧
    Valist.rebDeflateDetectAlloc H x.len_out x.input x.len_in x.max
      = Direct.rebDeflateDetectAlloc_inline H x.len_out x.input x.len_in x.max ∧
    Valist.rebFail_OS d H x.errnum
      = Direct.rebFail_OS_inline d H x.errnum ∧
    (Valist.logs d ans x).map (fun o => Observed.mk (o.name ++ "_inline") o.log)
      = Direct.logs d ans x :=
  ⟨rfl, rfl, rfl, rfl, rfl, rfl, rfl, rfl, rfl, rfl, rfl, rfl, rfl, rfl, rfl, rfl, rfl, rfl,
    rfl, rfl, rfl, rfl, rfl, rfl, rfl, rfl, rfl, rfl, rfl, rfl, rfl, rfl, rfl, rfl, rfl, rfl,
    rfl, rfl, rfl, rfl, rfl, rfl, rfl, rfl, rfl, rfl, rfl, rfl, rfl, rfl, rfl, rfl, rfl, rfl,
    rfl, rfl, rfl, rfl, rfl, rfl, rfl, rfl, rfl, rfl, rfl, rfl, rfl, rfl, rfl, rfl, rfl, rfl,
    rfl, rfl, rfl, rfl, rfl, rfl, rfl, rfl, rfl⟩

theorem expandAccessorCall_of_find (defs : List Define) (name : String) (m : Define)
    (more : List String)
    (hfind : defs.find? (fun m => decide (m.name = name)) = some m) :
    expandAccessorCall defs (name :: "(" :: more) = m.expandCall more.dropLast := by
  simp [expandAccessorCall, hfind]

theorem dropLast_parenthesised (a : List String) :
    ("(" :: (a ++ [")", ",", "rebEND", ")"])).dropLast = "(" :: (a ++ [")", ",", "rebEND"]) := by
  have h : "(" :: (a ++ [")", ",", "rebEND", ")"])
      = ("(" :: (a ++ [")", ",", "rebEND"])) ++ [")"] := by simp
  rw [h, List.dropLast_concat]

theorem expandCall_alias (name fn : String) (argTokens : List String) :
    (Define.mk name false [fn]).expandCall argTokens = [fn, "("] ++ argTokens ++ [")"] := by
  simp [Define.expandCall]

/-- C21: `rebQ` and `rebU` are aliases of `rebQUOTING` and `rebUNQUOTING`, and
`rebQ1(v)` and `rebU1(v)` expand to `rebQUOTING((v), rebEND)` and
`rebUNQUOTING((v), rebEND)`.  Through the accessor macros of default mode
these become the calls of `rebQUOTING_inline` and `rebUNQUOTING_inline` with
`(v), rebEND, rebEND`, and under `REBOL_EXPLICIT_END` with `(v), rebEND`.  The
backend is called with quote level 0 and is handed `v, rebEND, rebEND` in
default mode and `v, rebEND` under `REBOL_EXPLICIT_END`; when `v` is not the
sentinel, the arguments before the first sentinel are `[v]` in both. -/
theorem rebQ1_reaches_backend_with_v_then_END (mem : Memory) (ans : Answers)
    (arg : List String) (v : Ptr) (hv : isEND mem v = false) :
    aliasOf shorthands "rebQ" = ["rebQUOTING"] ∧
    aliasOf shorthands "rebU" = ["rebUNQUOTING"] ∧
    (shorthands.find? (fun m => m.name = "rebQ1")).map (fun m => m.expand shorthands arg)
      = some ("rebQUOTING" :: "(" :: "(" :: (arg.flatMap (aliasOf shorthands)
          ++ [")", ",", "rebEND", ")"])) ∧
    (shorthands.find? (fun m => m.name = "rebU1")).map (fun m => m.expand shorthands arg)
      = some ("rebUNQUOTING" :: "(" :: "(" :: (arg.flatMap (aliasOf shorthands)
          ++ [")", ",", "rebEND", ")"])) ∧
    expandAccessorCall (accessorDefines false false)
        ("rebQUOTING" :: "(" :: "(" :: (arg ++ [")", ",", "rebEND", ")"]))
      = "rebQUOTING_inline" :: "(" :: "(" :: (arg ++ [")", ",", "rebEND", ",", "rebEND", ")"]) ∧
    expandAccessorCall (accessorDefines true false)
        ("rebQUOTING" :: "(" :: "(" :: (arg ++ [")", ",", "rebEND", ")"]))
      = "rebQUOTING_inline" :: "(" :: "(" :: (arg ++ [")", ",", "rebEND", ")"]) ∧
    expandAccessorCall (accessorDefines false false)
        ("rebUNQUOTING" :: "(" :: "(" :: (arg ++ [")", ",", "rebEND", ")"]))
      = "rebUNQUOTING_inline" :: "(" :: "(" ::
          (arg ++ [")", ",", "rebEND", ",", "rebEND", ")"]) ∧
    expandAccessorCall (accessorDefines true false)
        ("rebUNQUOTING" :: "(" :: "(" :: (arg ++ [")", ",", "rebEND", ")"]))
      = "rebUNQUOTING_inline" :: "(" :: "(" :: (arg ++ [")", ",", "rebEND", ")"]) ∧
    observe (rebQ1 false (recorder ans) v)
      = (ans.ptr (Event.call "RL_rebQUOTING"
            [CVal.unsigned_char 0, CVal.ptr v, CVal.va_list ⟨[rebEND, rebEND]⟩]),
         [Event.enter, Event.call "RL_rebQUOTING"
            [CVal.unsigned_char 0, CVal.ptr v, CVal.va_list ⟨[rebEND, rebEND]⟩]]) ∧
    observe (rebQ1 true (recorder ans) v)
      = (ans.ptr (Event.call "RL_rebQUOTING"
            [CVal.unsigned_char 0, CVal.ptr v, CVal.va_list ⟨[rebEND]⟩]),
         [Event.enter, Event.call "RL_rebQUOTING"
            [CVal.unsigned_char 0, CVal.ptr v, CVal.va_list ⟨[rebEND]⟩]]) ∧
    observe (rebU1 false (recorder ans) v)
      = (ans.ptr (Event.call "RL_rebUNQUOTING"
            [CVal.unsigned_char 0, CVal.ptr v, CVal.va_list ⟨[rebEND, rebEND]⟩]),
         [Event.enter, Event.call "RL_rebUNQUOTING"
            [CVal.unsigned_char 0, CVal.ptr v, CVal.va_list ⟨[rebEND, rebEND]⟩]]) ∧
    observe (rebU1 true (recorder ans) v)
      = (ans.ptr (Event.call "RL_rebUNQUOTING"
            [CVal.unsigned_char 0, CVal.ptr v, CVal.va_list ⟨[rebEND]⟩]),
         [Event.enter, Event.call "RL_rebUNQUOTING"
            [CVal.unsigned_char 0, CVal.ptr v, CVal.va_list ⟨[rebEND]⟩]]) ∧
    readSeq mem [v, rebEND, rebEND] = some [v] ∧
    readSeq mem [v, rebEND] = some [v] := by
  have halias : ∀ t : String, t = "(" ∨ t = ")" ∨ t = "," ∨ t = "rebEND" →
      aliasOf shorthands t = [t] := by
    intro t ht
    rcases ht with rfl | rfl | rfl | rfl <;> decide
  have hQ : aliasOf shorthands "rebQ" = ["rebQUOTING"] := by decide
  have hU : aliasOf shorthands "rebU" = ["rebUNQUOTING"] := by decide
  have hfQ1 : shorthands.find? (fun m => m.name = "rebQ1")
      = some (Shorthand.mk "rebQ1" (some ["v"])
          ["rebQ", "(", "(", "v", ")", ",", "rebEND", ")"]) := by decide
  have hfU1 : shorthands.find? (fun m => m.name = "rebU1")
      = some (Shorthand.mk "rebU1" (some ["v"])
          ["rebU", "(", "(", "v", ")", ",", "rebEND", ")"]) := by decide
  have hiQ : (accessorDefines false false).find? (fun m => decide (m.name = "rebQUOTING"))
      = some (Define.mk "rebQUOTING" true
          ["rebQUOTING_inline", "(", "__VA_ARGS__", ",", "rebEND", ")"]) := by decide
  have heQ : (accessorDefines true false).find? (fun m => decide (m.name = "rebQUOTING"))
      = some (Define.mk "rebQUOTING" false ["rebQUOTING_inline"]) := by decide
  have hiU : (accessorDefines false false).find? (fun m => decide (m.name = "rebUNQUOTING"))
      = some (Define.mk "rebUNQUOTING" true
          ["rebUNQUOTING_inline", "(", "__VA_ARGS__", ",", "rebEND", ")"]) := by decide
  have heU : (accessorDefines true false).find? (fun m => decide (m.name = "rebUNQUOTING"))
      = some (Define.mk "rebUNQUOTING" false ["rebUNQUOTING_inline"]) := by decide
  refine ⟨hQ, hU, ?_, ?_, ?_, ?_, ?_, ?_, rfl, rfl, rfl, rfl, ?_, ?_⟩
  · rw [hfQ1]
    simp [Shorthand.expand, List.flatMap_append, hQ, halias]
  · rw [hfU1]
    simp [Shorthand.expand, List.flatMap_append, hU, halias]
  · rw [expandAccessorCall_of_find _ _ _ _ hiQ, dropLast_parenthesised,
      expandCall_appending _ _ (by decide)]
    simp
  · rw [expandAccessorCall_of_find _ _ _ _ heQ, dropLast_parenthesised, expandCall_alias]
    simp
  · rw [expandAccessorCall_of_find _ _ _ _ hiU, dropLast_parenthesised,
      expandCall_appending _ _ (by decide)]
    simp
  · rw [expandAccessorCall_of_find _ _ _ _ heU, dropLast_parenthesised, expandCall_alias]
    simp
  · simp [readSeq, readArgs, va_start, readFrom, hv, isEND_rebEND]
  · simp [readSeq, readArgs, va_start, readFrom, hv, isEND_rebEND]

/-- C21, witness: `rebQ1(v)` for a handle `v`. -/
theorem rebQ1_reaches_backend_with_v_then_END_witness :
    (shorthands.find? (fun m => m.name = "rebQ1")).map (fun m => m.expand shorthands ["v"])
      = some ["rebQUOTING", "(", "(", "v", ")", ",", "rebEND", ")"] ∧
    logOf (rebQ1 false (recorder Answers.returning) (Ptr.obj 3))
      = [Event.enter, Event.call "RL_rebQUOTING"
          [CVal.unsigned_char 0, CVal.ptr (Ptr.obj 3), CVal.va_list ⟨[rebEND, rebEND]⟩]] ∧
    readSeq (fun _ => none) [Ptr.obj 3, rebEND, rebEND] = some [Ptr.obj 3] :=
  ⟨(rebQ1_reaches_backend_with_v_then_END (fun _ => none) Answers.returning ["v"]
      (Ptr.obj 3) rfl).2.2.1,
   rfl,
   (rebQ1_reaches_backend_with_v_then_END (fun _ => none) Answers.returning ["v"]
      (Ptr.obj 3) rfl).2.2.2.2.2.2.2.2.2.2.2.2.1⟩

/-- C22: the functions valist.c defines are, in the order of the file, the
shims that cover the fields of `RL_LIB` after `rebEnterApi_internal`, in the
order of the table: for each of the 20 fields that take a quote level the two
shims `rebX` and `rebXQ`, for each of the other 40 fields the one shim of its
name, with the field's return type and parameters; `rebEnterApi_internal`,
the first field, has no shim; and there are 80 shims, with no name twice. -/
theorem shims_cover_the_table_exactly :
    Valist.definitions.map Definition.head = RL_LIB_fields.tail.flatMap shimsFor ∧
    RL_LIB_fields.head?.map Decl.name = some "rebEnterApi_internal" ∧
    "rebEnterApi_internal" ∉ Valist.definitions.map Definition.name ∧
    (RL_LIB_fields.tail.filter takesQuotes).length = 20 ∧
    (RL_LIB_fields.tail.filter (fun f => !takesQuotes f)).length = 40 ∧
    (∀ f ∈ RL_LIB_fields.tail, takesQuotes f = true →
      (Valist.definitions.map Definition.name).count f.name = 1 ∧
      (Valist.definitions.map Definition.name).count (f.name ++ "Q") = 1) ∧
    (∀ f ∈ RL_LIB_fields.tail, takesQuotes f = false →
      (Valist.definitions.map Definition.name).count f.name = 1 ∧
      (Valist.definitions.map Definition.name).count (f.name ++ "Q") = 0) ∧
    Valist.definitions.length = 80 ∧
    (Valist.definitions.map Definition.name).Nodup := by
  refine ⟨by decide, by decide, by decide, by decide, by decide, by decide, by decide,
    by decide, by decide⟩

/-- C23: for UTF-8 text, wide text and bytes, valist.c has an entry that takes
a buffer and its capacity and returns a size (`rebSpellInto`,
`rebSpellIntoWide`, `rebBytesInto`) and an entry that returns a buffer pointer
(`rebSpell`, `rebSpellWide`, `rebBytes`), each as a plain shim and as a `Q`
shim, all variadic after `p`; and `RL_LIB` has the six fields behind them. -/
theorem materialization_entries_come_in_both_forms :
    (∀ h ∈
      [("size_t", "rebSpellInto",
          [("char *", "buf"), ("size_t", "buf_size"), ("const void *", "p")], true),
       ("size_t", "rebSpellIntoQ",
          [("char *", "buf"), ("size_t", "buf_size"), ("const void *", "p")], true),
       ("char *", "rebSpell", [("const void *", "p")], true),
       ("char *", "rebSpellQ", [("const void *", "p")], true),
       ("unsigned int", "rebSpellIntoWide",
          [("REBWCHAR *", "buf"), ("unsigned int", "buf_chars"), ("const void *", "p")], true),
       ("unsigned int", "rebSpellIntoWideQ",
          [("REBWCHAR *", "buf"), ("unsigned int", "buf_chars"), ("const void *", "p")], true),
       ("REBWCHAR *", "rebSpellWide", [("const void *", "p")], true),
       ("REBWCHAR *", "rebSpellWideQ", [("const void *", "p")], true),
       ("size_t", "rebBytesInto",
          [("unsigned char *", "buf"), ("size_t", "buf_size"), ("const void *", "p")], true),
       ("size_t", "rebBytesIntoQ",
          [("unsigned char *", "buf"), ("size_t", "buf_size"), ("const void *", "p")], true),
       ("unsigned char *", "rebBytes", [("size_t *", "size_out"), ("const void *", "p")], true),
       ("unsigned char *", "rebBytesQ",
          [("size_t *", "size_out"), ("const void *", "p")], true)],
      h ∈ Valist.definitions.map Definition.head) ∧
    (RL_LIB_fields.filter (fun f =>
        decide (f.name ∈ ["rebSpellInto", "rebSpell", "rebSpellIntoWide", "rebSpellWide",
          "rebBytesInto", "rebBytes"]))).map (fun f => (f.ret, f.name))
      = [("size_t", "rebSpellInto"), ("char *", "rebSpell"),
         ("unsigned int", "rebSpellIntoWide"), ("REBWCHAR *", "rebSpellWide"),
         ("size_t", "rebBytesInto"), ("unsigned char *", "rebBytes")] := by
  refine ⟨by decide, by decide⟩

/-- C24: `rebAlloc(t)` is `cast(t *, rebMalloc(sizeof(t)))` and `rebAllocN(t, n)`
is `cast(t *, rebMalloc(sizeof(t) * (n)))`.  For an element of `s` bytes,
`rebAlloc` asks `RL_rebMalloc` for `s` bytes and `rebAllocN`, with a `size_t`
of `w` bits, for `(s * n) mod 2^w` bytes, which is `s * n` exactly when
`s * n < 2^w`. -/
theorem rebAllocN_requests_product_modulo_width (w : Nat) (ans : Answers) (s n : Nat) :
    allocators.map (fun m => (m.name, m.params, m.body))
      = [("rebAlloc", some ["t"],
          ["cast", "(", "t", "*", ",", "rebMalloc", "(", "sizeof", "(", "t", ")", ")", ")"]),
         ("rebAllocN", some ["t", "n"],
          ["cast", "(", "t", "*", ",", "rebMalloc", "(", "sizeof", "(", "t", ")", "*",
           "(", "n", ")", ")", ")"])] ∧
    observe (rebAlloc (recorder ans) s)
      = (ans.ptr (Event.call "RL_rebMalloc" [CVal.size_t s]),
         [Event.enter, Event.call "RL_rebMalloc" [CVal.size_t s]]) ∧
    observe (rebAllocN w (recorder ans) s n)
      = (ans.ptr (Event.call "RL_rebMalloc" [CVal.size_t ((s * n) % 2 ^ w)]),
         [Event.enter, Event.call "RL_rebMalloc" [CVal.size_t ((s * n) % 2 ^ w)]]) ∧
    sizeofTimes w s n = (s * n) % 2 ^ w ∧
    (sizeofTimes w s n = s * n ↔ s * n < 2 ^ w) := by
  refine ⟨by decide, rfl, rfl, rfl, ?_⟩
  unfold sizeofTimes
  constructor
  · intro h
    rw [← h]
    exact Nat.mod_lt _ (Nat.two_pow_pos w)
  · exact Nat.mod_eq_of_lt

/-- C25: with `REBOL_EXPLICIT_END` undefined, the `#error` of rebol.h is raised
exactly when `__STDC_VERSION__` is not defined as at least 199901,
`__cplusplus` is not defined as at least 201103, and `CPLUSPLUS_11` is not
defined; with `REBOL_EXPLICIT_END` defined it is never raised. -/
theorem error_raised_iff_no_variadic_macros (c : Compiler) :
    (c.REBOL_EXPLICIT_END = false →
      (errorRaised c = true ↔
        ¬ (∃ v, c.STDC_VERSION = some v ∧ v ≥ 199901) ∧
        ¬ (∃ v, c.cplusplus = some v ∧ v ≥ 201103) ∧
        c.CPLUSPLUS_11 = false)) ∧
    (c.REBOL_EXPLICIT_END = true → errorRaised c = false) := by
  obtain ⟨e, stdc, cpp, c11⟩ := c
  refine ⟨?_, ?_⟩
  · intro he
    simp only at he
    subst he
    cases stdc <;> cases cpp <;> cases c11 <;> simp [errorRaised]
  · intro he
    simp only at he
    subst he
    rfl

/-- C26, counterexample: in both accessor blocks of rebol.h the accessor
`rebEnterApi_internal` is defined as `rebEnterApi_internal_inline`, and
neither branch of rebol.h defines a function of that name. -/
theorem accessor_rebEnterApi_internal_has_no_inline :
    Define.mk "rebEnterApi_internal" false ["rebEnterApi_internal_inline"]
      ∈ accessorDefines false false ∧
    Define.mk "rebEnterApi_internal" false ["rebEnterApi_internal_inline"]
      ∈ accessorDefines true false ∧
    "rebEnterApi_internal_inline" ∉ Ext.definitions.map Definition.name ∧
    "rebEnterApi_internal_inline" ∉ Direct.definitions.map Definition.name := by
  refine ⟨by decide, by decide, by decide, by decide⟩

/-- C26, amended: every accessor of either block other than
`rebEnterApi_internal`, 80 in each block, is defined as the name of the
accessor followed by `_inline`, and both the REB_EXT branch and the directly
linked branch of rebol.h define an inline function of that name.  The table
entry `rebEnterApi_internal` has an accessor in each block and no inline
function in either branch, as it has no shim in valist.c. -/
theorem accessors_refer_to_inlines_except_rebEnterApi_internal :
    (∀ m ∈ accessorDefines false false, m.name ≠ "rebEnterApi_internal" →
      m.body.head? = some (m.name ++ "_inline") ∧
      m.name ++ "_inline" ∈ Ext.definitions.map Definition.name ∧
      m.name ++ "_inline" ∈ Direct.definitions.map Definition.name) ∧
    (∀ m ∈ accessorDefines true false, m.name ≠ "rebEnterApi_internal" →
      m.body.head? = some (m.name ++ "_inline") ∧
      m.name ++ "_inline" ∈ Ext.definitions.map Definition.name ∧
      m.name ++ "_inline" ∈ Direct.definitions.map Definition.name) ∧
    ((accessorDefines false false).filter
        (fun m => decide (m.name ≠ "rebEnterApi_internal"))).length = 80 ∧
    ((accessorDefines true false).filter
        (fun m => decide (m.name ≠ "rebEnterApi_internal"))).length = 80 ∧
    ((accessorDefines false false).filter
        (fun m => decide (m.name = "rebEnterApi_internal"))).length = 1 ∧
    ((accessorDefines true false).filter
        (fun m => decide (m.name = "rebEnterApi_internal"))).length = 1 ∧
    "rebEnterApi_internal" ∉ Valist.definitions.map Definition.name ∧
    (Ext.definitions.map Definition.name).length = 80 ∧
    (Direct.definitions.map Definition.name).length = 80 := by
  refine ⟨by decide, by decide, by decide, by decide, by decide, by decide, by decide,
    by decide, by decide⟩

end Renc
